import Mathlib

/-! B.C Bencyn Susu front end: content fetch and normalisation layer.

A shallow embedding of the pure logic of the React front end
(`frontend/src/config/api.js`, `frontend/src/pages/*.js`,
`frontend/src/components/Footer.js`) together with the properties the
specification states about it.

JavaScript values are embedded as the inductive type `JSValue`; an expression
that can raise an exception is embedded as a function into `Except JSError`.
-/

namespace BencynSusu

/-! ## JavaScript values -/

/-- Values that the transport layer can hand over as `response.data` (parsed JSON, plus
`undefined` for an absent body or an absent property). The numeric payload is kept as an
integer: the code in scope observes whether a number is zero and, where a number is made a
date, its value as a count of milliseconds. An object is its list of own properties in
insertion order. -/
inductive JSValue where
  | undefined
  | null
  | bool (b : Bool)
  | num (n : Int)
  | str (s : String)
  | arr (items : List JSValue)
  | obj (fields : List (String × JSValue))

/-- Exceptions raised while evaluating an expression. -/
inductive JSError where
  | typeError
  | rangeError
  deriving DecidableEq

namespace JSValue

/-- The test `Array.isArray(v)`. -/
def isArray : JSValue → Bool
  | arr _ => true
  | _ => false

/-- The conversion `ToBoolean(v)` used by `if`, `!`, `&&`, `||` and `?:`. -/
def truthy : JSValue → Bool
  | undefined => false
  | null => false
  | bool b => b
  | num n => n != 0
  | str s => s != ""
  | arr _ => true
  | obj _ => true

/-- The property read `v.key` for an ordinary data-property name (`results`, `title`, ...)
that no built-in prototype defines. Reading a property of `null` or `undefined` throws a
`TypeError`; primitives and arrays have no such own property; an object yields the stored
value, or `undefined` when the key is absent. Reads of `length` and of index 0 are
`JSValue.length` and `JSValue.first`. -/
def getProp (v : JSValue) (key : String) : Except JSError JSValue :=
  match v with
  | undefined => .error .typeError
  | null => .error .typeError
  | obj fields => .ok ((fields.lookup key).getD undefined)
  | _ => .ok undefined

/-- The read `a.length` of an array value (zero for any other value where the code in scope
has already established `Array.isArray`). -/
def length : JSValue → Nat
  | arr items => items.length
  | _ => 0

/-- The read `a[0]` of an array value: the first element, `undefined` when there is none. -/
def first : JSValue → JSValue
  | arr (x :: _) => x
  | _ => undefined

/-- The expression `a || b` where `b` is evaluated only when `a` is falsy. -/
def orElse (a : JSValue) (b : Unit → Except JSError JSValue) : Except JSError JSValue :=
  if a.truthy then .ok a else b ()

/-- The condition `a && e` for a boolean-valued `e`, which is evaluated only when `a` is
truthy; the condition is false for a falsy `a`. -/
def andCond (a : JSValue) (e : Unit → Except JSError Bool) : Except JSError Bool :=
  if a.truthy then e () else .ok false

/-- The operator `typeof v`. -/
def typeOf : JSValue → String
  | undefined => "undefined"
  | null => "object"
  | bool _ => "boolean"
  | num _ => "number"
  | str _ => "string"
  | arr _ => "object"
  | obj _ => "object"

/-- The optional read `v?.key`: `undefined` when `v` is `null` or `undefined`, the property
read otherwise. It never throws. -/
def optProp (v : JSValue) (key : String) : JSValue :=
  match v with
  | obj fields => (fields.lookup key).getD undefined
  | _ => undefined

/-- The expression `a || b` for an operand `b` whose evaluation cannot throw. -/
protected def or (a b : JSValue) : JSValue :=
  if a.truthy then a else b

/-- The comparison `v === "s"` with a string literal. -/
def strictEqStr (v : JSValue) (s : String) : Bool :=
  match v with
  | str t => t == s
  | _ => false

/-- The assignment of one property in an object literal or spread: an existing key keeps its
place and takes the new value, a new key is appended. -/
def setField (fields : List (String × JSValue)) (key : String) (value : JSValue) :
    List (String × JSValue) :=
  if fields.any (fun p => p.1 == key) then
    fields.map (fun p => if p.1 == key then (key, value) else p)
  else fields ++ [(key, value)]

/-- The own enumerable properties copied by the spread `{...v}`: the fields of an object,
the indexed elements of an array, the indexed characters of a string, nothing for the other
values. -/
def spread : JSValue → List (String × JSValue)
  | obj fields => fields
  | arr items => items.enum.map (fun p => (toString p.1, p.2))
  | str s => s.toList.enum.map (fun p => (toString p.1, str (String.singleton p.2)))
  | _ => []

mutual
/-- The conversion `String(v)`: an array is its elements joined by a comma, every object is
`[object Object]`. -/
def toStr : JSValue → String
  | undefined => "undefined"
  | null => "null"
  | bool b => if b then "true" else "false"
  | num n => toString n
  | str s => s
  | arr items => joinStr "," items
  | obj _ => "[object Object]"
termination_by structural v => v
/-- The method `items.join(sep)`: `null` and `undefined` elements count as the empty
string. -/
def joinStr (sep : String) : List JSValue → String
  | [] => ""
  | x :: rest =>
    (match x with
      | undefined => ""
      | null => ""
      | v => toStr v) ++ (if rest.isEmpty then "" else sep ++ joinStr sep rest)
termination_by structural l => l
end

end JSValue

open JSValue

/-! ## Dates -/

/-- What the date code takes from outside the repository. `parse` is the engine's
`Date.parse`, whose result for a string outside the ISO format is left to the engine; `none`
is `NaN`. `formatValid` is the text that `format` of date-fns gives for a valid time value
and a pattern, which depends on the time zone of the browser. -/
structure DateEnv where
  parse : String → Option Int
  formatValid : Int → String → String

/-- The time value, in milliseconds, of the date `new Date(value)`; `none` is the invalid
date. A string is parsed; `undefined` converts to `NaN`, `null` to 0, a boolean to 0 or 1, a
number is kept when it is within 8.64e15 milliseconds of the epoch; an array or an object is
converted to a string first. -/
def newDate (env : DateEnv) (value : JSValue) : Option Int :=
  match value with
  | .undefined => none
  | .null => some 0
  | .bool b => some (if b then 1 else 0)
  | .num n => if n.natAbs ≤ 8640000000000000 then some n else none
  | .str s => env.parse s
  | v => env.parse v.toStr

/-- The function `format` of date-fns in the versions whose patterns the pages use (`d`,
`yyyy`): a `RangeError` for an invalid date, the formatted text for a valid one. -/
def DateFns.format (env : DateEnv) (date : Option Int) (formatStr : String) :
    Except JSError String :=
  match date with
  | some t => .ok (env.formatValid t formatStr)
  | none => .error .rangeError

/-- How the promise of `axiosInstance.get` settles: fulfilled with a response whose `data` is
given, or rejected with an error whose `code` is a string or absent. -/
inductive GetOutcome where
  | resolved (data : JSValue)
  | rejected (code : Option String)

/-! ## `config/api.js` -/

/-- An axios response, of which the code in scope reads only the field `data`. -/
structure Response where
  data : JSValue

/-- The base URL `process.env.REACT_APP_API_URL || "http://localhost:8000"`. The environment
variable is `none` when unset (`undefined`) and `some v` when set to the string `v`; a string
is truthy exactly when it is not empty. -/
def API_BASE_URL (env : Option String) : String :=
  match env with
  | some v => if (str v).truthy then v else "http://localhost:8000"
  | none => "http://localhost:8000"

/-- The shape of the object `API_ENDPOINTS`. -/
structure ApiEndpoints where
  CONTACT : String
  CONTACT_INFORMATION : String
  SERVICES : String
  TESTIMONIALS : String
  HERO_IMAGES : String
  PAGE_IMAGES : String
  BLOG_POSTS : String
  UPDATES : String
  GALLERY : String
  ABOUT_PAGE : String
  ABOUT_STORY : String
  ABOUT_MISSION : String
  ABOUT_VISION : String
  ABOUT_VALUES_HEADER : String
  ABOUT_TIMELINE_HEADER : String
  ABOUT_VALUES : String
  ABOUT_TIMELINE_ITEMS : String

/-- The object `API_ENDPOINTS` of `config/api.js`, every entry a template literal over the
base URL. -/
def API_ENDPOINTS (base : String) : ApiEndpoints where
  CONTACT := base ++ "/api/contact/"
  CONTACT_INFORMATION := base ++ "/api/contact-information/"
  SERVICES := base ++ "/api/services/"
  TESTIMONIALS := base ++ "/api/testimonials/"
  HERO_IMAGES := base ++ "/api/hero-images/"
  PAGE_IMAGES := base ++ "/api/page-images/"
  BLOG_POSTS := base ++ "/api/blog-posts/"
  UPDATES := base ++ "/api/updates/"
  GALLERY := base ++ "/api/gallery/"
  ABOUT_PAGE := base ++ "/api/about-page/"
  ABOUT_STORY := base ++ "/api/about-story/"
  ABOUT_MISSION := base ++ "/api/about-mission/"
  ABOUT_VISION := base ++ "/api/about-vision/"
  ABOUT_VALUES_HEADER := base ++ "/api/about-values-header/"
  ABOUT_TIMELINE_HEADER := base ++ "/api/about-timeline-header/"
  ABOUT_VALUES := base ++ "/api/about-values/"
  ABOUT_TIMELINE_ITEMS := base ++ "/api/about-timeline-items/"

/-- The function `getDataArray` of `config/api.js`. -/
def getDataArray (response : Response) : Except JSError JSValue := do
  let data := response.data
  if data.isArray then
    return data
  if ← data.andCond (fun _ => do return (← data.getProp "results").isArray) then
    return ← data.getProp "results"
  return arr []

/-- The function `getFirstItem` of `config/api.js`. -/
def getFirstItem (response : Response) : Except JSError JSValue := do
  let dataArray ← getDataArray response
  return (if dataArray.length > 0 then dataArray.first else null)

/-! ## Response handling inside the pages -/

/-- The list `postsArray` that `fetchPosts` of `pages/Blog.js` passes to `setPosts`. -/
def Blog.postsArray (data : JSValue) : Except JSError JSValue := do
  let mut postsArray := arr []
  if data.isArray then
    postsArray := data
  else if ← data.andCond (fun _ => do return (← data.getProp "results").isArray) then
    postsArray ← data.getProp "results"
  else if ← data.andCond (fun _ => pure (data.typeOf == "object")) then
    postsArray := arr []
  return postsArray

/-- The list `itemsArray` that `fetchGalleryItems` of `pages/Gallery.js` passes to
`setItems`. -/
def Gallery.itemsArray (data : JSValue) : Except JSError JSValue := do
  let mut itemsArray := arr []
  if data.isArray then
    itemsArray := data
  else if ← data.andCond (fun _ => do return (← data.getProp "results").isArray) then
    itemsArray ← data.getProp "results"
  return itemsArray

/-- The list `updatesArray` that `fetchUpdates` of `pages/Updates.js` passes to
`setUpdates`. -/
def Updates.updatesArray (data : JSValue) : Except JSError JSValue := do
  let mut updatesArray := arr []
  if data.isArray then
    updatesArray := data
  else if ← data.andCond (fun _ => do return (← data.getProp "results").isArray) then
    updatesArray ← data.getProp "results"
  return updatesArray

/-- The list `imagesArray` built by the hero-image fetch of `pages/Home.js`. -/
def Home.imagesArray (data : JSValue) : Except JSError JSValue := do
  let mut imagesArray := arr []
  if data.isArray then
    imagesArray := data
  else if ← data.andCond (fun _ => do return (← data.getProp "results").isArray) then
    imagesArray ← data.getProp "results"
  return imagesArray

/-- The hero-image fetch of `pages/Home.js`: `some v` when `setHeroImage(v)` is called,
`none` when the state is left alone. -/
def Home.heroImageUpdate (data : JSValue) : Except JSError (Option JSValue) := do
  let imagesArray ← Home.imagesArray data
  if imagesArray.truthy && imagesArray.length > 0 then
    return some imagesArray.first
  return none

/-- The expression `response.data.results || response.data` with which `pages/About.js`,
`pages/Contact.js`, `components/Footer.js`, `pages/Services.js` and `fetchTestimonials` of
`pages/Home.js` obtain `dataArray`. -/
def resultsOrData (data : JSValue) : Except JSError JSValue := do
  (← data.getProp "results").orElse (fun _ => pure data)

/-- The guard `Array.isArray(dataArray) && dataArray.length > 0` that follows the idiom. -/
def isNonEmptyArray (dataArray : JSValue) : Bool :=
  dataArray.isArray && dataArray.length > 0

/-- The list which the inline idiom works on: `dataArray = data.results || data`, kept when
the guard `Array.isArray(dataArray) && dataArray.length > 0` of the pages holds, the empty
list when the guard fails. -/
def inlineDataArray (data : JSValue) : Except JSError JSValue := do
  let dataArray ← resultsOrData data
  return (if isNonEmptyArray dataArray then dataArray else arr [])

/-- The record `data` of `fetchContactInformation` in `pages/Contact.js`:
`Array.isArray(dataArray) && dataArray.length > 0 ? dataArray[0] : null`. -/
def Contact.firstRecord (data : JSValue) : Except JSError JSValue := do
  let dataArray ← resultsOrData data
  return (if isNonEmptyArray dataArray then dataArray.first else null)

/-- The update of `fetchContactInfo` in `components/Footer.js`: `some v` when
`setContactInfo(v)` is called, `none` when the state is left alone. -/
def Footer.contactInfoUpdate (data : JSValue) : Except JSError (Option JSValue) := do
  let dataArray ← resultsOrData data
  if isNonEmptyArray dataArray then
    return some dataArray.first
  return none

/-- The update of `fetchTestimonials` in `pages/Home.js`: `some v` when
`setTestimonials(v)` is called, `none` when the state is left alone. -/
def Home.testimonialsUpdate (data : JSValue) : Except JSError (Option JSValue) := do
  let dataArray ← resultsOrData data
  if isNonEmptyArray dataArray then
    return some dataArray
  return none

/-! ## Regular expressions and string helpers -/

/-- The characters matched by `\s` and removed by `String.prototype.trim`: the ECMAScript
`WhiteSpace` and `LineTerminator` code points. -/
def isWhiteSpace (c : Char) : Bool :=
  let n := c.toNat
  n == 0x09 || n == 0x0A || n == 0x0B || n == 0x0C || n == 0x0D || n == 0x20 || n == 0xA0 ||
    n == 0x1680 || (0x2000 ≤ n && n ≤ 0x200A) || n == 0x2028 || n == 0x2029 || n == 0x202F ||
    n == 0x205F || n == 0x3000 || n == 0xFEFF

/-- A member of a bracketed character class: the escape `\s` or a literal character. -/
inductive ClassItem where
  | whiteSpace
  | chr (c : Char)

/-- Whether a class member covers a character. -/
def ClassItem.covers : ClassItem → Char → Bool
  | .whiteSpace, c => isWhiteSpace c
  | .chr d, c => c == d

/-- A pattern element that consumes one character: a literal (such as `@` or `\.`) or a
negated class `[^...]`. -/
inductive Atom where
  | lit (c : Char)
  | negClass (items : List ClassItem)

/-- Whether an atom accepts a character. -/
def Atom.accepts : Atom → Char → Bool
  | .lit d, c => c == d
  | .negClass items, c => !(items.any (fun i => i.covers c))

/-- The terms of the regular-expression fragment used by the front end: the assertions `^`
and `$` (no `m` flag), a single atom, and an atom under the greedy quantifier `+`. -/
inductive RegexNode where
  | inputStart
  | inputEnd
  | one (a : Atom)
  | plus (a : Atom)

/-- A pattern is a sequence of terms. -/
abbrev Regex := List RegexNode

/-- Backtracking for `a+` followed by the continuation `k`: consume one accepted character,
then first try to consume more and otherwise continue with the rest of the pattern. -/
def plusLoop (p : Char → Bool) (k : List Char → Bool) : List Char → Bool
  | [] => false
  | c :: rest => p c && (plusLoop p k rest || k rest)

/-- Backtracking match of a pattern at the current position; `atStart` tells whether the
position is the start of the input, the list is the input that remains. -/
def matchNodes : Regex → Bool → List Char → Bool
  | [], _, _ => true
  | .inputStart :: ns, atStart, s => atStart && matchNodes ns atStart s
  | .inputEnd :: ns, atStart, s => s.isEmpty && matchNodes ns atStart s
  | .one a :: ns, _, s =>
    match s with
    | [] => false
    | c :: rest => a.accepts c && matchNodes ns false rest
  | .plus a :: ns, _, s => plusLoop a.accepts (fun rest => matchNodes ns false rest) s

/-- The search of `RegExp.prototype.test` (no `g` or `y` flag): try a match at the current
position, then at every later one. -/
def searchFrom (re : Regex) : Bool → List Char → Bool
  | atStart, [] => matchNodes re atStart []
  | atStart, c :: rest => matchNodes re atStart (c :: rest) || searchFrom re false rest

/-- The method `re.test(s)`. A string is its list of characters; a character outside the
basic plane is two UTF-16 units neither of which is white space, `@` or `.`, so matching by
character agrees with matching by unit. -/
def Regex.test (re : Regex) (s : String) : Bool :=
  searchFrom re true s.toList

/-- The method `s.trim()`. -/
def jsTrim (s : String) : String :=
  String.mk ((s.toList.dropWhile isWhiteSpace).reverse.dropWhile isWhiteSpace).reverse

/-! ## `pages/Contact.js`: the contact form -/

/-- The class `[^\s@]`. -/
def notSpaceOrAt : Atom := .negClass [.whiteSpace, .chr '@']

/-- The literal `/^[^\s@]+@[^\s@]+\.[^\s@]+$/`. -/
def emailRegex : Regex :=
  [.inputStart, .plus notSpaceOrAt, .one (.lit '@'), .plus notSpaceOrAt, .one (.lit '.'),
    .plus notSpaceOrAt, .inputEnd]

/-- The function `validateEmail` of `pages/Contact.js`. -/
def validateEmail (email : String) : Bool :=
  emailRegex.test email

/-- The state `formData`: the five text fields of the form. -/
structure FormData where
  name : String
  email : String
  phone : String
  subject : String
  message : String
  deriving DecidableEq

/-- An object with string values, as its own properties in insertion order (the state
`formErrors`). -/
abbrev ErrorMap := List (String × String)

/-- The assignment `errors[key] = value`: overwrite an existing property in place, append a
new one. -/
def ErrorMap.set (m : ErrorMap) (key value : String) : ErrorMap :=
  if m.any (fun p => p.1 == key) then
    m.map (fun p => if p.1 == key then (key, value) else p)
  else m ++ [(key, value)]

/-- The function `validateForm` of `pages/Contact.js`: the object handed to `setFormErrors`
and the returned boolean `Object.keys(errors).length === 0`. -/
def validateForm (formData : FormData) : ErrorMap × Bool := Id.run do
  let mut errors : ErrorMap := []
  if !(str (jsTrim formData.name)).truthy then
    errors := errors.set "name" "Name is required"
  if !(str (jsTrim formData.email)).truthy then
    errors := errors.set "email" "Email is required"
  else if !validateEmail formData.email then
    errors := errors.set "email" "Please enter a valid email address"
  if !(str (jsTrim formData.subject)).truthy then
    errors := errors.set "subject" "Subject is required"
  if !(str (jsTrim formData.message)).truthy then
    errors := errors.set "message" "Message is required"
  return (errors, errors.length == 0)

/-- The state `submitStatus` when it is not `null`. -/
structure SubmitStatus where
  type : String
  message : String
  deriving DecidableEq

/-- The form-related state cells of the `Contact` component. -/
structure ContactState where
  formData : FormData
  formErrors : ErrorMap
  isSubmitting : Bool
  submitStatus : Option SubmitStatus
  deriving DecidableEq

/-- How the promise of `axiosInstance.post` settles: fulfilled, or rejected with an error
whose `code` is a string or absent. -/
inductive PostOutcome where
  | resolved
  | rejected (code : Option String)
  deriving DecidableEq

/-- The observable steps of an event handler, in program order: state-setter calls and
network requests. -/
inductive Effect where
  | preventDefault
  | setFormErrors (errors : ErrorMap)
  | setSubmitStatus (status : Option SubmitStatus)
  | setIsSubmitting (value : Bool)
  | setFormData (data : FormData)
  | post (url : String) (body : FormData)
  deriving DecidableEq

/-- The state after one step: a setter replaces its cell, the other steps leave the state
alone. -/
def Effect.apply (st : ContactState) : Effect → ContactState
  | .preventDefault => st
  | .setFormErrors errors => { st with formErrors := errors }
  | .setSubmitStatus status => { st with submitStatus := status }
  | .setIsSubmitting value => { st with isSubmitting := value }
  | .setFormData data => { st with formData := data }
  | .post _ _ => st

/-- The state once all steps of a handler have been applied. -/
def settle (st : ContactState) (effects : List Effect) : ContactState :=
  effects.foldl Effect.apply st

/-- The function `handleSubmit` of `pages/Contact.js` as the list of its steps, given the
endpoint table, the way the network settles a POST and the state the handler closes over. -/
def handleSubmit (endpoints : ApiEndpoints) (net : String → FormData → PostOutcome)
    (st : ContactState) : List Effect :=
  let formData := st.formData
  let validation := validateForm formData
  [.preventDefault, .setFormErrors validation.1] ++
  if !validation.2 then
    [.setSubmitStatus (some ⟨"error", "Please fix the errors in the form before submitting."⟩)]
  else
    [.setIsSubmitting true, .setSubmitStatus none, .post endpoints.CONTACT formData] ++
    (match net endpoints.CONTACT formData with
      | .resolved =>
        [.setSubmitStatus
            (some ⟨"success", "Thank you! Your message has been sent successfully."⟩),
          .setFormData ⟨"", "", "", "", ""⟩,
          .setFormErrors []]
      | .rejected code =>
        if code == some "ECONNABORTED" then
          [.setSubmitStatus (some ⟨"error",
            "Request timed out. Please check your connection and try again."⟩)]
        else
          [.setSubmitStatus (some ⟨"error",
            "Sorry, there was an error sending your message. Please try again or contact us directly."⟩)]) ++
    [.setIsSubmitting false]

/-- The initial form state of the `Contact` component: five empty fields, `useState({})`,
`useState(false)`, `useState(null)`. -/
def ContactState.initial : ContactState :=
  { formData := ⟨"", "", "", "", ""⟩, formErrors := [], isSubmitting := false,
    submitStatus := none }

/-- The `name` attribute of the five inputs that call `handleChange`. -/
inductive FieldName where
  | name
  | email
  | phone
  | subject
  | message
  deriving DecidableEq

/-- The attribute as the property key it is used for. -/
def FieldName.key : FieldName → String
  | .name => "name"
  | .email => "email"
  | .phone => "phone"
  | .subject => "subject"
  | .message => "message"

/-- The object `{...formData, [name]: value}` of `handleChange`, for the `name` attribute of
the input `field`. -/
def FormData.update (formData : FormData) (field : FieldName) (value : String) : FormData :=
  match field with
  | .name => { formData with name := value }
  | .email => { formData with email := value }
  | .phone => { formData with phone := value }
  | .subject => { formData with subject := value }
  | .message => { formData with message := value }

/-- The read `formErrors[name]` as a condition: an absent key is `undefined`, a string is
truthy when it is not empty. -/
def ErrorMap.shows (m : ErrorMap) (key : String) : Bool :=
  match m.lookup key with
  | some message => (str message).truthy
  | none => false

/-- The function `handleChange` of `pages/Contact.js` as the list of its steps, for the
input `field` (its `name` attribute is `field.key`) and the typed `value`. -/
def handleChange (field : FieldName) (value : String) (st : ContactState) : List Effect :=
  [.setFormData (st.formData.update field value)] ++
  if st.formErrors.shows field.key then
    [.setFormErrors (ErrorMap.set st.formErrors field.key "")]
  else []

/-- What the user does with the form: type into one input, or submit while the network
settles the POST in the given way. -/
inductive FormEvent where
  | change (field : FieldName) (value : String)
  | submit (outcome : PostOutcome)

/-- The form state after the handler of one event has settled. -/
def ContactState.step (endpoints : ApiEndpoints) (st : ContactState) :
    FormEvent → ContactState
  | .change field value => settle st (handleChange field value st)
  | .submit outcome => settle st (handleSubmit endpoints (fun _ _ => outcome) st)

/-- The form state after a sequence of events, from the initial state. -/
def ContactState.after (endpoints : ApiEndpoints) (events : List FormEvent) : ContactState :=
  events.foldl (ContactState.step endpoints) ContactState.initial

/-! ## `pages/Contact.js` and `components/Footer.js`: contact information -/

/-- One card of the contact-information grid. -/
structure InfoCard where
  icon : String
  title : String
  details : List JSValue

/-- The function `getDefaultContactInfo` of `pages/Contact.js`. -/
def getDefaultContactInfo : List InfoCard :=
  [ { icon := "📍", title := "Address",
      details := [str "Your Business Address", str "City, Country"] },
    { icon := "📞", title := "Phone",
      details := [str "+233 XX XXX XXXX", str "+233 XX XXX XXXX"] },
    { icon := "✉️", title := "Email",
      details := [str "info@bencynsusu.com", str "support@bencynsusu.com"] },
    { icon := "🕒", title := "Business Hours",
      details := [str "Monday - Friday: 8:00 AM - 6:00 PM", str "Saturday: 9:00 AM - 2:00 PM"] } ]

/-- One of the four blocks of `fetchContactInformation`:
`if (data.a || data.b) info.push({icon, title, details: [data.a, data.b].filter(Boolean)})`. -/
def Contact.pushGroup (data : JSValue) (icon title a b : String) (info : List InfoCard) :
    Except JSError (List InfoCard) := do
  if (← (← data.getProp a).orElse (fun _ => data.getProp b)).truthy then
    return info ++ [{ icon := icon, title := title,
                      details := [← data.getProp a, ← data.getProp b].filter truthy }]
  return info

/-- The body of the `try` block of `fetchContactInformation`: the list handed to
`setContactInfo` for a response with the given `data`. -/
def Contact.contactInfoOf (responseData : JSValue) : Except JSError (List InfoCard) := do
  let data ← Contact.firstRecord responseData
  if data.truthy then
    let mut info : List InfoCard := []
    info ← Contact.pushGroup data "📍" "Address" "address_line1" "address_line2" info
    info ← Contact.pushGroup data "📞" "Phone" "phone_primary" "phone_secondary" info
    info ← Contact.pushGroup data "✉️" "Email" "email_primary" "email_secondary" info
    info ← Contact.pushGroup data "🕒" "Business Hours" "hours_weekdays" "hours_weekend" info
    return (if info.length > 0 then info else getDefaultContactInfo)
  else
    return getDefaultContactInfo

/-- The state cells `contactInfo` (`none` is `null`) and `isLoadingContact` of the `Contact`
component. -/
structure ContactInfoState where
  contactInfo : Option (List InfoCard)
  isLoadingContact : Bool

/-- The initial state `useState(null)`, `useState(true)`. -/
def ContactInfoState.initial : ContactInfoState :=
  { contactInfo := none, isLoadingContact := true }

/-- The function `fetchContactInformation` of `pages/Contact.js`, run to completion for a
request that settles as `outcome`: an exception in the `try` block, like a rejected request,
ends in the `catch` block; the `finally` block clears the loading flag. -/
def fetchContactInformation (outcome : GetOutcome) (st : ContactInfoState) :
    ContactInfoState :=
  let info :=
    match outcome with
    | .resolved data =>
      match Contact.contactInfoOf data with
      | .ok info => info
      | .error _ => getDefaultContactInfo
    | .rejected _ => getDefaultContactInfo
  { st with contactInfo := some info, isLoadingContact := false }

/-- The list `displayContactInfo = contactInfo || getDefaultContactInfo()`; an array is
truthy, so the default is taken only for `null`. -/
def displayContactInfo (st : ContactInfoState) : List InfoCard :=
  match st.contactInfo with
  | some info => info
  | none => getDefaultContactInfo

/-- What the contact-information column shows: the spinner or the card grid. -/
inductive ContactInfoView where
  | loading
  | cards (cards : List InfoCard)

/-- The conditional `isLoadingContact ? spinner : grid` of the `Contact` component. -/
def Contact.infoView (st : ContactInfoState) : ContactInfoView :=
  if st.isLoadingContact then .loading else .cards (displayContactInfo st)

/-- The function `fetchContactInfo` of `components/Footer.js`, run to completion: the new
value of the state cell `contactInfo`. A rejected request, an exception and a response
without a first record all leave the cell alone. -/
def Footer.fetchContactInfo (outcome : GetOutcome) (contactInfo : JSValue) : JSValue :=
  match outcome with
  | .resolved data =>
    match Footer.contactInfoUpdate data with
    | .ok (some v) => v
    | _ => contactInfo
  | .rejected _ => contactInfo

/-- The constant `address` of the `Footer` component. In the first branch one of the two
optional reads is truthy, so `contactInfo` is not `null` and the plain reads equal the
optional ones. -/
def Footer.address (contactInfo : JSValue) : JSValue :=
  if ((contactInfo.optProp "address_line1").or (contactInfo.optProp "address_line2")).truthy
  then
    str (joinStr ", "
      ([contactInfo.optProp "address_line1", contactInfo.optProp "address_line2"].filter truthy))
  else str "Your Business Address, City, Country"

/-- The constant `phone` of the `Footer` component. -/
def Footer.phone (contactInfo : JSValue) : JSValue :=
  (contactInfo.optProp "phone_primary").or (str "+233 XX XXX XXXX")

/-- The constant `email` of the `Footer` component. -/
def Footer.email (contactInfo : JSValue) : JSValue :=
  (contactInfo.optProp "email_primary").or (str "info@bencynsusu.com")


/-! ## `pages/About.js` -/

/-- The state cells of the `About` component. -/
structure AboutState where
  aboutData : JSValue
  isLoading : Bool
  storyImage : JSValue

/-- The initial state `useState(null)`, `useState(true)`, `useState(null)`. -/
def AboutState.initial : AboutState :=
  { aboutData := null, isLoading := true, storyImage := null }

/-- The `data` of the seven responses that `Promise.all` hands over when every request is
fulfilled, in the order of the array. -/
structure SectionData where
  story : JSValue
  mission : JSValue
  vision : JSValue
  valuesHeader : JSValue
  timelineHeader : JSValue
  values : JSValue
  timeline : JSValue

/-- How the seven section requests settle, in the order of the array. -/
structure SectionOutcomes where
  story : GetOutcome
  mission : GetOutcome
  vision : GetOutcome
  valuesHeader : GetOutcome
  timelineHeader : GetOutcome
  values : GetOutcome
  timeline : GetOutcome

/-- The response data of a fulfilled request, nothing for a rejected one. -/
def GetOutcome.data? : GetOutcome → Option JSValue
  | .resolved data => some data
  | .rejected _ => none

/-- The seven outcomes as a list. -/
def SectionOutcomes.toList (o : SectionOutcomes) : List GetOutcome :=
  [o.story, o.mission, o.vision, o.valuesHeader, o.timelineHeader, o.values, o.timeline]

/-- The promise `Promise.all([...])`: fulfilled with the seven responses when every request
is fulfilled, rejected (`none`) as soon as one request is rejected. -/
def SectionOutcomes.all (o : SectionOutcomes) : Option SectionData := do
  let story ← o.story.data?
  let mission ← o.mission.data?
  let vision ← o.vision.data?
  let valuesHeader ← o.valuesHeader.data?
  let timelineHeader ← o.timelineHeader.data?
  let values ← o.values.data?
  let timeline ← o.timeline.data?
  return { story, mission, vision, valuesHeader, timelineHeader, values, timeline }

/-- The expression `Array.isArray(d) && d.length > 0 ? d[0].key : null` of
`fetchAboutPage`. -/
def About.firstField (sectionData : JSValue) (key : String) : Except JSError JSValue :=
  if isNonEmptyArray sectionData then sectionData.first.getProp key else pure null

/-- The body of the outer `try` block of `fetchAboutPage` after the `await`: the object
handed to `setAboutData`. -/
def About.assemble (res : SectionData) : Except JSError JSValue := do
  let storyData ← resultsOrData res.story
  let missionData ← resultsOrData res.mission
  let visionData ← resultsOrData res.vision
  let valuesHeaderData ← resultsOrData res.valuesHeader
  let timelineHeaderData ← resultsOrData res.timelineHeader
  let valuesData ← resultsOrData res.values
  let timelineData ← resultsOrData res.timeline
  return obj
    [ ("story_title", ← About.firstField storyData "title"),
      ("story_content", ← About.firstField storyData "content"),
      ("mission_title", ← About.firstField missionData "title"),
      ("mission_content", ← About.firstField missionData "content"),
      ("vision_title", ← About.firstField visionData "title"),
      ("vision_content", ← About.firstField visionData "content"),
      ("values_title", ← About.firstField valuesHeaderData "title"),
      ("values_subtitle", ← About.firstField valuesHeaderData "subtitle"),
      ("timeline_title", ← About.firstField timelineHeaderData "title"),
      ("timeline_subtitle", ← About.firstField timelineHeaderData "subtitle"),
      ("values", if valuesData.isArray then valuesData else arr []),
      ("timeline_items", if timelineData.isArray then timelineData else arr []) ]

/-- The observable steps of the fetch functions of the `About` component, in program order. -/
inductive AboutEffect where
  | get (url : String)
  | setAboutData (value : JSValue)
  | setIsLoading (value : Bool)
  | setStoryImage (value : JSValue)

/-- The state after one step. -/
def AboutEffect.apply (st : AboutState) : AboutEffect → AboutState
  | .get _ => st
  | .setAboutData value => { st with aboutData := value }
  | .setIsLoading value => { st with isLoading := value }
  | .setStoryImage value => { st with storyImage := value }

/-- The state once all steps have been applied. -/
def AboutState.settle (st : AboutState) (effects : List AboutEffect) : AboutState :=
  effects.foldl AboutEffect.apply st

/-- The seven requests of the array handed to `Promise.all`. -/
def About.sectionRequests (endpoints : ApiEndpoints) : List AboutEffect :=
  [.get endpoints.ABOUT_STORY, .get endpoints.ABOUT_MISSION, .get endpoints.ABOUT_VISION,
    .get endpoints.ABOUT_VALUES_HEADER, .get endpoints.ABOUT_TIMELINE_HEADER,
    .get endpoints.ABOUT_VALUES, .get endpoints.ABOUT_TIMELINE_ITEMS]

/-- The inner `try` block of `fetchAboutPage` after its `await`: `some v` when
`setAboutData(v)` is called with the first record of the legacy response. -/
def About.legacyUpdate (data : JSValue) : Except JSError (Option JSValue) := do
  let dataArray ← resultsOrData data
  if isNonEmptyArray dataArray then
    return some dataArray.first
  return none

/-- The steps that follow the legacy request: a call of `setAboutData` for a response with a
first record, nothing for a rejected request, an exception or a response without record. -/
def About.legacyEffects (legacy : GetOutcome) : List AboutEffect :=
  match legacy with
  | .resolved data =>
    match About.legacyUpdate data with
    | .ok (some v) => [.setAboutData v]
    | _ => []
  | .rejected _ => []

/-- The function `fetchAboutPage` of `pages/About.js`, run to completion for the given
outcomes of the seven section requests and of the legacy request: the `catch` block is
entered when `Promise.all` rejects and when the assembly throws. -/
def About.fetchAboutPage (endpoints : ApiEndpoints) (sections : SectionOutcomes)
    (legacy : GetOutcome) : List AboutEffect :=
  About.sectionRequests endpoints ++
  (match sections.all.map About.assemble with
    | some (.ok v) => [.setAboutData v]
    | _ => [.get endpoints.ABOUT_PAGE] ++ About.legacyEffects legacy) ++
  [.setIsLoading false]

/-- The `try` block of `fetchStoryImage`: `some v` when `setStoryImage(v)` is called. -/
def About.storyImageUpdate (data : JSValue) : Except JSError (Option JSValue) := do
  let dataArray ← resultsOrData data
  if isNonEmptyArray dataArray then
    return some dataArray.first
  return none

/-- The steps that follow the story-image request. -/
def About.storyImageEffects (outcome : GetOutcome) : List AboutEffect :=
  match outcome with
  | .resolved data =>
    match About.storyImageUpdate data with
    | .ok (some v) => [.setStoryImage v]
    | _ => []
  | .rejected _ => []

/-- The function `fetchStoryImage` of `pages/About.js`, run to completion. -/
def About.fetchStoryImage (endpoints : ApiEndpoints) (outcome : GetOutcome) :
    List AboutEffect :=
  [.get (endpoints.PAGE_IMAGES ++ "?page=about&section=story")] ++
    About.storyImageEffects outcome

/-- The constant `defaultValues` of the `About` component. -/
def About.defaultValues : JSValue :=
  arr
    [ obj [("icon", str "🎯"), ("title", str "Integrity"),
        ("description", str "We operate with the highest standards of honesty and transparency in all our dealings.")],
      obj [("icon", str "🤝"), ("title", str "Trust"),
        ("description", str "Building lasting relationships based on reliability and mutual respect.")],
      obj [("icon", str "💪"), ("title", str "Excellence"),
        ("description", str "Committed to delivering exceptional service and exceeding expectations.")],
      obj [("icon", str "🌱"), ("title", str "Growth"),
        ("description", str "Empowering our clients to achieve their financial goals and build wealth.")] ]

/-- The constant `defaultTimeline` of the `About` component. -/
def About.defaultTimeline : JSValue :=
  arr
    [ obj [("year", str "2014"), ("title", str "Foundation"),
        ("description", str "B.C BENCYN SUSU was established with a vision to provide accessible financial services.")],
      obj [("year", str "2017"), ("title", str "Expansion"),
        ("description", str "Expanded our services to reach more communities across the region.")],
      obj [("year", str "2020"), ("title", str "Digital Transformation"),
        ("description", str "Launched digital platforms to enhance customer experience and accessibility.")],
      obj [("year", str "2024"), ("title", str "Innovation"),
        ("description", str "Continuing to innovate and serve thousands of satisfied customers.")] ]

/-- What the `About` component renders from `aboutData` once loading has ended: the text of
each heading and paragraph and the lists behind the two grids. `storyContent` is `none` when
the three built-in story paragraphs are shown. -/
structure AboutView where
  storyTitle : JSValue
  storyContent : Option JSValue
  valuesTitle : JSValue
  valuesSubtitle : JSValue
  values : JSValue
  timelineTitle : JSValue
  timelineSubtitle : JSValue
  timeline : JSValue
  missionTitle : JSValue
  missionContent : JSValue
  visionTitle : JSValue
  visionContent : JSValue

/-- The expressions `aboutData?.field || default` of the `About` component. -/
def About.render (aboutData : JSValue) : AboutView where
  storyTitle := (aboutData.optProp "story_title").or (str "Our Story")
  storyContent :=
    if (aboutData.optProp "story_content").truthy then some (aboutData.optProp "story_content")
    else none
  valuesTitle := (aboutData.optProp "values_title").or (str "Our Core Values")
  valuesSubtitle := (aboutData.optProp "values_subtitle").or
    (str "The principles that guide everything we do at B.C BENCYN SUSU.")
  values := (aboutData.optProp "values").or About.defaultValues
  timelineTitle := (aboutData.optProp "timeline_title").or (str "Our Journey")
  timelineSubtitle := (aboutData.optProp "timeline_subtitle").or
    (str "Key milestones in our growth and development.")
  timeline := (aboutData.optProp "timeline_items").or About.defaultTimeline
  missionTitle := (aboutData.optProp "mission_title").or (str "Our Mission")
  missionContent := (aboutData.optProp "mission_content").or
    (str "To provide accessible, reliable, and transparent financial services that empower individuals and communities to achieve their financial goals and build lasting wealth through trusted susu collection practices.")
  visionTitle := (aboutData.optProp "vision_title").or (str "Our Vision")
  visionContent := (aboutData.optProp "vision_content").or
    (str "To become the leading susu financial institution, recognized for our integrity, innovation, and commitment to transforming lives through accessible financial services across the region.")


/-! ## `pages/Blog.js`, `pages/Updates.js`, `pages/Gallery.js`: the list pages -/

/-- The state cells of the `Blog` component. -/
structure BlogState where
  searchTerm : String
  selectedCategory : String
  posts : JSValue
  isLoading : Bool

/-- The initial state of the `Blog` component. -/
def BlogState.initial : BlogState :=
  { searchTerm := "", selectedCategory := "all", posts := arr [], isLoading := true }

/-- The function `fetchPosts` of `pages/Blog.js`, run to completion for a request that
settles as `outcome`: `setPosts(postsArray)` in the `try` block, `setPosts([])` in the `catch`
block, `setIsLoading(false)` in the `finally` block. -/
def Blog.fetchPosts (outcome : GetOutcome) (st : BlogState) : BlogState :=
  let posts :=
    match outcome with
    | .resolved data =>
      match Blog.postsArray data with
      | .ok postsArray => postsArray
      | .error _ => arr []
    | .rejected _ => arr []
  { st with posts := posts, isLoading := false }

/-- What one card of the blog grid is rendered from: the properties read from the post and
the text of the date line. -/
structure BlogCard where
  id : JSValue
  featuredImageUrl : JSValue
  category : JSValue
  title : JSValue
  excerpt : JSValue
  author : JSValue
  createdDate : String

/-- The callback of `posts.map` in the `Blog` component. The date line is
`format(new Date(post.created_date), 'MMM d, yyyy')`, without a guard: an invalid date makes
the callback throw. -/
def Blog.card (env : DateEnv) (post : JSValue) : Except JSError BlogCard := do
  return {
    id := ← post.getProp "id"
    featuredImageUrl := ← post.getProp "featured_image_url"
    category := ← post.getProp "category"
    title := ← post.getProp "title"
    excerpt := ← post.getProp "excerpt"
    author := ← post.getProp "author"
    createdDate :=
      ← DateFns.format env (newDate env (← post.getProp "created_date")) "MMM d, yyyy" }

/-- The call `posts.map(...)` of the `Blog` component: one card per element, in order. -/
def Blog.cards (env : DateEnv) : List JSValue → Except JSError (List BlogCard)
  | [] => pure []
  | post :: rest => do
    let card ← Blog.card env post
    let cards ← Blog.cards env rest
    return card :: cards

/-- What the posts section of the `Blog` component shows. -/
inductive BlogView where
  | loading
  | empty (message : String)
  | grid (cards : List BlogCard)

/-- The conditional `isLoading ? ... : posts.length === 0 ? ... : posts.map(...)` of the
`Blog` component. -/
def Blog.view (env : DateEnv) (st : BlogState) : Except JSError BlogView := do
  if st.isLoading then
    return .loading
  match st.posts with
  | arr items =>
    if items.length == 0 then
      return .empty "No articles found. Check back soon!"
    return .grid (← Blog.cards env items)
  | _ => throw .typeError

/-- The state cells of the `Updates` component. -/
structure UpdatesState where
  updates : JSValue
  isLoading : Bool

/-- The initial state of the `Updates` component. -/
def UpdatesState.initial : UpdatesState :=
  { updates := arr [], isLoading := true }

/-- The function `fetchUpdates` of `pages/Updates.js`, run to completion. -/
def Updates.fetchUpdates (outcome : GetOutcome) (st : UpdatesState) : UpdatesState :=
  let updates :=
    match outcome with
    | .resolved data =>
      match Updates.updatesArray data with
      | .ok updatesArray => updatesArray
      | .error _ => arr []
    | .rejected _ => arr []
  { st with updates := updates, isLoading := false }

/-- What one card of the updates list is rendered from: the properties read from the update
and the text of the date line. -/
structure UpdateCard where
  id : JSValue
  type : JSValue
  priority : JSValue
  title : JSValue
  content : JSValue
  createdDate : String

/-- The callback of `updates.map` in the `Updates` component. The date line is
`format(new Date(update.created_date), 'MMMM d, yyyy')`, without a guard: an invalid date
makes the callback throw. -/
def Updates.card (env : DateEnv) (update : JSValue) : Except JSError UpdateCard := do
  return {
    id := ← update.getProp "id"
    type := ← update.getProp "type"
    priority := ← update.getProp "priority"
    title := ← update.getProp "title"
    content := ← update.getProp "content"
    createdDate :=
      ← DateFns.format env (newDate env (← update.getProp "created_date")) "MMMM d, yyyy" }

/-- The call `updates.map(...)` of the `Updates` component. -/
def Updates.cards (env : DateEnv) : List JSValue → Except JSError (List UpdateCard)
  | [] => pure []
  | update :: rest => do
    let card ← Updates.card env update
    let cards ← Updates.cards env rest
    return card :: cards

/-- What the list section of the `Updates` component shows. -/
inductive UpdatesView where
  | loading
  | empty (title : String) (text : String)
  | list (cards : List UpdateCard)

/-- The conditional `isLoading ? ... : updates.length === 0 ? ... : updates.map(...)` of the
`Updates` component. -/
def Updates.view (env : DateEnv) (st : UpdatesState) : Except JSError UpdatesView := do
  if st.isLoading then
    return .loading
  match st.updates with
  | arr items =>
    if items.length == 0 then
      return .empty "No updates yet" "Check back soon for the latest news and announcements"
    return .list (← Updates.cards env items)
  | _ => throw .typeError

/-- The state cells of the `Gallery` component; `videoThumbnails` is an object keyed by the
item id. -/
structure GalleryState where
  selectedFilter : String
  mediaTypeFilter : String
  items : JSValue
  isLoading : Bool
  selectedItem : JSValue
  videoThumbnails : List (String × JSValue)

/-- The initial state of the `Gallery` component. -/
def GalleryState.initial : GalleryState :=
  { selectedFilter := "all", mediaTypeFilter := "all", items := arr [], isLoading := true,
    selectedItem := null, videoThumbnails := [] }

/-- The function `fetchGalleryItems` of `pages/Gallery.js`, run to completion. -/
def Gallery.fetchGalleryItems (outcome : GetOutcome) (st : GalleryState) : GalleryState :=
  let items :=
    match outcome with
    | .resolved data =>
      match Gallery.itemsArray data with
      | .ok itemsArray => itemsArray
      | .error _ => arr []
    | .rejected _ => arr []
  { st with items := items, isLoading := false }

/-- The function `getVideoThumbnail` of `pages/Gallery.js`. -/
def getVideoThumbnail (item : JSValue) : Except JSError JSValue := do
  return (← item.getProp "thumbnail_url").or null

/-- The read `videoThumbnails[item.id]`: the id is converted to a property key. -/
def Gallery.cachedThumbnail (videoThumbnails : List (String × JSValue)) (id : JSValue) :
    JSValue :=
  (videoThumbnails.lookup id.toStr).getD undefined

/-- The still picture of a video card: an image, or a placeholder with a label. -/
inductive ThumbView where
  | image (src : JSValue)
  | placeholder (label : String)

/-- The video part of a gallery card: the still picture alone, or the off-screen
`VideoThumbnail` extractor for `videoUrl` next to the still picture. -/
inductive VideoCardView where
  | plain (thumb : ThumbView)
  | withExtractor (videoUrl : JSValue) (thumb : ThumbView)

/-- The immediately invoked function that renders the video part of a gallery card. -/
def Gallery.videoCard (videoThumbnails : List (String × JSValue)) (item : JSValue) :
    Except JSError VideoCardView := do
  let mut thumbnailUrl ← getVideoThumbnail item
  if !thumbnailUrl.truthy && (← item.getProp "video_file_url").truthy &&
      (Gallery.cachedThumbnail videoThumbnails (← item.getProp "id")).truthy then
    thumbnailUrl := Gallery.cachedThumbnail videoThumbnails (← item.getProp "id")
  if thumbnailUrl.truthy then
    return .plain (.image thumbnailUrl)
  else if (← item.getProp "video_file_url").truthy then
    if (Gallery.cachedThumbnail videoThumbnails (← item.getProp "id")).truthy then
      return .withExtractor (← item.getProp "video_file_url")
        (.image (Gallery.cachedThumbnail videoThumbnails (← item.getProp "id")))
    else
      return .withExtractor (← item.getProp "video_file_url") (.placeholder "Loading...")
  else
    return .plain (.placeholder "Video")

/-- What the media part of one gallery card is rendered from: the title, the image of an
image item and the video part of a video item. -/
structure GalleryCard where
  title : JSValue
  image : Option JSValue
  video : Option VideoCardView

/-- The callback of `featuredItems.map` and `regularItems.map` in the `Gallery` component, up
to the title; the date line that follows is `Gallery.cardMeta`. -/
def Gallery.card (videoThumbnails : List (String × JSValue)) (item : JSValue) :
    Except JSError GalleryCard := do
  let mediaType ← item.getProp "media_type"
  let imageUrl ← item.getProp "image_url"
  let image := if mediaType.strictEqStr "image" && imageUrl.truthy then some imageUrl else none
  let video ←
    if mediaType.strictEqStr "video" then do
      pure (some (← Gallery.videoCard videoThumbnails item))
    else pure none
  return { title := ← item.getProp "title", image := image, video := video }

/-- The date line at the end of the callback:
`item.event_date && <div>... format(new Date(item.event_date), 'MMM d, yyyy') ...</div>`.
The result is `none` when the guard is falsy and the formatted text otherwise; a truthy
`event_date` that is no valid date makes the callback throw. -/
def Gallery.cardMeta (env : DateEnv) (item : JSValue) : Except JSError (Option String) := do
  let eventDate ← item.getProp "event_date"
  if eventDate.truthy then
    return some (← DateFns.format env (newDate env eventDate) "MMM d, yyyy")
  return none

/-- The calls `featuredItems.map(...)` and `regularItems.map(...)`: for every item the media
part of its card and its date line. -/
def Gallery.cards (env : DateEnv) (videoThumbnails : List (String × JSValue)) :
    List JSValue → Except JSError (List (GalleryCard × Option String))
  | [] => pure []
  | item :: rest => do
    let card ← Gallery.card videoThumbnails item
    let dateLine ← Gallery.cardMeta env item
    let cards ← Gallery.cards env videoThumbnails rest
    return (card, dateLine) :: cards

/-- The calls `items.filter(item => item.is_featured)` (`want` true) and
`items.filter(item => !item.is_featured)` (`want` false). -/
def Gallery.filterFeatured (want : Bool) : List JSValue → Except JSError (List JSValue)
  | [] => pure []
  | item :: rest => do
    let flag ← item.getProp "is_featured"
    let kept ← Gallery.filterFeatured want rest
    return (if flag.truthy == want then item :: kept else kept)

/-- What the section of the regular items shows. -/
inductive GalleryRegularView where
  | loading
  | empty (message : String)
  | grid (cards : List (GalleryCard × Option String))

/-- What the `Gallery` component shows: the featured grid (absent when there is no featured
item) and the section of the regular items. -/
structure GalleryView where
  featured : List (GalleryCard × Option String)
  regular : GalleryRegularView

/-- The two item sections of the `Gallery` component. -/
def Gallery.view (env : DateEnv) (st : GalleryState) : Except JSError GalleryView := do
  match st.items with
  | arr items =>
    let featuredItems ← Gallery.filterFeatured true items
    let regularItems ← Gallery.filterFeatured false items
    let featured ←
      if featuredItems.length > 0 then Gallery.cards env st.videoThumbnails featuredItems
      else pure []
    let regular ←
      if st.isLoading then pure GalleryRegularView.loading
      else if regularItems.length == 0 && featuredItems.length == 0 then
        pure (GalleryRegularView.empty "No gallery items found. Check back soon!")
      else do
        pure (GalleryRegularView.grid (← Gallery.cards env st.videoThumbnails regularItems))
    return { featured := featured, regular := regular }
  | _ => throw .typeError


/-! ## `pages/Services.js` -/

/-- The state cells of the `Services` component. -/
structure ServicesState where
  services : JSValue
  isLoading : Bool
  headerImage : JSValue

/-- The initial state `useState([])`, `useState(true)`, `useState(null)`. -/
def ServicesState.initial : ServicesState :=
  { services := arr [], isLoading := true, headerImage := null }

/-- The table `serviceColorMap` of `fetchServices`. -/
def Services.serviceColorMap : List (String × JSValue) :=
  [("susu", str "orange"), ("savings", str "green"), ("advisory", str "orange"),
    ("loans", str "green"), ("group", str "orange"), ("digital", str "green")]

/-- The table `defaultFeaturesMap` of `fetchServices`. -/
def Services.defaultFeaturesMap : List (String × JSValue) :=
  [ ("susu", arr [str "Flexible payment schedules", str "Secure collection process",
      str "Transparent record keeping", str "Multiple contribution options"]),
    ("savings", arr [str "Goal-oriented savings", str "Competitive interest rates",
      str "Flexible withdrawal options", str "Personalized plans"]),
    ("advisory", arr [str "Personalized consultations", str "Investment guidance",
      str "Budget planning", str "Financial education"]),
    ("loans", arr [str "Quick approval process", str "Flexible repayment terms",
      str "Competitive interest rates", str "No hidden fees"]),
    ("group", arr [str "Group management tools", str "Automated collections",
      str "Transparent reporting", str "Dedicated support"]),
    ("digital", arr [str "24/7 account access", str "Mobile app available",
      str "Secure transactions", str "Real-time updates"]) ]

/-- The function `getDefaultServices` of `pages/Services.js`. -/
def getDefaultServices : JSValue :=
  arr
    [ obj [("icon", str "💵"), ("title", str "Susu Collection"),
        ("description", str "Regular collection services with flexible payment schedules. Choose from daily, weekly, or monthly contributions."),
        ("features", arr [str "Flexible payment schedules", str "Secure collection process",
          str "Transparent record keeping", str "Multiple contribution options"]),
        ("color", str "orange")],
      obj [("icon", str "💰"), ("title", str "Savings Plans"),
        ("description", str "Structured savings plans designed to help you achieve your financial goals with competitive returns."),
        ("features", arr [str "Goal-oriented savings", str "Competitive interest rates",
          str "Flexible withdrawal options", str "Personalized plans"]),
        ("color", str "green")],
      obj [("icon", str "📊"), ("title", str "Financial Advisory"),
        ("description", str "Expert financial advice to help you make informed decisions about your money and investments."),
        ("features", arr [str "Personalized consultations", str "Investment guidance",
          str "Budget planning", str "Financial education"]),
        ("color", str "orange")],
      obj [("icon", str "🏦"), ("title", str "Loan Services"),
        ("description", str "Accessible loan services with flexible repayment terms to meet your immediate financial needs."),
        ("features", arr [str "Quick approval process", str "Flexible repayment terms",
          str "Competitive interest rates", str "No hidden fees"]),
        ("color", str "green")],
      obj [("icon", str "👥"), ("title", str "Group Susu"),
        ("description", str "Organize group susu schemes for your community, workplace, or organization with our support."),
        ("features", arr [str "Group management tools", str "Automated collections",
          str "Transparent reporting", str "Dedicated support"]),
        ("color", str "orange")],
      obj [("icon", str "📱"), ("title", str "Digital Services"),
        ("description", str "Manage your susu account online with our secure digital platform. Access your account anytime, anywhere."),
        ("features", arr [str "24/7 account access", str "Mobile app available",
          str "Secure transactions", str "Real-time updates"]),
        ("color", str "green")] ]

/-- The callback of `dataArray.map` in `fetchServices`:
`{...service, color: serviceColorMap[t] || "orange", features: defaultFeaturesMap[t] || []}`
with `t = service.service_type`. The two tables are read by own key; the members that a
table inherits from `Object.prototype` are outside the value model. -/
def Services.mapService (service : JSValue) : Except JSError JSValue := do
  let color :=
    ((Services.serviceColorMap.lookup (← service.getProp "service_type").toStr).getD
      undefined).or (str "orange")
  let features :=
    ((Services.defaultFeaturesMap.lookup (← service.getProp "service_type").toStr).getD
      undefined).or (arr [])
  return obj (setField (setField service.spread "color" color) "features" features)

/-- The call `dataArray.map(...)` of `fetchServices`. -/
def Services.mapServices : List JSValue → Except JSError (List JSValue)
  | [] => pure []
  | service :: rest => do
    let mapped ← Services.mapService service
    let others ← Services.mapServices rest
    return mapped :: others

/-- The body of the `try` block of `fetchServices`: the list handed to `setServices`. -/
def Services.servicesOf (data : JSValue) : Except JSError JSValue := do
  let dataArray ← resultsOrData data
  if dataArray.truthy && dataArray.isArray && dataArray.length > 0 then
    match dataArray with
    | arr items => return arr (← Services.mapServices items)
    | _ => throw .typeError
  else
    return getDefaultServices

/-- The function `fetchServices` of `pages/Services.js`, run to completion. -/
def Services.fetchServices (outcome : GetOutcome) (st : ServicesState) : ServicesState :=
  let services :=
    match outcome with
    | .resolved data =>
      match Services.servicesOf data with
      | .ok services => services
      | .error _ => getDefaultServices
    | .rejected _ => getDefaultServices
  { st with services := services, isLoading := false }

/-- The `try` block of `fetchHeaderImage`: `some v` when `setHeaderImage(v)` is called. -/
def Services.headerImageUpdate (data : JSValue) : Except JSError (Option JSValue) := do
  let dataArray ← resultsOrData data
  if isNonEmptyArray dataArray then
    return some dataArray.first
  return none

/-- The function `fetchHeaderImage` of `pages/Services.js`, run to completion. -/
def Services.fetchHeaderImage (outcome : GetOutcome) (st : ServicesState) : ServicesState :=
  match outcome with
  | .resolved data =>
    match Services.headerImageUpdate data with
    | .ok (some v) => { st with headerImage := v }
    | _ => st
  | .rejected _ => st

/-- The list `displayServices = services.length > 0 ? services : getDefaultServices()`. -/
def Services.displayServices (st : ServicesState) : JSValue :=
  if st.services.length > 0 then st.services else getDefaultServices

/-- What the list section of the `Services` component shows. -/
inductive ServicesView where
  | loading
  | grid (services : JSValue)

/-- The conditional `isLoading ? spinner : grid` of the `Services` component. -/
def Services.view (st : ServicesState) : ServicesView :=
  if st.isLoading then .loading else .grid (Services.displayServices st)

/-! ## `pages/Home.js` -/

/-- The state cells of the `Home` component. -/
structure HomeState where
  heroImage : JSValue
  testimonials : JSValue

/-- The initial state `useState(null)`, `useState([])`. -/
def HomeState.initial : HomeState :=
  { heroImage := null, testimonials := arr [] }

/-- The hero-image request of the effect of the `Home` component with its `then` and `catch`
callbacks, run to completion. -/
def Home.fetchHeroImage (outcome : GetOutcome) (st : HomeState) : HomeState :=
  match outcome with
  | .resolved data =>
    match Home.heroImageUpdate data with
    | .ok (some v) => { st with heroImage := v }
    | _ => st
  | .rejected _ => st

/-- The function `fetchTestimonials` of `pages/Home.js`, run to completion. -/
def Home.fetchTestimonials (outcome : GetOutcome) (st : HomeState) : HomeState :=
  match outcome with
  | .resolved data =>
    match Home.testimonialsUpdate data with
    | .ok (some v) => { st with testimonials := v }
    | _ => st
  | .rejected _ => st

/-- What the `Home` component shows of its fetched content: the hero picture (`none` is the
default gradient card) and the testimonials section (`none` when it is left out). -/
structure HomeView where
  heroImageUrl : Option JSValue
  testimonials : Option JSValue

/-- The conditionals `heroImage && heroImage.image_url ? ... : ...` and
`testimonials.length > 0 && ...` of the `Home` component. -/
def Home.view (st : HomeState) : HomeView where
  heroImageUrl :=
    if st.heroImage.truthy && (st.heroImage.optProp "image_url").truthy then
      some (st.heroImage.optProp "image_url")
    else none
  testimonials := if st.testimonials.length > 0 then some st.testimonials else none

/-! ## `pages/BlogPost.js` -/

/-- The state cells `post`, `isLoading` and `error` (`none` is `null`) of the `BlogPost`
component. -/
structure BlogPostState where
  post : JSValue
  isLoading : Bool
  error : Option String

/-- The initial state `useState(null)`, `useState(true)`, `useState(null)`. -/
def BlogPostState.initial : BlogPostState :=
  { post := null, isLoading := true, error := none }

/-- The function `fetchPost` of `pages/BlogPost.js`, run to completion: `setIsLoading(true)`
and `setError(null)`, then `setPost(response.data)` or `setError("Post not found")`, then
`setIsLoading(false)`. -/
def BlogPost.fetchPost (outcome : GetOutcome) (st : BlogPostState) : BlogPostState :=
  match outcome with
  | .resolved data => { st with post := data, error := none, isLoading := false }
  | .rejected _ => { st with error := some "Post not found", isLoading := false }

/-- What the `BlogPost` component shows. -/
inductive BlogPostView where
  | loading
  | errorPanel (heading : String) (text : String)
  | article (post : JSValue)

/-- The early returns `if (isLoading)` and `if (error || !post)` of the `BlogPost`
component. A non-null `error` is a non-empty string, hence truthy. -/
def BlogPost.view (st : BlogPostState) : BlogPostView :=
  if st.isLoading then .loading
  else if st.error.isSome || !st.post.truthy then
    .errorPanel "Post Not Found" "The article you're looking for doesn't exist."
  else .article st.post


/-! ## Page loads as sequences of settling requests -/

/-- The seven section requests of the About page. -/
inductive AboutSection where
  | story
  | mission
  | vision
  | valuesHeader
  | timelineHeader
  | values
  | timeline
  deriving DecidableEq

/-- For each section request, how it has settled, or `none` while it is pending. -/
structure SectionSlots where
  story : Option GetOutcome
  mission : Option GetOutcome
  vision : Option GetOutcome
  valuesHeader : Option GetOutcome
  timelineHeader : Option GetOutcome
  values : Option GetOutcome
  timeline : Option GetOutcome

/-- The slot of a section request. -/
def SectionSlots.get (slots : SectionSlots) : AboutSection → Option GetOutcome
  | .story => slots.story
  | .mission => slots.mission
  | .vision => slots.vision
  | .valuesHeader => slots.valuesHeader
  | .timelineHeader => slots.timelineHeader
  | .values => slots.values
  | .timeline => slots.timeline

/-- The slots after a section request has settled. -/
def SectionSlots.set (slots : SectionSlots) (s : AboutSection) (outcome : GetOutcome) :
    SectionSlots :=
  match s with
  | .story => { slots with story := some outcome }
  | .mission => { slots with mission := some outcome }
  | .vision => { slots with vision := some outcome }
  | .valuesHeader => { slots with valuesHeader := some outcome }
  | .timelineHeader => { slots with timelineHeader := some outcome }
  | .values => { slots with values := some outcome }
  | .timeline => { slots with timeline := some outcome }

/-- Whether some section request is still pending. -/
def SectionSlots.anyPending (slots : SectionSlots) : Bool :=
  slots.story.isNone || slots.mission.isNone || slots.vision.isNone ||
    slots.valuesHeader.isNone || slots.timelineHeader.isNone || slots.values.isNone ||
    slots.timeline.isNone

/-- The seven responses once every section request has been fulfilled: the value with which
`Promise.all` is fulfilled. -/
def SectionSlots.allFulfilled (slots : SectionSlots) : Option SectionData := do
  let story ← (← slots.story).data?
  let mission ← (← slots.mission).data?
  let vision ← (← slots.vision).data?
  let valuesHeader ← (← slots.valuesHeader).data?
  let timelineHeader ← (← slots.timelineHeader).data?
  let values ← (← slots.values).data?
  let timeline ← (← slots.timeline).data?
  return { story, mission, vision, valuesHeader, timelineHeader, values, timeline }

/-- Where the asynchronous function `fetchAboutPage` is suspended. -/
inductive AboutPhase where
  | awaitingSections
  | awaitingLegacy
  | done
  deriving DecidableEq

/-- A visit of the About page in progress: the component state, the section requests, the
position of `fetchAboutPage`, and whether the request of `fetchStoryImage` is pending. -/
structure AboutRun where
  state : AboutState
  slots : SectionSlots
  phase : AboutPhase
  storyImagePending : Bool

/-- The page right after the mount effect has called `fetchAboutPage()` and
`fetchStoryImage()`: eight requests are in flight. -/
def AboutRun.initial : AboutRun :=
  { state := AboutState.initial
    slots := ⟨none, none, none, none, none, none, none⟩
    phase := .awaitingSections
    storyImagePending := true }

/-- A request of the About page settles. -/
inductive AboutEvent where
  | sectionSettled (s : AboutSection) (outcome : GetOutcome)
  | legacySettled (outcome : GetOutcome)
  | storyImageSettled (outcome : GetOutcome)

/-- The reaction of the About page to a settling request. A section request settles once.
While `fetchAboutPage` awaits `Promise.all`, the first rejection enters the `catch` block and
issues the legacy request; the seventh fulfilment runs the assembly and then the `finally`
block, or enters the `catch` block when the assembly throws. Section requests that settle
later are ignored. The legacy response runs the rest of the `catch` block and the `finally`
block. The story-image response runs the rest of `fetchStoryImage`. -/
def AboutRun.step (run : AboutRun) : AboutEvent → AboutRun
  | .sectionSettled s outcome =>
    match run.slots.get s with
    | some _ => run
    | none =>
      let slots := run.slots.set s outcome
      match run.phase with
      | .awaitingSections =>
        match outcome with
        | .rejected _ => { run with slots := slots, phase := .awaitingLegacy }
        | .resolved _ =>
          match slots.allFulfilled with
          | none => { run with slots := slots }
          | some res =>
            match About.assemble res with
            | .ok v =>
              { run with
                slots := slots
                state := run.state.settle [.setAboutData v, .setIsLoading false]
                phase := .done }
            | .error _ => { run with slots := slots, phase := .awaitingLegacy }
      | _ => { run with slots := slots }
  | .legacySettled outcome =>
    match run.phase with
    | .awaitingLegacy =>
      { run with
        state := run.state.settle (About.legacyEffects outcome ++ [.setIsLoading false])
        phase := .done }
    | _ => run
  | .storyImageSettled outcome =>
    if run.storyImagePending then
      { run with
        state := run.state.settle (About.storyImageEffects outcome)
        storyImagePending := false }
    else run

/-- The About page after a sequence of settling requests. -/
def AboutRun.after (events : List AboutEvent) : AboutRun :=
  events.foldl AboutRun.step AboutRun.initial

/-- Whether a request of the About page is still pending. -/
def AboutRun.anyPending (run : AboutRun) : Bool :=
  run.slots.anyPending || run.phase == .awaitingLegacy || run.storyImagePending

/-- The invariant of a visit of the About page: the loading flag is set exactly while
`fetchAboutPage` has not returned, and while it awaits `Promise.all` no section request has
been rejected and at least one is pending. -/
def AboutRun.Consistent (run : AboutRun) : Prop :=
  (run.state.isLoading = true ↔ run.phase ≠ .done) ∧
    (run.phase = .awaitingSections →
      run.slots.anyPending = true ∧ ∀ s code, run.slots.get s ≠ some (.rejected code))

/-- A visit of the Services page in progress: the component state and whether the requests
of `fetchServices` and `fetchHeaderImage` are pending. -/
structure ServicesRun where
  state : ServicesState
  servicesPending : Bool
  headerImagePending : Bool

/-- The page right after the mount effect has called `fetchServices()` and
`fetchHeaderImage()`. -/
def ServicesRun.initial : ServicesRun :=
  { state := ServicesState.initial, servicesPending := true, headerImagePending := true }

/-- A request of the Services page settles. -/
inductive ServicesEvent where
  | servicesSettled (outcome : GetOutcome)
  | headerImageSettled (outcome : GetOutcome)

/-- The reaction of the Services page to a settling request; a request settles once. -/
def ServicesRun.step (run : ServicesRun) : ServicesEvent → ServicesRun
  | .servicesSettled outcome =>
    if run.servicesPending then
      { run with state := Services.fetchServices outcome run.state, servicesPending := false }
    else run
  | .headerImageSettled outcome =>
    if run.headerImagePending then
      { run with
        state := Services.fetchHeaderImage outcome run.state
        headerImagePending := false }
    else run

/-- The Services page after a sequence of settling requests. -/
def ServicesRun.after (events : List ServicesEvent) : ServicesRun :=
  events.foldl ServicesRun.step ServicesRun.initial


/-! ## `pages/Gallery.js`: the thumbnail extractor -/

/-- The state cells `thumbnailUrl` (`none` is `null`), `error` and `isGenerating` of the
`VideoThumbnail` component. -/
structure VideoThumbnailState where
  thumbnailUrl : Option String
  error : Bool
  isGenerating : Bool
  deriving DecidableEq

/-- The initial state `useState(null)`, `useState(false)`, `useState(true)`. -/
def VideoThumbnailState.initial : VideoThumbnailState :=
  { thumbnailUrl := none, error := false, isGenerating := true }

/-- The listener `handleLoadedMetadata`: the assignment `video.currentTime = 0.1` either
succeeds or throws. The second component is the data URL handed to `onThumbnailReady`, if
the listener calls it. -/
def VideoThumbnail.handleLoadedMetadata (seekThrows : Bool) (st : VideoThumbnailState) :
    VideoThumbnailState × Option String :=
  if seekThrows then ({ st with error := true, isGenerating := false }, none) else (st, none)

/-- The listener `handleSeeked`: drawing and encoding the frame yields the data URL `frame`,
or throws (`none`); `hasCallback` tells whether the prop `onThumbnailReady` was passed. -/
def VideoThumbnail.handleSeeked (frame : Option String) (hasCallback : Bool)
    (st : VideoThumbnailState) : VideoThumbnailState × Option String :=
  match frame with
  | some dataUrl =>
    ({ st with thumbnailUrl := some dataUrl, isGenerating := false },
      if hasCallback then some dataUrl else none)
  | none => ({ st with error := true, isGenerating := false }, none)

/-- The listener `handleError` of the `error` event of the video element. -/
def VideoThumbnail.handleError (st : VideoThumbnailState) :
    VideoThumbnailState × Option String :=
  ({ st with error := true, isGenerating := false }, none)

/-- The prop `onThumbnailReady` that the `Gallery` component passes for `item`:
`setVideoThumbnails(prev => ({...prev, [item.id]: thumbUrl}))`. -/
def Gallery.onThumbnailReady (item : JSValue) (thumbUrl : String) (st : GalleryState) :
    Except JSError GalleryState := do
  let id ← item.getProp "id"
  return { st with videoThumbnails := setField st.videoThumbnails id.toStr (str thumbUrl) }

/-- The effect of a listener of the extractor mounted for `item` on the `Gallery` state: the
callback runs when the listener reports a data URL, nothing happens otherwise. -/
def Gallery.afterListener (item : JSValue) (report : Option String) (st : GalleryState) :
    Except JSError GalleryState :=
  match report with
  | some thumbUrl => Gallery.onThumbnailReady item thumbUrl st
  | none => pure st


/-- The truthiness of the state cell `thumbnailUrl`: a non-empty data URL. -/
def VideoThumbnailState.hasThumbnail (st : VideoThumbnailState) : Bool :=
  match st.thumbnailUrl with
  | some dataUrl => (str dataUrl).truthy
  | none => false

/-- One mounted `VideoThumbnail` component: its state, whether its three listeners are
registered on the video element, how often `video.load()` has been called, and the data URLs
handed to `onThumbnailReady` so far. -/
structure ExtractorRun where
  state : VideoThumbnailState
  listening : Bool
  loads : Nat
  reported : List String
  deriving DecidableEq

/-- One run of the effect of `VideoThumbnail`, after the cleanup of the previous run has
removed the listeners: the guard `if (!videoUrl || thumbnailUrl || error) return;`, then the
registration of the listeners and `video.load()`. The two refs are attached in a mounted
component, so the guard `if (!video || !canvas) return;` does not fire. -/
def VideoThumbnail.effect (videoUrl : JSValue) (run : ExtractorRun) : ExtractorRun :=
  if !videoUrl.truthy || run.state.hasThumbnail || run.state.error then
    { run with listening := false }
  else
    { run with listening := true, loads := run.loads + 1 }

/-- The component right after its mount: the initial state and the first run of the
effect. -/
def ExtractorRun.mount (videoUrl : JSValue) : ExtractorRun :=
  VideoThumbnail.effect videoUrl
    { state := VideoThumbnailState.initial, listening := false, loads := 0, reported := [] }

/-- What can happen to a mounted `VideoThumbnail`: the `Gallery` component renders again, or
the video element fires one of the three events. -/
inductive ExtractorEvent where
  | parentRender
  | loadedMetadata (seekThrows : Bool)
  | seeked (frame : Option String)
  | error

/-- The reaction of a mounted `VideoThumbnail`. The `Gallery` component passes
`onThumbnailReady` as an inline arrow function, a new function on every render, so after each
render of the `Gallery` the dependency array `[videoUrl, thumbnailUrl, error,
onThumbnailReady]` has changed and the effect runs again. A listener runs only while it is
registered; when it changes `thumbnailUrl` or `error`, the render that follows runs the
effect again. -/
def ExtractorRun.step (videoUrl : JSValue) (run : ExtractorRun) :
    ExtractorEvent → ExtractorRun
  | .parentRender => VideoThumbnail.effect videoUrl run
  | .loadedMetadata seekThrows =>
    if run.listening then
      if seekThrows then
        VideoThumbnail.effect videoUrl
          { run with state := (VideoThumbnail.handleLoadedMetadata seekThrows run.state).1 }
      else { run with state := (VideoThumbnail.handleLoadedMetadata seekThrows run.state).1 }
    else run
  | .seeked frame =>
    if run.listening then
      VideoThumbnail.effect videoUrl
        { run with
          state := (VideoThumbnail.handleSeeked frame true run.state).1
          reported :=
            run.reported ++ (VideoThumbnail.handleSeeked frame true run.state).2.toList }
    else run
  | .error =>
    if run.listening then
      VideoThumbnail.effect videoUrl
        { run with state := (VideoThumbnail.handleError run.state).1 }
    else run

/-- A mounted `VideoThumbnail` after a sequence of events. -/
def ExtractorRun.after (videoUrl : JSValue) (events : List ExtractorEvent) : ExtractorRun :=
  events.foldl (ExtractorRun.step videoUrl) (ExtractorRun.mount videoUrl)


/-! ## Request parameters and overlapping requests of the list pages -/

/-- The assignment `params[key] = value` on the object `params`. -/
def setParam (params : List (String × String)) (key value : String) :
    List (String × String) :=
  if params.any (fun p => p.1 == key) then
    params.map (fun p => if p.1 == key then (key, value) else p)
  else params ++ [(key, value)]

/-- The object `params` that `fetchPosts` of `pages/Blog.js` hands to `axiosInstance.get`. -/
def Blog.requestParams (st : BlogState) : List (String × String) := Id.run do
  let mut params : List (String × String) := []
  if st.selectedCategory != "all" then
    params := setParam params "category" st.selectedCategory
  if (str st.searchTerm).truthy then
    params := setParam params "search" st.searchTerm
  return params

/-- The object `params` that `fetchGalleryItems` of `pages/Gallery.js` hands to
`axiosInstance.get`. -/
def Gallery.requestParams (st : GalleryState) : List (String × String) := Id.run do
  let mut params : List (String × String) := []
  if st.selectedFilter != "all" then
    params := setParam params "event_type" st.selectedFilter
  if st.mediaTypeFilter != "all" then
    params := setParam params "media_type" st.mediaTypeFilter
  return params

/-- Several calls of `fetchPosts` whose requests are in flight at the same time: every call
has run up to its `await` (so `isLoading` is set), and the responses arrive in the order of
the list; each arrival runs the rest of its call. No call is cancelled and no response is
discarded. -/
def Blog.afterArrivals (arrivals : List GetOutcome) (st : BlogState) : BlogState :=
  arrivals.foldl (fun s outcome => Blog.fetchPosts outcome s) { st with isLoading := true }

/-- Several calls of `fetchGalleryItems` whose requests are in flight at the same time, with
the responses arriving in the order of the list. -/
def Gallery.afterArrivals (arrivals : List GetOutcome) (st : GalleryState) : GalleryState :=
  arrivals.foldl (fun s outcome => Gallery.fetchGalleryItems outcome s)
    { st with isLoading := true }


/-! ## `pages/Gallery.js`: the lightbox -/

/-- The mounted `Gallery` component together with what it touches outside itself: the inline
style `document.body.style.overflow` and the `keydown` listener on the document. -/
structure GalleryPage where
  mounted : Bool
  state : GalleryState
  bodyOverflow : String
  escapeListener : Bool

/-- The page right after its mount: no item selected, the body style untouched, and the
effect has registered no listener. -/
def GalleryPage.initial : GalleryPage :=
  { mounted := true, state := GalleryState.initial, bodyOverflow := "",
    escapeListener := false }

/-- The function `openLightbox` of `pages/Gallery.js`. -/
def openLightbox (item : JSValue) (page : GalleryPage) : GalleryPage :=
  { page with state := { page.state with selectedItem := item }, bodyOverflow := "hidden" }

/-- The function `closeLightbox` of `pages/Gallery.js`. -/
def closeLightbox (page : GalleryPage) : GalleryPage :=
  { page with state := { page.state with selectedItem := null }, bodyOverflow := "" }

/-- The effect with the dependency `[selectedItem]`, run after `selectedItem` has changed:
the cleanup removes the `keydown` listener, the body registers it again when an item is
selected. -/
def Gallery.escapeEffect (page : GalleryPage) : GalleryPage :=
  { page with escapeListener := page.state.selectedItem.truthy }

/-- What the user can do with the lightbox: click the picture of a card, click the close
button, click the dark overlay outside the content, click inside the content, press a key,
or leave the page (the component unmounts). -/
inductive LightboxEvent where
  | cardClick (item : JSValue)
  | closeButton
  | overlayClick
  | contentClick
  | keydown (key : String)
  | unmount

/-- Whether the lightbox is on screen: the component is mounted and `selectedItem` is
truthy. -/
def GalleryPage.lightboxOpen (page : GalleryPage) : Bool :=
  page.mounted && page.state.selectedItem.truthy

/-- The reaction of the page. The close button and the overlay exist only while the lightbox
is rendered, and both call `closeLightbox`; a click inside the content stops at
`stopPropagation`; the `keydown` listener calls `closeLightbox` for the key `Escape`; the
unmount runs the cleanup of the effect, which removes the `keydown` listener and nothing
else. An unmounted page reacts to nothing. -/
def GalleryPage.step (page : GalleryPage) (event : LightboxEvent) : GalleryPage :=
  if !page.mounted then page
  else
    match event with
    | .cardClick item => Gallery.escapeEffect (openLightbox item page)
    | .closeButton =>
      if page.lightboxOpen then Gallery.escapeEffect (closeLightbox page) else page
    | .overlayClick =>
      if page.lightboxOpen then Gallery.escapeEffect (closeLightbox page) else page
    | .contentClick => page
    | .keydown key =>
      if page.escapeListener && key == "Escape" then
        Gallery.escapeEffect (closeLightbox page)
      else page
    | .unmount => { page with mounted := false, escapeListener := false }

/-- The page after a sequence of user actions. -/
def GalleryPage.after (events : List LightboxEvent) : GalleryPage :=
  events.foldl GalleryPage.step GalleryPage.initial


/-! ## Theorems -/

/-! ### Auxiliary facts about `getDataArray` -/

theorem getDataArray_of_lookup (fields : List (String × JSValue)) (S : List JSValue)
    (h : fields.lookup "results" = some (arr S)) :
    getDataArray ⟨obj fields⟩ = .ok (arr S) := by
  simp [getDataArray, isArray, andCond, truthy, getProp, h, bind, Except.bind, pure,
    Except.pure]

theorem getDataArray_other (d : JSValue) (hArr : ∀ items, d ≠ arr items)
    (hEnv : ∀ fields S, d = obj fields → fields.lookup "results" ≠ some (arr S)) :
    getDataArray ⟨d⟩ = .ok (arr []) := by
  cases d with
  | arr items => exact absurd rfl (hArr items)
  | obj fields =>
    have h := hEnv fields
    cases hl : fields.lookup "results" with
    | none =>
      simp [getDataArray, isArray, andCond, truthy, getProp, hl, bind, Except.bind, pure,
        Except.pure]
    | some r =>
      cases r with
      | arr S => exact absurd hl (h S rfl)
      | _ =>
        simp [getDataArray, isArray, andCond, truthy, getProp, hl, bind, Except.bind, pure,
          Except.pure]
  | bool b => cases b <;> rfl
  | num n =>
    by_cases hn : n = 0 <;>
      simp [getDataArray, isArray, andCond, truthy, getProp, hn, bind, Except.bind, pure,
        Except.pure]
  | str s =>
    by_cases hs : s = "" <;>
      simp [getDataArray, isArray, andCond, truthy, getProp, hs, bind, Except.bind, pure,
        Except.pure]
  | _ => rfl

theorem getDataArray_is_array (r : Response) : ∃ items, getDataArray r = .ok (arr items) := by
  obtain ⟨d⟩ := r
  by_cases hArr : ∃ items, d = arr items
  · obtain ⟨items, rfl⟩ := hArr
    exact ⟨items, rfl⟩
  · by_cases hEnv : ∃ fields S, d = obj fields ∧ fields.lookup "results" = some (arr S)
    · obtain ⟨fields, S, rfl, hl⟩ := hEnv
      exact ⟨S, getDataArray_of_lookup fields S hl⟩
    · refine ⟨[], getDataArray_other d (fun items h => hArr ⟨items, h⟩) ?_⟩
      intro fields S hd hl
      exact hEnv ⟨fields, S, hd, hl⟩

/-! ### Auxiliary facts about the matcher -/

theorem plusLoop_iff (p : Char → Bool) (k : List Char → Bool) (s : List Char) :
    plusLoop p k s = true ↔
      ∃ pre post, s = pre ++ post ∧ pre ≠ [] ∧ (∀ c ∈ pre, p c = true) ∧ k post = true := by
  induction s with
  | nil =>
    simp only [plusLoop, Bool.false_eq_true, false_iff]
    rintro ⟨pre, post, h, hne, -, -⟩
    cases pre with
    | nil => exact hne rfl
    | cons d pre => simp at h
  | cons c rest ih =>
    simp only [plusLoop, Bool.and_eq_true, Bool.or_eq_true, ih]
    constructor
    · rintro ⟨hc, ⟨pre, post, rfl, -, hall, hk⟩ | hk⟩
      · refine ⟨c :: pre, post, rfl, by simp, ?_, hk⟩
        intro x hx
        rcases List.mem_cons.1 hx with rfl | hx
        · exact hc
        · exact hall x hx
      · exact ⟨[c], rest, rfl, by simp, by simpa using hc, hk⟩
    · rintro ⟨pre, post, h, hne, hall, hk⟩
      cases pre with
      | nil => exact absurd rfl hne
      | cons d pre =>
        simp only [List.cons_append, List.cons.injEq] at h
        obtain ⟨rfl, rfl⟩ := h
        refine ⟨hall c (by simp), ?_⟩
        cases pre with
        | nil => right; simpa using hk
        | cons e pre =>
          left
          exact ⟨e :: pre, post, rfl, by simp, fun x hx => hall x (List.mem_cons_of_mem _ hx),
            hk⟩

theorem notSpaceOrAt_accepts (c : Char) :
    notSpaceOrAt.accepts c = true ↔ isWhiteSpace c = false ∧ c ≠ '@' := by
  simp [notSpaceOrAt, Atom.accepts, ClassItem.covers]

theorem searchFrom_inputStart_false (ns : Regex) (s : List Char) :
    searchFrom (.inputStart :: ns) false s = false := by
  induction s with
  | nil => simp [searchFrom, matchNodes]
  | cons c rest ih => simp [searchFrom, matchNodes, ih]

theorem searchFrom_inputStart_true (ns : Regex) (s : List Char) :
    searchFrom (.inputStart :: ns) true s = matchNodes ns true s := by
  cases s with
  | nil => simp [searchFrom, matchNodes]
  | cons c rest => simp [searchFrom, matchNodes, searchFrom_inputStart_false]

theorem matchNodes_plus (a : Atom) (ns : Regex) (atStart : Bool) (s : List Char) :
    matchNodes (.plus a :: ns) atStart s = true ↔
      ∃ pre post, s = pre ++ post ∧ pre ≠ [] ∧ (∀ c ∈ pre, a.accepts c = true) ∧
        matchNodes ns false post = true := by
  simp only [matchNodes, plusLoop_iff]

theorem matchNodes_lit (d : Char) (ns : Regex) (atStart : Bool) (s : List Char) :
    matchNodes (.one (.lit d) :: ns) atStart s = true ↔
      ∃ rest, s = d :: rest ∧ matchNodes ns false rest = true := by
  cases s with
  | nil => simp [matchNodes]
  | cons c rest =>
    simp only [matchNodes, Atom.accepts, Bool.and_eq_true, beq_iff_eq, List.cons.injEq]
    constructor
    · rintro ⟨rfl, h⟩
      exact ⟨rest, ⟨rfl, rfl⟩, h⟩
    · rintro ⟨r, ⟨rfl, rfl⟩, h⟩
      exact ⟨rfl, h⟩

theorem matchNodes_inputEnd (atStart : Bool) (s : List Char) :
    matchNodes [.inputEnd] atStart s = true ↔ s = [] := by
  simp [matchNodes]

theorem emailRegex_search_iff (s : List Char) :
    searchFrom emailRegex true s = true ↔
      ∃ a b c, s = a ++ '@' :: (b ++ '.' :: c) ∧
        (a ≠ [] ∧ ∀ ch ∈ a, isWhiteSpace ch = false ∧ ch ≠ '@') ∧
        (b ≠ [] ∧ ∀ ch ∈ b, isWhiteSpace ch = false ∧ ch ≠ '@') ∧
        (c ≠ [] ∧ ∀ ch ∈ c, isWhiteSpace ch = false ∧ ch ≠ '@') := by
  rw [emailRegex, searchFrom_inputStart_true]
  simp only [matchNodes_plus, matchNodes_lit, matchNodes_inputEnd, notSpaceOrAt_accepts]
  constructor
  · rintro ⟨a, _, rfl, ha, hap, _, rfl, b, _, rfl, hb, hbp, _, rfl, c, _, rfl, hc, hcp, rfl⟩
    exact ⟨a, b, c, by simp, ⟨ha, hap⟩, ⟨hb, hbp⟩, ⟨hc, hcp⟩⟩
  · rintro ⟨a, b, c, rfl, ⟨ha, hap⟩, ⟨hb, hbp⟩, ⟨hc, hcp⟩⟩
    exact ⟨a, _, rfl, ha, hap, _, rfl, b, _, rfl, hb, hbp, _, rfl, c, [], by simp, hc, hcp,
      rfl⟩

/-! ### Auxiliary facts about the contact form -/

theorem validateForm_snd (fd : FormData) :
    (validateForm fd).2 = ((validateForm fd).1.length == 0) := by
  by_cases h1 : jsTrim fd.name = "" <;> by_cases h2 : jsTrim fd.email = "" <;>
    by_cases h3 : jsTrim fd.subject = "" <;> by_cases h4 : jsTrim fd.message = "" <;>
    cases h5 : validateEmail fd.email <;>
    simp [validateForm, Id.run, truthy, ErrorMap.set, h1, h2, h3, h4, h5]

theorem handleSubmit_of_invalid (endpoints : ApiEndpoints)
    (net : String → FormData → PostOutcome) (st : ContactState)
    (h : (validateForm st.formData).2 = false) :
    handleSubmit endpoints net st =
      [.preventDefault, .setFormErrors (validateForm st.formData).1,
        .setSubmitStatus
          (some ⟨"error", "Please fix the errors in the form before submitting."⟩)] := by
  simp [handleSubmit, h]

theorem handleSubmit_of_resolved (endpoints : ApiEndpoints)
    (net : String → FormData → PostOutcome) (st : ContactState)
    (hv : (validateForm st.formData).2 = true)
    (hp : net endpoints.CONTACT st.formData = .resolved) :
    handleSubmit endpoints net st =
      [.preventDefault, .setFormErrors (validateForm st.formData).1,
        .setIsSubmitting true, .setSubmitStatus none, .post endpoints.CONTACT st.formData,
        .setSubmitStatus
          (some ⟨"success", "Thank you! Your message has been sent successfully."⟩),
        .setFormData ⟨"", "", "", "", ""⟩, .setFormErrors [], .setIsSubmitting false] := by
  simp [handleSubmit, hv, hp]

theorem handleSubmit_of_rejected (endpoints : ApiEndpoints)
    (net : String → FormData → PostOutcome) (st : ContactState) (code : Option String)
    (hv : (validateForm st.formData).2 = true)
    (hp : net endpoints.CONTACT st.formData = .rejected code) :
    handleSubmit endpoints net st =
      [.preventDefault, .setFormErrors (validateForm st.formData).1,
        .setIsSubmitting true, .setSubmitStatus none, .post endpoints.CONTACT st.formData,
        .setSubmitStatus (some ⟨"error",
          if code = some "ECONNABORTED" then
            "Request timed out. Please check your connection and try again."
          else
            "Sorry, there was an error sending your message. Please try again or contact us directly."⟩),
        .setIsSubmitting false] := by
  by_cases hc : code = some "ECONNABORTED" <;> simp [handleSubmit, hv, hp, hc]


/-! ### Auxiliary facts about the About page -/

theorem SectionOutcomes_all_eq_none_iff (o : SectionOutcomes) :
    o.all = none ↔ ∃ x ∈ o.toList, ∃ code, x = GetOutcome.rejected code := by
  obtain ⟨a, b, c, d, e, f, g⟩ := o
  cases a <;> try (simp [SectionOutcomes.all, SectionOutcomes.toList, GetOutcome.data?]; done)
  cases b <;> try (simp [SectionOutcomes.all, SectionOutcomes.toList, GetOutcome.data?]; done)
  cases c <;> try (simp [SectionOutcomes.all, SectionOutcomes.toList, GetOutcome.data?]; done)
  cases d <;> try (simp [SectionOutcomes.all, SectionOutcomes.toList, GetOutcome.data?]; done)
  cases e <;> try (simp [SectionOutcomes.all, SectionOutcomes.toList, GetOutcome.data?]; done)
  cases f <;> try (simp [SectionOutcomes.all, SectionOutcomes.toList, GetOutcome.data?]; done)
  cases g <;> simp [SectionOutcomes.all, SectionOutcomes.toList, GetOutcome.data?]

theorem About_fetchAboutPage_of_rejected (endpoints : ApiEndpoints) (sections : SectionOutcomes)
    (legacy : GetOutcome) (h : sections.all = none) :
    About.fetchAboutPage endpoints sections legacy =
      About.sectionRequests endpoints ++
        ([.get endpoints.ABOUT_PAGE] ++ About.legacyEffects legacy) ++ [.setIsLoading false] := by
  simp [About.fetchAboutPage, h]

theorem About_fetchAboutPage_of_throw (endpoints : ApiEndpoints) (sections : SectionOutcomes)
    (legacy : GetOutcome) (res : SectionData) (e : JSError) (h : sections.all = some res)
    (ha : About.assemble res = .error e) :
    About.fetchAboutPage endpoints sections legacy =
      About.sectionRequests endpoints ++
        ([.get endpoints.ABOUT_PAGE] ++ About.legacyEffects legacy) ++ [.setIsLoading false] := by
  simp [About.fetchAboutPage, h, ha]

theorem About_fetchAboutPage_of_ok (endpoints : ApiEndpoints) (sections : SectionOutcomes)
    (legacy : GetOutcome) (res : SectionData) (v : JSValue) (h : sections.all = some res)
    (ha : About.assemble res = .ok v) :
    About.fetchAboutPage endpoints sections legacy =
      About.sectionRequests endpoints ++ [.setAboutData v] ++ [.setIsLoading false] := by
  simp [About.fetchAboutPage, h, ha]

theorem About_legacyEffects_of_record (d r : JSValue) (rest : List JSValue)
    (h : resultsOrData d = .ok (arr (r :: rest))) :
    About.legacyEffects (.resolved d) = [.setAboutData r] := by
  simp [About.legacyEffects, About.legacyUpdate, h, isNonEmptyArray, isArray, JSValue.length,
    first, bind, Except.bind, pure, Except.pure]

theorem About_legacyEffects_cases (legacy : GetOutcome) :
    About.legacyEffects legacy = [] ∨
      ∃ d r rest, legacy = .resolved d ∧ resultsOrData d = .ok (arr (r :: rest)) ∧
        About.legacyEffects legacy = [.setAboutData r] := by
  cases legacy with
  | rejected code => left; rfl
  | resolved d =>
    cases hr : resultsOrData d with
    | error e =>
      left
      simp [About.legacyEffects, About.legacyUpdate, hr, bind, Except.bind]
    | ok v =>
      cases v with
      | arr items =>
        cases items with
        | nil =>
          left
          simp [About.legacyEffects, About.legacyUpdate, hr, isNonEmptyArray, isArray,
            JSValue.length, bind, Except.bind, pure, Except.pure]
        | cons r rest =>
          right
          exact ⟨d, r, rest, rfl, hr, About_legacyEffects_of_record d r rest hr⟩
      | _ =>
        left
        simp [About.legacyEffects, About.legacyUpdate, hr, isNonEmptyArray, isArray, bind,
          Except.bind, pure, Except.pure]

theorem About_settle_sectionRequests (endpoints : ApiEndpoints) (st : AboutState)
    (rest : List AboutEffect) :
    st.settle (About.sectionRequests endpoints ++ rest) = st.settle rest := by
  simp [AboutState.settle, About.sectionRequests, AboutEffect.apply]


theorem About_assemble_story_title (res : SectionData) (v r T : JSValue)
    (rest : List JSValue) (ha : About.assemble res = .ok v)
    (hs : resultsOrData res.story = .ok (arr (r :: rest)))
    (ht : r.getProp "title" = .ok T) :
    v.optProp "story_title" = T := by
  have hf : About.firstField (arr (r :: rest)) "title" = .ok T := by
    simp [About.firstField, isNonEmptyArray, isArray, JSValue.length, first, ht]
  unfold About.assemble at ha
  rw [hs] at ha
  simp only [Except.instMonad, Except.bind, Except.pure, bind, pure] at ha
  rw [hf] at ha
  simp only at ha
  repeat' split at ha
  all_goals cases ha <;> simp [optProp, List.lookup]


/-! ### Auxiliary facts about the list pages -/

theorem Blog_postsArray_eq (d : JSValue) : Blog.postsArray d = getDataArray ⟨d⟩ := by
  cases d with
  | obj fields =>
    cases hl : fields.lookup "results" with
    | none =>
      simp [Blog.postsArray, getDataArray, isArray, andCond, truthy, getProp, typeOf, hl, bind,
        Except.bind, pure, Except.pure]
    | some r =>
      cases r <;>
        simp [Blog.postsArray, getDataArray, isArray, andCond, truthy, getProp, typeOf, hl,
          bind, Except.bind, pure, Except.pure]
  | bool b => cases b <;> rfl
  | num n =>
    by_cases hn : n = 0 <;>
      simp [Blog.postsArray, getDataArray, isArray, andCond, truthy, getProp, typeOf, hn, bind,
        Except.bind, pure, Except.pure]
  | str s =>
    by_cases hs : s = "" <;>
      simp [Blog.postsArray, getDataArray, isArray, andCond, truthy, getProp, typeOf, hs, bind,
        Except.bind, pure, Except.pure]
  | _ => rfl

theorem Gallery_itemsArray_eq (d : JSValue) : Gallery.itemsArray d = getDataArray ⟨d⟩ := by
  cases d with
  | obj fields =>
    cases hl : fields.lookup "results" with
    | none =>
      simp [Gallery.itemsArray, getDataArray, isArray, andCond, truthy, getProp, hl, bind,
        Except.bind, pure, Except.pure]
    | some r =>
      cases r <;>
        simp [Gallery.itemsArray, getDataArray, isArray, andCond, truthy, getProp, hl, bind,
          Except.bind, pure, Except.pure]
  | bool b => cases b <;> rfl
  | num n =>
    by_cases hn : n = 0 <;>
      simp [Gallery.itemsArray, getDataArray, isArray, andCond, truthy, getProp, hn, bind,
        Except.bind, pure, Except.pure]
  | str s =>
    by_cases hs : s = "" <;>
      simp [Gallery.itemsArray, getDataArray, isArray, andCond, truthy, getProp, hs, bind,
        Except.bind, pure, Except.pure]
  | _ => rfl

theorem Updates_updatesArray_eq (d : JSValue) : Updates.updatesArray d = getDataArray ⟨d⟩ := by
  cases d with
  | obj fields =>
    cases hl : fields.lookup "results" with
    | none =>
      simp [Updates.updatesArray, getDataArray, isArray, andCond, truthy, getProp, hl, bind,
        Except.bind, pure, Except.pure]
    | some r =>
      cases r <;>
        simp [Updates.updatesArray, getDataArray, isArray, andCond, truthy, getProp, hl, bind,
          Except.bind, pure, Except.pure]
  | bool b => cases b <;> rfl
  | num n =>
    by_cases hn : n = 0 <;>
      simp [Updates.updatesArray, getDataArray, isArray, andCond, truthy, getProp, hn, bind,
        Except.bind, pure, Except.pure]
  | str s =>
    by_cases hs : s = "" <;>
      simp [Updates.updatesArray, getDataArray, isArray, andCond, truthy, getProp, hs, bind,
        Except.bind, pure, Except.pure]
  | _ => rfl

theorem Blog_card_of_valid_date (env : DateEnv) (fields : List (String × JSValue)) (t : Int)
    (h : newDate env ((obj fields).optProp "created_date") = some t) :
    Blog.card env (obj fields) =
      .ok { id := (obj fields).optProp "id",
            featuredImageUrl := (obj fields).optProp "featured_image_url",
            category := (obj fields).optProp "category",
            title := (obj fields).optProp "title",
            excerpt := (obj fields).optProp "excerpt",
            author := (obj fields).optProp "author",
            createdDate := env.formatValid t "MMM d, yyyy" } := by
  simp only [optProp] at h
  simp only [Blog.card, getProp, optProp, DateFns.format, h, bind, Except.bind, pure,
    Except.pure]

theorem Blog_card_of_invalid_date (env : DateEnv) (fields : List (String × JSValue))
    (h : newDate env ((obj fields).optProp "created_date") = none) :
    Blog.card env (obj fields) = .error .rangeError := by
  simp only [optProp] at h
  simp only [Blog.card, getProp, DateFns.format, h, bind, Except.bind, pure, Except.pure]

theorem Blog_cards_of_records (env : DateEnv) (items : List JSValue)
    (h : ∀ p ∈ items, ∃ fields, p = obj fields)
    (hd : ∀ p ∈ items, ∃ t, newDate env (p.optProp "created_date") = some t) :
    ∃ cards, Blog.cards env items = .ok cards ∧ cards.length = items.length ∧
      List.Forall₂ (fun p c => c.title = p.optProp "title" ∧
        DateFns.format env (newDate env (p.optProp "created_date")) "MMM d, yyyy" =
          .ok c.createdDate) items cards := by
  induction items with
  | nil => exact ⟨[], rfl, rfl, List.Forall₂.nil⟩
  | cons p rest ih =>
    obtain ⟨fields, rfl⟩ := h p (List.mem_cons_self _ _)
    obtain ⟨t, ht⟩ := hd _ (List.mem_cons_self _ _)
    obtain ⟨cards, hc, hlen, hall⟩ := ih (fun q hq => h q (List.mem_cons_of_mem _ hq))
      (fun q hq => hd q (List.mem_cons_of_mem _ hq))
    obtain ⟨c, hcd, htitle, hdate⟩ : ∃ c, Blog.card env (obj fields) = .ok c ∧
        c.title = (obj fields).optProp "title" ∧
        c.createdDate = env.formatValid t "MMM d, yyyy" :=
      ⟨_, Blog_card_of_valid_date env fields t ht, rfl, rfl⟩
    refine ⟨c :: cards, ?_, ?_, List.Forall₂.cons ⟨htitle, ?_⟩ hall⟩
    · simp only [Blog.cards, hcd, hc, bind, Except.bind, pure, Except.pure]
    · simp [hlen]
    · rw [ht, hdate]
      rfl

theorem Blog_cards_dates_of_ok (env : DateEnv) (items : List JSValue) (cards : List BlogCard)
    (h : ∀ p ∈ items, ∃ fields, p = obj fields) (hc : Blog.cards env items = .ok cards) :
    ∀ p ∈ items, ∃ t, newDate env (p.optProp "created_date") = some t := by
  induction items generalizing cards with
  | nil => intro p hp; cases hp
  | cons q rest ih =>
    obtain ⟨fields, rfl⟩ := h q (List.mem_cons_self _ _)
    cases hq : newDate env ((obj fields).optProp "created_date") with
    | none =>
      simp [Blog.cards, Blog_card_of_invalid_date env fields hq, bind, Except.bind] at hc
    | some t =>
      simp only [Blog.cards, Blog_card_of_valid_date env fields t hq, bind, Except.bind,
        pure, Except.pure] at hc
      cases hr : Blog.cards env rest with
      | error e => rw [hr] at hc; cases hc
      | ok rc =>
        intro p hp
        rcases List.mem_cons.1 hp with rfl | hp
        · exact ⟨t, hq⟩
        · exact ih rc (fun x hx => h x (List.mem_cons_of_mem _ hx)) hr p hp

theorem Updates_card_of_valid_date (env : DateEnv) (fields : List (String × JSValue))
    (t : Int) (h : newDate env ((obj fields).optProp "created_date") = some t) :
    Updates.card env (obj fields) =
      .ok { id := (obj fields).optProp "id",
            type := (obj fields).optProp "type",
            priority := (obj fields).optProp "priority",
            title := (obj fields).optProp "title",
            content := (obj fields).optProp "content",
            createdDate := env.formatValid t "MMMM d, yyyy" } := by
  simp only [optProp] at h
  simp only [Updates.card, getProp, optProp, DateFns.format, h, bind, Except.bind, pure,
    Except.pure]

theorem Updates_card_of_invalid_date (env : DateEnv) (fields : List (String × JSValue))
    (h : newDate env ((obj fields).optProp "created_date") = none) :
    Updates.card env (obj fields) = .error .rangeError := by
  simp only [optProp] at h
  simp only [Updates.card, getProp, DateFns.format, h, bind, Except.bind, pure, Except.pure]

theorem Updates_cards_of_records (env : DateEnv) (items : List JSValue)
    (h : ∀ p ∈ items, ∃ fields, p = obj fields)
    (hd : ∀ p ∈ items, ∃ t, newDate env (p.optProp "created_date") = some t) :
    ∃ cards, Updates.cards env items = .ok cards ∧ cards.length = items.length ∧
      List.Forall₂ (fun p c => c.title = p.optProp "title" ∧
        DateFns.format env (newDate env (p.optProp "created_date")) "MMMM d, yyyy" =
          .ok c.createdDate) items cards := by
  induction items with
  | nil => exact ⟨[], rfl, rfl, List.Forall₂.nil⟩
  | cons p rest ih =>
    obtain ⟨fields, rfl⟩ := h p (List.mem_cons_self _ _)
    obtain ⟨t, ht⟩ := hd _ (List.mem_cons_self _ _)
    obtain ⟨cards, hc, hlen, hall⟩ := ih (fun q hq => h q (List.mem_cons_of_mem _ hq))
      (fun q hq => hd q (List.mem_cons_of_mem _ hq))
    obtain ⟨c, hcd, htitle, hdate⟩ : ∃ c, Updates.card env (obj fields) = .ok c ∧
        c.title = (obj fields).optProp "title" ∧
        c.createdDate = env.formatValid t "MMMM d, yyyy" :=
      ⟨_, Updates_card_of_valid_date env fields t ht, rfl, rfl⟩
    refine ⟨c :: cards, ?_, ?_, List.Forall₂.cons ⟨htitle, ?_⟩ hall⟩
    · simp only [Updates.cards, hcd, hc, bind, Except.bind, pure, Except.pure]
    · simp [hlen]
    · rw [ht, hdate]
      rfl

theorem Updates_cards_dates_of_ok (env : DateEnv) (items : List JSValue)
    (cards : List UpdateCard)
    (h : ∀ p ∈ items, ∃ fields, p = obj fields) (hc : Updates.cards env items = .ok cards) :
    ∀ p ∈ items, ∃ t, newDate env (p.optProp "created_date") = some t := by
  induction items generalizing cards with
  | nil => intro p hp; cases hp
  | cons q rest ih =>
    obtain ⟨fields, rfl⟩ := h q (List.mem_cons_self _ _)
    cases hq : newDate env ((obj fields).optProp "created_date") with
    | none =>
      simp [Updates.cards, Updates_card_of_invalid_date env fields hq, bind, Except.bind] at hc
    | some t =>
      simp only [Updates.cards, Updates_card_of_valid_date env fields t hq, bind, Except.bind,
        pure, Except.pure] at hc
      cases hr : Updates.cards env rest with
      | error e => rw [hr] at hc; cases hc
      | ok rc =>
        intro p hp
        rcases List.mem_cons.1 hp with rfl | hp
        · exact ⟨t, hq⟩
        · exact ih rc (fun x hx => h x (List.mem_cons_of_mem _ hx)) hr p hp


theorem Gallery_videoCard_of_record (vt : List (String × JSValue))
    (fields : List (String × JSValue)) :
    ∃ v, Gallery.videoCard vt (obj fields) = .ok v := by
  simp only [Gallery.videoCard, getVideoThumbnail, getProp, bind, Except.bind, pure,
    Except.pure]
  repeat' split
  all_goals exact ⟨_, rfl⟩

theorem Gallery_card_of_record (vt : List (String × JSValue))
    (fields : List (String × JSValue)) :
    ∃ c, Gallery.card vt (obj fields) = .ok c ∧ c.title = (obj fields).optProp "title" := by
  obtain ⟨v, hv⟩ := Gallery_videoCard_of_record vt fields
  by_cases hm : ((fields.lookup "media_type").getD undefined).strictEqStr "video" = true
  · simp only [Gallery.card, getProp, hm, hv, bind, Except.bind, pure, Except.pure, if_true]
    exact ⟨_, rfl, rfl⟩
  · simp only [Gallery.card, getProp, hm, bind, Except.bind, pure, Except.pure]
    exact ⟨_, rfl, rfl⟩

theorem Gallery_cardMeta_of_falsy (env : DateEnv) (fields : List (String × JSValue))
    (h : ((obj fields).optProp "event_date").truthy = false) :
    Gallery.cardMeta env (obj fields) = .ok none := by
  simp only [optProp] at h
  simp [Gallery.cardMeta, getProp, h, bind, Except.bind, pure, Except.pure]

theorem Gallery_cardMeta_of_valid_date (env : DateEnv) (fields : List (String × JSValue))
    (t : Int) (ht : ((obj fields).optProp "event_date").truthy = true)
    (h : newDate env ((obj fields).optProp "event_date") = some t) :
    Gallery.cardMeta env (obj fields) = .ok (some (env.formatValid t "MMM d, yyyy")) := by
  simp only [optProp] at h ht
  simp [Gallery.cardMeta, getProp, DateFns.format, h, ht, bind, Except.bind, pure,
    Except.pure]

theorem Gallery_cardMeta_of_invalid_date (env : DateEnv) (fields : List (String × JSValue))
    (ht : ((obj fields).optProp "event_date").truthy = true)
    (h : newDate env ((obj fields).optProp "event_date") = none) :
    Gallery.cardMeta env (obj fields) = .error .rangeError := by
  simp only [optProp] at h ht
  simp [Gallery.cardMeta, getProp, DateFns.format, h, ht, bind, Except.bind]

theorem Gallery_cardMeta_ok_iff (env : DateEnv) (fields : List (String × JSValue)) :
    (∃ m, Gallery.cardMeta env (obj fields) = .ok m) ↔
      (((obj fields).optProp "event_date").truthy = false ∨
        ∃ t, newDate env ((obj fields).optProp "event_date") = some t) := by
  cases ht : ((obj fields).optProp "event_date").truthy with
  | false =>
    exact ⟨fun _ => Or.inl rfl, fun _ => ⟨_, Gallery_cardMeta_of_falsy env fields ht⟩⟩
  | true =>
    cases hd : newDate env ((obj fields).optProp "event_date") with
    | none =>
      rw [Gallery_cardMeta_of_invalid_date env fields ht hd]
      constructor
      · rintro ⟨m, hm⟩
        cases hm
      · rintro (h | ⟨t, h⟩)
        · cases h
        · cases h
    | some t =>
      exact ⟨fun _ => Or.inr ⟨t, rfl⟩,
        fun _ => ⟨_, Gallery_cardMeta_of_valid_date env fields t ht hd⟩⟩

theorem Gallery_cards_of_records (env : DateEnv) (vt : List (String × JSValue))
    (items : List JSValue) (h : ∀ p ∈ items, ∃ fields, p = obj fields)
    (hd : ∀ p ∈ items, (p.optProp "event_date").truthy = false ∨
      ∃ t, newDate env (p.optProp "event_date") = some t) :
    ∃ cards, Gallery.cards env vt items = .ok cards ∧ cards.length = items.length ∧
      List.Forall₂ (fun p c => c.1.title = p.optProp "title" ∧
        Gallery.cardMeta env p = .ok c.2) items cards := by
  induction items with
  | nil => exact ⟨[], rfl, rfl, List.Forall₂.nil⟩
  | cons p rest ih =>
    obtain ⟨fields, rfl⟩ := h p (List.mem_cons_self _ _)
    obtain ⟨cards, hc, hlen, hall⟩ := ih (fun q hq => h q (List.mem_cons_of_mem _ hq))
      (fun q hq => hd q (List.mem_cons_of_mem _ hq))
    obtain ⟨c, hcd, ht⟩ := Gallery_card_of_record vt fields
    obtain ⟨m, hm⟩ := (Gallery_cardMeta_ok_iff env fields).2 (hd _ (List.mem_cons_self _ _))
    refine ⟨(c, m) :: cards, ?_, ?_, List.Forall₂.cons ⟨ht, hm⟩ hall⟩
    · simp only [Gallery.cards, hcd, hm, hc, bind, Except.bind, pure, Except.pure]
    · simp [hlen]

theorem Gallery_cards_dates_of_ok (env : DateEnv) (vt : List (String × JSValue))
    (items : List JSValue) (cards : List (GalleryCard × Option String))
    (h : ∀ p ∈ items, ∃ fields, p = obj fields) (hc : Gallery.cards env vt items = .ok cards) :
    ∀ p ∈ items, (p.optProp "event_date").truthy = false ∨
      ∃ t, newDate env (p.optProp "event_date") = some t := by
  induction items generalizing cards with
  | nil => intro p hp; cases hp
  | cons q rest ih =>
    obtain ⟨fields, rfl⟩ := h q (List.mem_cons_self _ _)
    obtain ⟨c, hcd, -⟩ := Gallery_card_of_record vt fields
    cases hm : Gallery.cardMeta env (obj fields) with
    | error e =>
      simp [Gallery.cards, hcd, hm, bind, Except.bind] at hc
    | ok m =>
      cases hr : Gallery.cards env vt rest with
      | error e =>
        simp [Gallery.cards, hcd, hm, hr, bind, Except.bind] at hc
      | ok rc =>
        intro p hp
        rcases List.mem_cons.1 hp with rfl | hp
        · exact (Gallery_cardMeta_ok_iff env fields).1 ⟨m, hm⟩
        · exact ih rc (fun x hx => h x (List.mem_cons_of_mem _ hx)) hr p hp

theorem Gallery_filterFeatured_of_records (want : Bool) (items : List JSValue)
    (h : ∀ p ∈ items, ∃ fields, p = obj fields) :
    Gallery.filterFeatured want items =
      .ok (items.filter (fun p => (p.optProp "is_featured").truthy == want)) := by
  induction items with
  | nil => rfl
  | cons p rest ih =>
    obtain ⟨fields, rfl⟩ := h p (List.mem_cons_self _ _)
    have ih2 := ih (fun q hq => h q (List.mem_cons_of_mem _ hq))
    simp only [Gallery.filterFeatured, getProp, ih2, bind, Except.bind, pure, Except.pure,
      List.filter_cons, optProp]

theorem Gallery_filter_featured_length (items : List JSValue) :
    (items.filter (fun p => (p.optProp "is_featured").truthy == true)).length +
      (items.filter (fun p => (p.optProp "is_featured").truthy == false)).length =
      items.length := by
  induction items with
  | nil => rfl
  | cons p rest ih =>
    cases hp : (p.optProp "is_featured").truthy
    · have h1 : (false == true) = false := rfl
      have h2 : (false == false) = true := rfl
      simp only [List.filter_cons, hp, h1, h2, if_true, List.length_cons]
      simp only [Bool.false_eq_true, if_false]
      omega
    · have h1 : (true == true) = true := rfl
      have h2 : (true == false) = false := rfl
      simp only [List.filter_cons, hp, h1, h2, if_true, List.length_cons]
      simp only [Bool.false_eq_true, if_false]
      omega


theorem Blog_fetchPosts_resolved (data : JSValue) (st : BlogState) (items : List JSValue)
    (h : getDataArray ⟨data⟩ = .ok (arr items)) :
    Blog.fetchPosts (.resolved data) st = { st with posts := arr items, isLoading := false } := by
  simp only [Blog.fetchPosts, Blog_postsArray_eq, h]

theorem Updates_fetchUpdates_resolved (data : JSValue) (st : UpdatesState)
    (items : List JSValue) (h : getDataArray ⟨data⟩ = .ok (arr items)) :
    Updates.fetchUpdates (.resolved data) st =
      { st with updates := arr items, isLoading := false } := by
  simp only [Updates.fetchUpdates, Updates_updatesArray_eq, h]

theorem Gallery_fetchGalleryItems_resolved (data : JSValue) (st : GalleryState)
    (items : List JSValue) (h : getDataArray ⟨data⟩ = .ok (arr items)) :
    Gallery.fetchGalleryItems (.resolved data) st =
      { st with items := arr items, isLoading := false } := by
  simp only [Gallery.fetchGalleryItems, Gallery_itemsArray_eq, h]

theorem Blog_view_of_records (env : DateEnv) (st : BlogState) (items : List JSValue)
    (hne : items ≠ []) (h : ∀ p ∈ items, ∃ fields, p = obj fields)
    (hd : ∀ p ∈ items, ∃ t, newDate env (p.optProp "created_date") = some t) :
    ∃ cards, Blog.view env { st with posts := arr items, isLoading := false } =
        .ok (.grid cards) ∧
      cards.length = items.length ∧
      List.Forall₂ (fun p c => c.title = p.optProp "title" ∧
        DateFns.format env (newDate env (p.optProp "created_date")) "MMM d, yyyy" =
          .ok c.createdDate) items cards := by
  obtain ⟨cards, hc, hlen, hall⟩ := Blog_cards_of_records env items h hd
  refine ⟨cards, ?_, hlen, hall⟩
  have hl : (items.length == 0) = false := by
    cases items with
    | nil => exact absurd rfl hne
    | cons p rest => rfl
  simp [Blog.view, hc, hl, bind, Except.bind, pure, Except.pure]

theorem Blog_view_dates_of_ok (env : DateEnv) (st : BlogState) (items : List JSValue)
    (view : BlogView) (h : ∀ p ∈ items, ∃ fields, p = obj fields)
    (hv : Blog.view env { st with posts := arr items, isLoading := false } = .ok view) :
    ∀ p ∈ items, ∃ t, newDate env (p.optProp "created_date") = some t := by
  cases items with
  | nil => intro p hp; cases hp
  | cons q rest =>
    cases hc : Blog.cards env (q :: rest) with
    | error e =>
      simp [Blog.view, hc, bind, Except.bind, pure, Except.pure] at hv
    | ok cards => exact Blog_cards_dates_of_ok env _ cards h hc

theorem Updates_view_of_records (env : DateEnv) (st : UpdatesState) (items : List JSValue)
    (hne : items ≠ []) (h : ∀ p ∈ items, ∃ fields, p = obj fields)
    (hd : ∀ p ∈ items, ∃ t, newDate env (p.optProp "created_date") = some t) :
    ∃ cards, Updates.view env { st with updates := arr items, isLoading := false } =
        .ok (.list cards) ∧
      cards.length = items.length ∧
      List.Forall₂ (fun p c => c.title = p.optProp "title" ∧
        DateFns.format env (newDate env (p.optProp "created_date")) "MMMM d, yyyy" =
          .ok c.createdDate) items cards := by
  obtain ⟨cards, hc, hlen, hall⟩ := Updates_cards_of_records env items h hd
  refine ⟨cards, ?_, hlen, hall⟩
  have hl : (items.length == 0) = false := by
    cases items with
    | nil => exact absurd rfl hne
    | cons p rest => rfl
  simp [Updates.view, hc, hl, bind, Except.bind, pure, Except.pure]

theorem Updates_view_dates_of_ok (env : DateEnv) (st : UpdatesState) (items : List JSValue)
    (view : UpdatesView) (h : ∀ p ∈ items, ∃ fields, p = obj fields)
    (hv : Updates.view env { st with updates := arr items, isLoading := false } = .ok view) :
    ∀ p ∈ items, ∃ t, newDate env (p.optProp "created_date") = some t := by
  cases items with
  | nil => intro p hp; cases hp
  | cons q rest =>
    cases hc : Updates.cards env (q :: rest) with
    | error e =>
      simp [Updates.view, hc, bind, Except.bind, pure, Except.pure] at hv
    | ok cards => exact Updates_cards_dates_of_ok env _ cards h hc

theorem Gallery_view_of_records (env : DateEnv) (st : GalleryState) (items : List JSValue)
    (hne : items ≠ []) (h : ∀ p ∈ items, ∃ fields, p = obj fields)
    (hd : ∀ p ∈ items, (p.optProp "event_date").truthy = false ∨
      ∃ t, newDate env (p.optProp "event_date") = some t) :
    ∃ featured regular,
      Gallery.view env { st with items := arr items, isLoading := false } =
        .ok { featured := featured, regular := .grid regular } ∧
      featured.length + regular.length = items.length := by
  have hsub : ∀ want, ∀ p ∈ items.filter (fun p => (p.optProp "is_featured").truthy == want),
      ∃ fields, p = obj fields := fun want p hp => h p (List.mem_of_mem_filter hp)
  have hdsub : ∀ want,
      ∀ p ∈ items.filter (fun p => (p.optProp "is_featured").truthy == want),
      (p.optProp "event_date").truthy = false ∨
        ∃ t, newDate env (p.optProp "event_date") = some t :=
    fun want p hp => hd p (List.mem_of_mem_filter hp)
  obtain ⟨fc, hfc, hflen, -⟩ :=
    Gallery_cards_of_records env st.videoThumbnails _ (hsub true) (hdsub true)
  obtain ⟨rc, hrc, hrlen, -⟩ :=
    Gallery_cards_of_records env st.videoThumbnails _ (hsub false) (hdsub false)
  have hlen := Gallery_filter_featured_length items
  have hpos : 0 < items.length := List.length_pos.2 hne
  simp only [Gallery.view, Gallery_filterFeatured_of_records _ items h, bind, Except.bind,
    pure, Except.pure]
  generalize items.filter (fun p => (p.optProp "is_featured").truthy == true) = F
    at hfc hflen hlen ⊢
  generalize items.filter (fun p => (p.optProp "is_featured").truthy == false) = R
    at hrc hrlen hlen ⊢
  cases F with
  | nil =>
    cases R with
    | nil => simp at hlen; omega
    | cons r R =>
      refine ⟨[], rc, ?_, ?_⟩
      · simp [hrc]
      · simp only [List.length_nil, List.length_cons] at *
        omega
  | cons f F =>
    refine ⟨fc, rc, ?_, by omega⟩
    simp [hfc, hrc]

theorem Gallery_view_dates_of_ok (env : DateEnv) (st : GalleryState) (items : List JSValue)
    (view : GalleryView) (h : ∀ p ∈ items, ∃ fields, p = obj fields)
    (hv : Gallery.view env { st with items := arr items, isLoading := false } = .ok view) :
    ∀ p ∈ items, (p.optProp "event_date").truthy = false ∨
      ∃ t, newDate env (p.optProp "event_date") = some t := by
  have hsub : ∀ want, ∀ p ∈ items.filter (fun p => (p.optProp "is_featured").truthy == want),
      ∃ fields, p = obj fields := fun want p hp => h p (List.mem_of_mem_filter hp)
  have hF := Gallery_cards_dates_of_ok env st.videoThumbnails
    (items.filter (fun p => (p.optProp "is_featured").truthy == true))
  have hR := Gallery_cards_dates_of_ok env st.videoThumbnails
    (items.filter (fun p => (p.optProp "is_featured").truthy == false))
  have hsT := hsub true
  have hsF := hsub false
  have hmem : ∀ p ∈ items,
      p ∈ items.filter (fun p => (p.optProp "is_featured").truthy == true) ∨
      p ∈ items.filter (fun p => (p.optProp "is_featured").truthy == false) := by
    intro p hp
    cases hb : (p.optProp "is_featured").truthy
    · exact Or.inr (List.mem_filter.2 ⟨hp, by rw [hb]; rfl⟩)
    · exact Or.inl (List.mem_filter.2 ⟨hp, by rw [hb]; rfl⟩)
  simp only [Gallery.view, Gallery_filterFeatured_of_records _ items h, bind, Except.bind,
    pure, Except.pure] at hv
  generalize items.filter (fun p => (p.optProp "is_featured").truthy == true) = F
    at hF hsT hmem hv
  generalize items.filter (fun p => (p.optProp "is_featured").truthy == false) = R
    at hR hsF hmem hv
  have hFok : ∀ p ∈ F, (p.optProp "event_date").truthy = false ∨
      ∃ t, newDate env (p.optProp "event_date") = some t := by
    cases F with
    | nil => intro p hp; cases hp
    | cons f F =>
      cases hc : Gallery.cards env st.videoThumbnails (f :: F) with
      | error e => simp [hc] at hv
      | ok cards => exact hF cards hsT hc
  have hRok : ∀ p ∈ R, (p.optProp "event_date").truthy = false ∨
      ∃ t, newDate env (p.optProp "event_date") = some t := by
    cases R with
    | nil => intro p hp; cases hp
    | cons r R =>
      cases hc : Gallery.cards env st.videoThumbnails (r :: R) with
      | error e =>
        by_cases hpos : F.length > 0 <;>
          cases hcF : Gallery.cards env st.videoThumbnails F <;>
          simp [hc, hcF, hpos] at hv
      | ok cards => exact hR cards hsF hc
  intro p hp
  rcases hmem p hp with hp | hp
  · exact hFok p hp
  · exact hRok p hp

/-! ### Auxiliary facts about page loads -/

theorem SectionSlots_get_set (slots : SectionSlots) (s t : AboutSection) (o : GetOutcome) :
    (slots.set s o).get t = if t = s then some o else slots.get t := by
  cases s <;> cases t <;> rfl

theorem SectionSlots_anyPending_of_allFulfilled_none (slots : SectionSlots)
    (hrej : ∀ s code, slots.get s ≠ some (.rejected code))
    (hall : slots.allFulfilled = none) : slots.anyPending = true := by
  obtain ⟨a, b, c, d, e, f, g⟩ := slots
  have ha := hrej .story
  have hb := hrej .mission
  have hc := hrej .vision
  have hd := hrej .valuesHeader
  have he := hrej .timelineHeader
  have hf := hrej .values
  have hg := hrej .timeline
  simp only [SectionSlots.get] at ha hb hc hd he hf hg
  rcases a with _ | (_ | ca)
  · simp [SectionSlots.anyPending]
  rotate_left
  · exact absurd rfl (ha ca)
  rcases b with _ | (_ | cb)
  · simp [SectionSlots.anyPending]
  rotate_left
  · exact absurd rfl (hb cb)
  rcases c with _ | (_ | cc)
  · simp [SectionSlots.anyPending]
  rotate_left
  · exact absurd rfl (hc cc)
  rcases d with _ | (_ | cd)
  · simp [SectionSlots.anyPending]
  rotate_left
  · exact absurd rfl (hd cd)
  rcases e with _ | (_ | ce)
  · simp [SectionSlots.anyPending]
  rotate_left
  · exact absurd rfl (he ce)
  rcases f with _ | (_ | cf)
  · simp [SectionSlots.anyPending]
  rotate_left
  · exact absurd rfl (hf cf)
  rcases g with _ | (_ | cg)
  · simp [SectionSlots.anyPending]
  rotate_left
  · exact absurd rfl (hg cg)
  simp [SectionSlots.allFulfilled, GetOutcome.data?] at hall

theorem AboutState_settle_setIsLoading (st : AboutState) (effects : List AboutEffect)
    (b : Bool) : (st.settle (effects ++ [.setIsLoading b])).isLoading = b := by
  simp [AboutState.settle, List.foldl_append, AboutEffect.apply]

theorem AboutState_settle_legacyEffects_isLoading (st : AboutState) (o : GetOutcome) :
    (st.settle (About.legacyEffects o)).isLoading = st.isLoading := by
  rcases About_legacyEffects_cases o with h | ⟨d, r, rest, -, -, h⟩ <;> rw [h] <;> rfl

theorem AboutState_settle_storyImageEffects_isLoading (st : AboutState) (o : GetOutcome) :
    (st.settle (About.storyImageEffects o)).isLoading = st.isLoading := by
  cases o with
  | rejected code => rfl
  | resolved d =>
    simp only [About.storyImageEffects]
    split <;> rfl

theorem AboutRun_step_consistent (run : AboutRun) (e : AboutEvent) (h : run.Consistent) :
    (run.step e).Consistent := by
  obtain ⟨h1, h2⟩ := h
  cases e with
  | sectionSettled s o =>
    simp only [AboutRun.step]
    cases hget : run.slots.get s with
    | some _ => exact ⟨h1, h2⟩
    | none =>
      cases hphase : run.phase with
      | awaitingSections =>
        have hload : run.state.isLoading = true := h1.2 (by rw [hphase]; simp)
        cases o with
        | rejected code => exact ⟨by simp [hload], by simp⟩
        | resolved d =>
          have hrej : ∀ t code,
              (run.slots.set s (.resolved d)).get t ≠ some (.rejected code) := by
            intro t code
            rw [SectionSlots_get_set]
            split
            · simp
            · exact (h2 hphase).2 t code
          cases hall : (run.slots.set s (.resolved d)).allFulfilled with
          | none =>
            refine ⟨by simp [hload, hphase], fun _ => ⟨?_, hrej⟩⟩
            exact SectionSlots_anyPending_of_allFulfilled_none _ hrej hall
          | some res =>
            cases hasm : About.assemble res with
            | ok v =>
              exact ⟨by simp [hasm, AboutState.settle, AboutEffect.apply], by simp [hasm]⟩
            | error err => exact ⟨by simp [hasm, hload], by simp [hasm]⟩
      | awaitingLegacy => exact ⟨by simpa [hphase] using h1, by simp [hphase]⟩
      | done => exact ⟨by simpa [hphase] using h1, by simp [hphase]⟩
  | legacySettled o =>
    simp only [AboutRun.step]
    cases hphase : run.phase with
    | awaitingLegacy =>
      exact ⟨by simp [AboutState_settle_setIsLoading], by simp⟩
    | awaitingSections => exact ⟨by simpa [hphase] using h1, by simpa [hphase] using h2⟩
    | done => exact ⟨by simpa [hphase] using h1, by simp [hphase]⟩
  | storyImageSettled o =>
    simp only [AboutRun.step]
    split
    · exact ⟨by simpa [AboutState_settle_storyImageEffects_isLoading] using h1, h2⟩
    · exact ⟨h1, h2⟩

theorem AboutRun_foldl_consistent (events : List AboutEvent) (run : AboutRun)
    (h : run.Consistent) : (events.foldl AboutRun.step run).Consistent := by
  induction events generalizing run with
  | nil => exact h
  | cons e rest ih => exact ih _ (AboutRun_step_consistent run e h)

theorem AboutRun_after_consistent (events : List AboutEvent) :
    (AboutRun.after events).Consistent :=
  AboutRun_foldl_consistent events _ ⟨by simp [AboutRun.initial, AboutState.initial],
    fun _ => ⟨rfl, fun s code => by cases s <;> simp [AboutRun.initial, SectionSlots.get]⟩⟩

theorem AboutRun_step_done (run : AboutRun) (e : AboutEvent) (h : run.phase = .done) :
    (run.step e).phase = .done := by
  cases e with
  | sectionSettled s o =>
    simp only [AboutRun.step]
    cases run.slots.get s <;> simp [h]
  | legacySettled o => simp [AboutRun.step, h]
  | storyImageSettled o =>
    simp only [AboutRun.step]
    split <;> simp [h]

theorem AboutRun_foldl_done (events : List AboutEvent) (run : AboutRun)
    (h : run.phase = .done) : (events.foldl AboutRun.step run).phase = .done := by
  induction events generalizing run with
  | nil => exact h
  | cons e rest ih => exact ih _ (AboutRun_step_done run e h)

theorem ServicesRun_step_isLoading (run : ServicesRun) (e : ServicesEvent)
    (h : run.state.isLoading = run.servicesPending) :
    (run.step e).state.isLoading = (run.step e).servicesPending := by
  cases e with
  | servicesSettled o =>
    simp only [ServicesRun.step]
    split
    · simp [Services.fetchServices]
    · exact h
  | headerImageSettled o =>
    simp only [ServicesRun.step]
    split
    · cases o with
      | rejected code => simpa [Services.fetchHeaderImage] using h
      | resolved d =>
        simp only [Services.fetchHeaderImage]
        split <;> simpa using h
    · exact h

theorem ServicesRun_foldl_isLoading (events : List ServicesEvent) (run : ServicesRun)
    (h : run.state.isLoading = run.servicesPending) :
    (events.foldl ServicesRun.step run).state.isLoading =
      (events.foldl ServicesRun.step run).servicesPending := by
  induction events generalizing run with
  | nil => exact h
  | cons e rest ih => exact ih _ (ServicesRun_step_isLoading run e h)

theorem ServicesRun_step_settled (run : ServicesRun) (e : ServicesEvent)
    (h : run.servicesPending = false) : (run.step e).servicesPending = false := by
  cases e with
  | servicesSettled o => simp [ServicesRun.step, h]
  | headerImageSettled o =>
    simp only [ServicesRun.step]
    split <;> simp [h]

theorem ServicesRun_foldl_settled (events : List ServicesEvent) (run : ServicesRun)
    (h : run.servicesPending = false) :
    (events.foldl ServicesRun.step run).servicesPending = false := by
  induction events generalizing run with
  | nil => exact h
  | cons e rest ih => exact ih _ (ServicesRun_step_settled run e h)


/-! ### Auxiliary facts about the gallery cards and the extractor -/

theorem Gallery_videoCard_of_fields (vt : List (String × JSValue))
    (fields : List (String × JSValue)) :
    Gallery.videoCard vt (obj fields) =
      .ok (if ((obj fields).optProp "thumbnail_url").truthy then
          .plain (.image ((obj fields).optProp "thumbnail_url"))
        else if ((obj fields).optProp "video_file_url").truthy then
          (if (Gallery.cachedThumbnail vt ((obj fields).optProp "id")).truthy then
            .plain (.image (Gallery.cachedThumbnail vt ((obj fields).optProp "id")))
          else .withExtractor ((obj fields).optProp "video_file_url")
            (.placeholder "Loading..."))
        else .plain (.placeholder "Video")) := by
  have hn : JSValue.null.truthy = false := rfl
  cases h1 : ((obj fields).optProp "thumbnail_url").truthy <;>
    cases h2 : ((obj fields).optProp "video_file_url").truthy <;>
    cases h3 : (Gallery.cachedThumbnail vt ((obj fields).optProp "id")).truthy <;>
    simp only [optProp] at h1 h2 h3 <;>
    simp [Gallery.videoCard, getVideoThumbnail, getProp, optProp, JSValue.or, hn, h1, h2, h3,
      bind, Except.bind, pure, Except.pure]

theorem Gallery_card_video_of_fields (vt : List (String × JSValue))
    (fields : List (String × JSValue)) :
    ∃ c, Gallery.card vt (obj fields) = .ok c ∧
      c.video = (if ((obj fields).optProp "media_type").strictEqStr "video" then
        some (if ((obj fields).optProp "thumbnail_url").truthy then
            .plain (.image ((obj fields).optProp "thumbnail_url"))
          else if ((obj fields).optProp "video_file_url").truthy then
            (if (Gallery.cachedThumbnail vt ((obj fields).optProp "id")).truthy then
              .plain (.image (Gallery.cachedThumbnail vt ((obj fields).optProp "id")))
            else .withExtractor ((obj fields).optProp "video_file_url")
              (.placeholder "Loading..."))
          else .plain (.placeholder "Video"))
        else none) := by
  by_cases hm : ((obj fields).optProp "media_type").strictEqStr "video" = true
  · have hm2 : ((fields.lookup "media_type").getD undefined).strictEqStr "video" = true := hm
    simp only [Gallery.card, getProp, hm2, Gallery_videoCard_of_fields, bind, Except.bind, pure,
      Except.pure, if_true, hm]
    exact ⟨_, rfl, rfl⟩
  · have hm2 : ¬ ((fields.lookup "media_type").getD undefined).strictEqStr "video" = true := hm
    simp only [Gallery.card, getProp, hm2, bind, Except.bind, pure, Except.pure, hm]
    exact ⟨_, rfl, rfl⟩

theorem VideoThumbnail_effect_of_done (videoUrl : JSValue) (run : ExtractorRun)
    (h : run.state.error = true ∨ run.state.hasThumbnail = true) :
    VideoThumbnail.effect videoUrl run = { run with listening := false } := by
  rcases h with h | h <;> simp [VideoThumbnail.effect, h]

theorem ExtractorRun_step_of_done (videoUrl : JSValue) (run : ExtractorRun)
    (h : run.state.error = true ∨ run.state.hasThumbnail = true) (hl : run.listening = false)
    (e : ExtractorEvent) : ExtractorRun.step videoUrl run e = run := by
  have heff : VideoThumbnail.effect videoUrl run = run := by
    rw [VideoThumbnail_effect_of_done videoUrl run h]
    cases run
    simp only [ExtractorRun.mk.injEq, true_and, and_true] at hl ⊢
    exact hl.symm
  cases e <;> simp [ExtractorRun.step, hl, heff]

theorem ExtractorRun_foldl_of_done (videoUrl : JSValue) (run : ExtractorRun)
    (h : run.state.error = true ∨ run.state.hasThumbnail = true) (hl : run.listening = false)
    (events : List ExtractorEvent) :
    events.foldl (ExtractorRun.step videoUrl) run = run := by
  induction events with
  | nil => rfl
  | cons e rest ih => rw [List.foldl_cons, ExtractorRun_step_of_done videoUrl run h hl, ih]


theorem Blog_fetchPosts_congr (outcome : GetOutcome) (s t : BlogState)
    (h1 : s.searchTerm = t.searchTerm) (h2 : s.selectedCategory = t.selectedCategory) :
    Blog.fetchPosts outcome s = Blog.fetchPosts outcome t := by
  simp only [Blog.fetchPosts, h1, h2]

theorem Blog_foldl_frame (arrivals : List GetOutcome) (s : BlogState) :
    (arrivals.foldl (fun s outcome => Blog.fetchPosts outcome s) s).searchTerm =
        s.searchTerm ∧
      (arrivals.foldl (fun s outcome => Blog.fetchPosts outcome s) s).selectedCategory =
        s.selectedCategory := by
  induction arrivals generalizing s with
  | nil => exact ⟨rfl, rfl⟩
  | cons o rest ih => exact ih (Blog.fetchPosts o s)

theorem Gallery_fetchGalleryItems_congr (outcome : GetOutcome) (s t : GalleryState)
    (h1 : s.selectedFilter = t.selectedFilter) (h2 : s.mediaTypeFilter = t.mediaTypeFilter)
    (h3 : s.selectedItem = t.selectedItem) (h4 : s.videoThumbnails = t.videoThumbnails) :
    Gallery.fetchGalleryItems outcome s = Gallery.fetchGalleryItems outcome t := by
  simp only [Gallery.fetchGalleryItems, h1, h2, h3, h4]

theorem Gallery_foldl_frame (arrivals : List GetOutcome) (s : GalleryState) :
    (arrivals.foldl (fun s outcome => Gallery.fetchGalleryItems outcome s) s).selectedFilter =
        s.selectedFilter ∧
      (arrivals.foldl (fun s outcome => Gallery.fetchGalleryItems outcome s) s).mediaTypeFilter =
        s.mediaTypeFilter ∧
      (arrivals.foldl (fun s outcome => Gallery.fetchGalleryItems outcome s) s).selectedItem =
        s.selectedItem ∧
      (arrivals.foldl (fun s outcome => Gallery.fetchGalleryItems outcome s) s).videoThumbnails =
        s.videoThumbnails := by
  induction arrivals generalizing s with
  | nil => exact ⟨rfl, rfl, rfl, rfl⟩
  | cons o rest ih => exact ih (Gallery.fetchGalleryItems o s)


/-! ### Auxiliary facts about the Services page -/

theorem Services_mapServices_length (items : List JSValue) (mapped : List JSValue)
    (h : Services.mapServices items = .ok mapped) : mapped.length = items.length := by
  induction items generalizing mapped with
  | nil =>
    simp only [Services.mapServices, pure, Except.pure] at h
    cases h
    rfl
  | cons x rest ih =>
    simp only [Services.mapServices, bind, Except.bind, pure, Except.pure] at h
    split at h
    · cases h
    · split at h
      · cases h
      · rename_i others hothers
        cases h
        simp [ih others hothers]

theorem Services_mapService_defined (x : JSValue) (h1 : x ≠ null) (h2 : x ≠ undefined) :
    ∃ m, Services.mapService x = .ok m := by
  cases x with
  | null => exact absurd rfl h1
  | undefined => exact absurd rfl h2
  | _ => exact ⟨_, rfl⟩

theorem Services_mapServices_defined (items : List JSValue)
    (h : ∀ x ∈ items, x ≠ null ∧ x ≠ undefined) :
    ∃ mapped, Services.mapServices items = .ok mapped := by
  induction items with
  | nil => exact ⟨[], rfl⟩
  | cons x rest ih =>
    obtain ⟨m, hm⟩ := Services_mapService_defined x (h x (List.mem_cons_self _ _)).1
      (h x (List.mem_cons_self _ _)).2
    obtain ⟨ms, hms⟩ := ih (fun y hy => h y (List.mem_cons_of_mem _ hy))
    exact ⟨m :: ms, by simp only [Services.mapServices, hm, hms, bind, Except.bind, pure,
      Except.pure]⟩

theorem Services_servicesOf_of_list (data : JSValue) (x : JSValue) (rest : List JSValue)
    (h : resultsOrData data = .ok (arr (x :: rest))) :
    Services.servicesOf data =
      (match Services.mapServices (x :: rest) with
        | .ok mapped => .ok (arr mapped)
        | .error e => .error e) := by
  simp only [Services.servicesOf, h, bind, Except.bind, pure, Except.pure, truthy, isArray,
    JSValue.length, List.length_cons, Bool.and_self, Nat.zero_lt_succ, decide_True, if_true]
  cases Services.mapServices (x :: rest) <;> rfl

theorem Services_servicesOf_of_other (data : JSValue)
    (h : ∀ x rest, resultsOrData data ≠ .ok (arr (x :: rest))) :
    Services.servicesOf data = .ok getDefaultServices ∨
      ∃ e, Services.servicesOf data = .error e := by
  cases hr : resultsOrData data with
  | error e =>
    right
    exact ⟨e, by simp only [Services.servicesOf, hr, bind, Except.bind]⟩
  | ok v =>
    left
    cases v with
    | arr items =>
      cases items with
      | nil =>
        simp [Services.servicesOf, hr, bind, Except.bind, pure, Except.pure, truthy, isArray,
          JSValue.length]
      | cons x rest => exact absurd hr (h x rest)
    | _ =>
      simp [Services.servicesOf, hr, bind, Except.bind, pure, Except.pure, isArray]

theorem Services_display_cases (outcome : GetOutcome) (st : ServicesState) :
    Services.displayServices (Services.fetchServices outcome st) = getDefaultServices ∨
      ∃ data items mapped, outcome = .resolved data ∧ resultsOrData data = .ok (arr items) ∧
        items ≠ [] ∧ Services.mapServices items = .ok mapped ∧
        mapped.length = items.length ∧
        Services.displayServices (Services.fetchServices outcome st) = arr mapped := by
  cases outcome with
  | rejected code => left; rfl
  | resolved data =>
    by_cases hex : ∃ x rest, resultsOrData data = .ok (arr (x :: rest))
    · obtain ⟨x, rest, hr⟩ := hex
      have hs := Services_servicesOf_of_list data x rest hr
      cases hm : Services.mapServices (x :: rest) with
      | error e =>
        left
        rw [hm] at hs
        simp only [Services.fetchServices, hs]
        rfl
      | ok mapped =>
        right
        rw [hm] at hs
        have hlen := Services_mapServices_length _ _ hm
        refine ⟨data, x :: rest, mapped, rfl, hr, by simp, hm, hlen, ?_⟩
        have hpos : 0 < mapped.length := by rw [hlen]; simp
        simp [Services.fetchServices, hs, Services.displayServices, JSValue.length, hpos]
    · left
      have hno : ∀ x rest, resultsOrData data ≠ .ok (arr (x :: rest)) :=
        fun x rest h => hex ⟨x, rest, h⟩
      rcases Services_servicesOf_of_other data hno with hs | ⟨e, hs⟩ <;>
        simp only [Services.fetchServices, hs] <;> rfl


/-! ### Auxiliary facts about the contact cards -/

theorem Contact_pushGroup_of_record (fields : List (String × JSValue))
    (icon title a b : String) (info : List InfoCard) :
    Contact.pushGroup (obj fields) icon title a b info =
      .ok (info ++
        (if ([(obj fields).optProp a, (obj fields).optProp b].filter truthy).isEmpty then []
          else [{ icon := icon, title := title,
                  details := [(obj fields).optProp a, (obj fields).optProp b].filter truthy }])) := by
  cases ha : ((fields.lookup a).getD undefined).truthy <;>
    cases hb : ((fields.lookup b).getD undefined).truthy <;>
    simp [Contact.pushGroup, orElse, getProp, optProp, ha, hb, bind, Except.bind, pure,
      Except.pure]

theorem getDefaultContactInfo_details_ne_nil (card : InfoCard)
    (h : card ∈ getDefaultContactInfo) : card.details ≠ [] := by
  simp only [getDefaultContactInfo, List.mem_cons, List.mem_singleton, List.not_mem_nil,
    or_false] at h
  rcases h with h | h | h | h <;> subst h <;> simp

theorem Contact_contactInfoOf_of_record (d : JSValue) (fields : List (String × JSValue))
    (hr : Contact.firstRecord d = .ok (obj fields)) :
    Contact.contactInfoOf d = .ok
      (if ([("📍", "Address", "address_line1", "address_line2"),
            ("📞", "Phone", "phone_primary", "phone_secondary"),
            ("✉️", "Email", "email_primary", "email_secondary"),
            ("🕒", "Business Hours", "hours_weekdays", "hours_weekend")].filterMap
          (fun g : String × String × String × String =>
            if ([(obj fields).optProp g.2.2.1, (obj fields).optProp g.2.2.2].filter
                truthy).isEmpty then none
            else some ({ icon := g.1, title := g.2.1,
                         details := [(obj fields).optProp g.2.2.1,
                           (obj fields).optProp g.2.2.2].filter truthy } : InfoCard))).isEmpty
        then getDefaultContactInfo
        else
          [("📍", "Address", "address_line1", "address_line2"),
            ("📞", "Phone", "phone_primary", "phone_secondary"),
            ("✉️", "Email", "email_primary", "email_secondary"),
            ("🕒", "Business Hours", "hours_weekdays", "hours_weekend")].filterMap
          (fun g : String × String × String × String =>
            if ([(obj fields).optProp g.2.2.1, (obj fields).optProp g.2.2.2].filter
                truthy).isEmpty then none
            else some ({ icon := g.1, title := g.2.1,
                         details := [(obj fields).optProp g.2.2.1,
                           (obj fields).optProp g.2.2.2].filter truthy } : InfoCard))) := by
  have ht : (obj fields).truthy = true := rfl
  simp only [Contact.contactInfoOf, hr, bind, Except.bind, ht, if_true,
    Contact_pushGroup_of_record, pure, Except.pure, List.filterMap_cons, List.filterMap_nil]
  generalize [(obj fields).optProp "address_line1",
    (obj fields).optProp "address_line2"].filter truthy = l1
  generalize [(obj fields).optProp "phone_primary",
    (obj fields).optProp "phone_secondary"].filter truthy = l2
  generalize [(obj fields).optProp "email_primary",
    (obj fields).optProp "email_secondary"].filter truthy = l3
  generalize [(obj fields).optProp "hours_weekdays",
    (obj fields).optProp "hours_weekend"].filter truthy = l4
  cases l1 <;> cases l2 <;> cases l3 <;> cases l4 <;> simp

/-! ### The response normaliser -/

/-- C1: for every response whose data is already an array, `getDataArray` returns that same
array unchanged (same elements, same order, same length). -/
theorem getDataArray_array (items : List JSValue) :
    getDataArray ⟨arr items⟩ = .ok (arr items) := by
  rfl

/-- C2: for every response whose data is an object whose `results` property is an array `S`,
whatever other properties it carries, `getDataArray` returns exactly `S`. -/
theorem getDataArray_envelope (fields : List (String × JSValue)) (S : List JSValue)
    (h : fields.lookup "results" = some (arr S)) :
    getDataArray ⟨obj fields⟩ = .ok (arr S) :=
  getDataArray_of_lookup fields S h

/-- Witness of C2: the envelope `{count: 1, results: [{id: 1}], next: null}`. -/
theorem getDataArray_envelope_witness :
    [("count", num 1), ("results", arr [obj [("id", num 1)]]), ("next", null)].lookup "results"
        = some (arr [obj [("id", num 1)]]) ∧
      getDataArray ⟨obj [("count", num 1), ("results", arr [obj [("id", num 1)]]),
        ("next", null)]⟩ = .ok (arr [obj [("id", num 1)]]) :=
  ⟨by simp [List.lookup], getDataArray_envelope _ _ (by simp [List.lookup])⟩

/-- C3: for every response whose data is neither an array nor an object whose `results`
property is an array, `getDataArray` returns the empty array; and for every response at all
`getDataArray` returns normally (no exception) with an array, never `null`. -/
theorem getDataArray_unrecognised :
    (∀ d : JSValue, (∀ items, d ≠ arr items) →
        (∀ fields S, d = obj fields → fields.lookup "results" ≠ some (arr S)) →
        getDataArray ⟨d⟩ = .ok (arr [])) ∧
      (∀ r : Response, ∃ items, getDataArray r = .ok (arr items)) :=
  ⟨getDataArray_other, getDataArray_is_array⟩

/-- Witness of C3: `null`, a number, a string, an object without `results` and an object
whose `results` is a string all give the empty array. -/
theorem getDataArray_unrecognised_witness :
    getDataArray ⟨null⟩ = .ok (arr []) ∧
      getDataArray ⟨num 7⟩ = .ok (arr []) ∧
      getDataArray ⟨str "oops"⟩ = .ok (arr []) ∧
      getDataArray ⟨obj [("count", num 0)]⟩ = .ok (arr []) ∧
      getDataArray ⟨obj [("results", str "none")]⟩ = .ok (arr []) :=
  ⟨getDataArray_unrecognised.1 null (fun _ h => by cases h) (fun _ _ h => by cases h),
   getDataArray_unrecognised.1 (num 7) (fun _ h => by cases h) (fun _ _ h => by cases h),
   getDataArray_unrecognised.1 (str "oops") (fun _ h => by cases h) (fun _ _ h => by cases h),
   getDataArray_unrecognised.1 (obj [("count", num 0)]) (fun _ h => by cases h)
     (fun fields S h => by cases h; simp [List.lookup]),
   getDataArray_unrecognised.1 (obj [("results", str "none")]) (fun _ h => by cases h)
     (fun fields S h => by cases h; simp [List.lookup])⟩

/-- C4: for every sequence `S`, each page extracts the same list from the bare array `S` and
from any envelope object whose `results` property is `S` (an empty `S` included): the
explicit chains of Blog, Gallery, Updates and the Home hero image, and the idiom
`response.data.results || response.data` of About, Contact, Footer, Services and the Home
testimonials, together with the guarded reads that follow it. -/
theorem pages_envelope_agnostic (fields : List (String × JSValue)) (S : List JSValue)
    (h : fields.lookup "results" = some (arr S)) :
    (Blog.postsArray (arr S) = .ok (arr S) ∧ Blog.postsArray (obj fields) = .ok (arr S)) ∧
      (Gallery.itemsArray (arr S) = .ok (arr S) ∧
        Gallery.itemsArray (obj fields) = .ok (arr S)) ∧
      (Updates.updatesArray (arr S) = .ok (arr S) ∧
        Updates.updatesArray (obj fields) = .ok (arr S)) ∧
      (Home.imagesArray (arr S) = .ok (arr S) ∧ Home.imagesArray (obj fields) = .ok (arr S)) ∧
      (resultsOrData (arr S) = .ok (arr S) ∧ resultsOrData (obj fields) = .ok (arr S)) ∧
      Home.heroImageUpdate (arr S) = Home.heroImageUpdate (obj fields) ∧
      Contact.firstRecord (arr S) = Contact.firstRecord (obj fields) ∧
      Footer.contactInfoUpdate (arr S) = Footer.contactInfoUpdate (obj fields) ∧
      Home.testimonialsUpdate (arr S) = Home.testimonialsUpdate (obj fields) := by
  have hr : resultsOrData (arr S) = .ok (arr S) ∧ resultsOrData (obj fields) = .ok (arr S) := by
    constructor <;>
      simp [resultsOrData, orElse, truthy, getProp, h, bind, Except.bind, pure, Except.pure]
  have hi : Home.imagesArray (arr S) = .ok (arr S) ∧
      Home.imagesArray (obj fields) = .ok (arr S) := by
    constructor <;>
      simp [Home.imagesArray, isArray, andCond, truthy, getProp, h, bind, Except.bind, pure,
        Except.pure]
  refine ⟨?_, ?_, ?_, hi, hr, ?_, ?_, ?_, ?_⟩
  · constructor <;>
      simp [Blog.postsArray, isArray, andCond, truthy, getProp, h, bind, Except.bind, pure,
        Except.pure]
  · constructor <;>
      simp [Gallery.itemsArray, isArray, andCond, truthy, getProp, h, bind, Except.bind, pure,
        Except.pure]
  · constructor <;>
      simp [Updates.updatesArray, isArray, andCond, truthy, getProp, h, bind, Except.bind,
        pure, Except.pure]
  · simp only [Home.heroImageUpdate, hi.1, hi.2]
  · simp only [Contact.firstRecord, hr.1, hr.2]
  · simp only [Footer.contactInfoUpdate, hr.1, hr.2]
  · simp only [Home.testimonialsUpdate, hr.1, hr.2]

/-- Witness of C4: the empty sequence against the envelope `{count: 0, results: []}`. -/
theorem pages_envelope_agnostic_witness :
    [("count", num 0), ("results", arr [])].lookup "results" = some (arr []) ∧
      Blog.postsArray (obj [("count", num 0), ("results", arr [])]) = .ok (arr []) ∧
      resultsOrData (obj [("count", num 0), ("results", arr [])]) = .ok (arr []) ∧
      resultsOrData (arr []) = .ok (arr []) :=
  have h := pages_envelope_agnostic [("count", num 0), ("results", arr [])] []
    (by simp [List.lookup])
  ⟨by simp [List.lookup], h.1.2, h.2.2.2.2.1.2, h.2.2.2.2.1.1⟩

/-- C5: for every response, `getDataArray` yields some array, and `getFirstItem` returns its
first element when it is non-empty and `null` when it is empty; so `getFirstItem` returns
`null` for every unrecognised response shape. -/
theorem getFirstItem_spec :
    (∀ r : Response, ∃ items, getDataArray r = .ok (arr items) ∧
        getFirstItem r = .ok (match items with
          | x :: _ => x
          | [] => null)) ∧
      (∀ d : JSValue, (∀ items, d ≠ arr items) →
        (∀ fields S, d = obj fields → fields.lookup "results" ≠ some (arr S)) →
        getFirstItem ⟨d⟩ = .ok null) := by
  constructor
  · intro r
    obtain ⟨items, hi⟩ := getDataArray_is_array r
    refine ⟨items, hi, ?_⟩
    cases items <;> simp [getFirstItem, hi, JSValue.length, first, bind, Except.bind, pure,
      Except.pure]
  · intro d hArr hEnv
    simp [getFirstItem, getDataArray_other d hArr hEnv, JSValue.length, bind, Except.bind,
      pure, Except.pure]

/-- Witness of C5: a string body is an unrecognised shape and gives `null`. -/
theorem getFirstItem_spec_witness : getFirstItem ⟨str "<html>"⟩ = .ok null :=
  getFirstItem_spec.2 (str "<html>") (fun _ h => by cases h) (fun _ _ h => by cases h)

/-! ### The endpoint registry -/

/-- C6 as stated fails: with the environment variable set to the empty string the base URL
is the local default, not the value of the variable. -/
theorem API_BASE_URL_empty_env :
    API_BASE_URL (some "") = "http://localhost:8000" ∧ API_BASE_URL (some "") ≠ "" := by
  decide

/-- C6, amended: for every base URL `B` each of the 17 entries of `API_ENDPOINTS` is `B`
followed by its fixed path; and the base URL is the value of the environment variable when
that is set to a non-empty string, and `http://localhost:8000` when it is unset or set to
the empty string. -/
theorem API_ENDPOINTS_spec :
    (∀ B : String,
      (API_ENDPOINTS B).CONTACT = B ++ "/api/contact/" ∧
      (API_ENDPOINTS B).CONTACT_INFORMATION = B ++ "/api/contact-information/" ∧
      (API_ENDPOINTS B).SERVICES = B ++ "/api/services/" ∧
      (API_ENDPOINTS B).TESTIMONIALS = B ++ "/api/testimonials/" ∧
      (API_ENDPOINTS B).HERO_IMAGES = B ++ "/api/hero-images/" ∧
      (API_ENDPOINTS B).PAGE_IMAGES = B ++ "/api/page-images/" ∧
      (API_ENDPOINTS B).BLOG_POSTS = B ++ "/api/blog-posts/" ∧
      (API_ENDPOINTS B).UPDATES = B ++ "/api/updates/" ∧
      (API_ENDPOINTS B).GALLERY = B ++ "/api/gallery/" ∧
      (API_ENDPOINTS B).ABOUT_PAGE = B ++ "/api/about-page/" ∧
      (API_ENDPOINTS B).ABOUT_STORY = B ++ "/api/about-story/" ∧
      (API_ENDPOINTS B).ABOUT_MISSION = B ++ "/api/about-mission/" ∧
      (API_ENDPOINTS B).ABOUT_VISION = B ++ "/api/about-vision/" ∧
      (API_ENDPOINTS B).ABOUT_VALUES_HEADER = B ++ "/api/about-values-header/" ∧
      (API_ENDPOINTS B).ABOUT_TIMELINE_HEADER = B ++ "/api/about-timeline-header/" ∧
      (API_ENDPOINTS B).ABOUT_VALUES = B ++ "/api/about-values/" ∧
      (API_ENDPOINTS B).ABOUT_TIMELINE_ITEMS = B ++ "/api/about-timeline-items/") ∧
    (∀ v : String, v ≠ "" → API_BASE_URL (some v) = v) ∧
    API_BASE_URL (some "") = "http://localhost:8000" ∧
    API_BASE_URL none = "http://localhost:8000" := by
  refine ⟨fun B => ?_, fun v hv => ?_, by decide, rfl⟩
  · simp [API_ENDPOINTS]
  · simp [API_BASE_URL, truthy, hv]

/-- Witness of C6, amended: the variable set to `https://api.bencynsusu.com`. -/
theorem API_ENDPOINTS_spec_witness :
    "https://api.bencynsusu.com" ≠ "" ∧
      API_BASE_URL (some "https://api.bencynsusu.com") = "https://api.bencynsusu.com" ∧
      (API_ENDPOINTS (API_BASE_URL (some "https://api.bencynsusu.com"))).CONTACT
        = "https://api.bencynsusu.com/api/contact/" :=
  ⟨by decide, API_ENDPOINTS_spec.2.1 _ (by decide), by
    rw [(API_ENDPOINTS_spec.1 _).1, API_ENDPOINTS_spec.2.1 _ (by decide)]; decide⟩

/-! ### The contact form -/

/-- C7: for every string `s`, `validateEmail s` is true if and only if `s` is
`a ++ "@" ++ b ++ "." ++ c` for some `a`, `b`, `c` that are each non-empty and contain no
white-space character and no `@` (dots are allowed in each of them). -/
theorem validateEmail_iff (s : String) :
    validateEmail s = true ↔
      ∃ a b c : String, s = a ++ "@" ++ b ++ "." ++ c ∧
        (a ≠ "" ∧ ∀ ch ∈ a.toList, isWhiteSpace ch = false ∧ ch ≠ '@') ∧
        (b ≠ "" ∧ ∀ ch ∈ b.toList, isWhiteSpace ch = false ∧ ch ≠ '@') ∧
        (c ≠ "" ∧ ∀ ch ∈ c.toList, isWhiteSpace ch = false ∧ ch ≠ '@') := by
  have hne : ∀ t : String, t ≠ "" ↔ t.data ≠ [] := fun t => by
    rw [Ne, String.ext_iff]
  rw [validateEmail, Regex.test, emailRegex_search_iff]
  constructor
  · rintro ⟨a, b, c, hs, ⟨ha, hap⟩, ⟨hb, hbp⟩, ⟨hc, hcp⟩⟩
    refine ⟨⟨a⟩, ⟨b⟩, ⟨c⟩, ?_, ⟨(hne _).2 ha, hap⟩, ⟨(hne _).2 hb, hbp⟩, ⟨(hne _).2 hc, hcp⟩⟩
    apply String.ext
    simpa [String.data_append] using hs
  · rintro ⟨a, b, c, rfl, ⟨ha, hap⟩, ⟨hb, hbp⟩, ⟨hc, hcp⟩⟩
    refine ⟨a.data, b.data, c.data, ?_, ⟨(hne _).1 ha, hap⟩, ⟨(hne _).1 hb, hbp⟩,
      ⟨(hne _).1 hc, hcp⟩⟩
    simp [String.toList, String.data_append]

/-- C8: `validateForm` returns true exactly when name, subject and message are non-blank
after trimming and the email is non-blank and matches the email pattern; the error object it
hands to `setFormErrors` holds, in the order name, email, subject, message, an entry for
exactly the required fields that fail, the email entry being `Email is required` for a blank
email and `Please enter a valid email address` for a non-blank one that does not match; the
phone field has no influence. -/
theorem validateForm_spec (fd : FormData) :
    ((validateForm fd).2 = true ↔
        jsTrim fd.name ≠ "" ∧ jsTrim fd.subject ≠ "" ∧ jsTrim fd.message ≠ "" ∧
          jsTrim fd.email ≠ "" ∧ validateEmail fd.email = true) ∧
      (validateForm fd).1 =
        (if jsTrim fd.name = "" then [("name", "Name is required")] else []) ++
        (if jsTrim fd.email = "" then [("email", "Email is required")]
          else if validateEmail fd.email = false then
            [("email", "Please enter a valid email address")]
          else []) ++
        (if jsTrim fd.subject = "" then [("subject", "Subject is required")] else []) ++
        (if jsTrim fd.message = "" then [("message", "Message is required")] else []) ∧
      (∀ phone : String, validateForm { fd with phone := phone } = validateForm fd) := by
  refine ⟨?_, ?_, fun phone => rfl⟩
  · by_cases h1 : jsTrim fd.name = "" <;> by_cases h2 : jsTrim fd.email = "" <;>
      by_cases h3 : jsTrim fd.subject = "" <;> by_cases h4 : jsTrim fd.message = "" <;>
      cases h5 : validateEmail fd.email <;>
      simp [validateForm, Id.run, truthy, ErrorMap.set, h1, h2, h3, h4, h5]
  · by_cases h1 : jsTrim fd.name = "" <;> by_cases h2 : jsTrim fd.email = "" <;>
      by_cases h3 : jsTrim fd.subject = "" <;> by_cases h4 : jsTrim fd.message = "" <;>
      cases h5 : validateEmail fd.email <;>
      simp [validateForm, Id.run, truthy, ErrorMap.set, h1, h2, h3, h4, h5]

/-- C9: for every form state that fails validation, `handleSubmit` performs exactly three
steps: `preventDefault`, `setFormErrors` with the non-empty error object of `validateForm`,
and `setSubmitStatus` with an error status. Hence the field errors are recorded, the submit
status is an error, no POST is issued, `setIsSubmitting` and `setFormData` are never called,
and `isSubmitting` and the form data are what they were. -/
theorem handleSubmit_invalid (endpoints : ApiEndpoints)
    (net : String → FormData → PostOutcome) (st : ContactState)
    (h : (validateForm st.formData).2 = false) :
    handleSubmit endpoints net st =
        [.preventDefault, .setFormErrors (validateForm st.formData).1,
          .setSubmitStatus
            (some ⟨"error", "Please fix the errors in the form before submitting."⟩)] ∧
      (validateForm st.formData).1 ≠ [] ∧
      (settle st (handleSubmit endpoints net st)).formErrors = (validateForm st.formData).1 ∧
      (settle st (handleSubmit endpoints net st)).submitStatus =
        some ⟨"error", "Please fix the errors in the form before submitting."⟩ ∧
      (∀ url body, Effect.post url body ∉ handleSubmit endpoints net st) ∧
      (∀ value, Effect.setIsSubmitting value ∉ handleSubmit endpoints net st) ∧
      (∀ data, Effect.setFormData data ∉ handleSubmit endpoints net st) ∧
      (settle st (handleSubmit endpoints net st)).isSubmitting = st.isSubmitting ∧
      (settle st (handleSubmit endpoints net st)).formData = st.formData := by
  have hne : (validateForm st.formData).1 ≠ [] := by
    intro hnil
    rw [validateForm_snd, hnil] at h
    simp at h
  rw [handleSubmit_of_invalid endpoints net st h]
  refine ⟨rfl, hne, rfl, rfl, ?_, ?_, ?_, rfl, rfl⟩ <;> simp

/-- Witness of C9: the form with email `bad-email` and the other required fields filled
records the error `Please enter a valid email address` on the email field and nothing
else. -/
theorem handleSubmit_invalid_witness :
    (validateForm ⟨"Ama", "bad-email", "", "Hello", "I would like to join."⟩).2 = false ∧
      (settle ⟨⟨"Ama", "bad-email", "", "Hello", "I would like to join."⟩, [], false, none⟩
        (handleSubmit (API_ENDPOINTS "http://localhost:8000") (fun _ _ => .resolved)
          ⟨⟨"Ama", "bad-email", "", "Hello", "I would like to join."⟩, [], false,
            none⟩)).formErrors = [("email", "Please enter a valid email address")] ∧
      (∀ url body, Effect.post url body ∉
        handleSubmit (API_ENDPOINTS "http://localhost:8000") (fun _ _ => .resolved)
          ⟨⟨"Ama", "bad-email", "", "Hello", "I would like to join."⟩, [], false, none⟩) :=
  have h := handleSubmit_invalid (API_ENDPOINTS "http://localhost:8000")
    (fun _ _ => .resolved)
    ⟨⟨"Ama", "bad-email", "", "Hello", "I would like to join."⟩, [], false, none⟩ (by decide)
  ⟨by decide, h.2.2.1.trans (by decide), h.2.2.2.2.1⟩

/-- C10: for every form state that passes validation, if the POST to the contact endpoint
succeeds then `handleSubmit` issues that one POST with the form data as body, and once it
has settled the submit status is the success message, all five form fields are the empty
string, the field errors are empty and `isSubmitting` is false. -/
theorem handleSubmit_success (endpoints : ApiEndpoints)
    (net : String → FormData → PostOutcome) (st : ContactState)
    (hv : (validateForm st.formData).2 = true)
    (hp : net endpoints.CONTACT st.formData = .resolved) :
    settle st (handleSubmit endpoints net st) =
        { formData := ⟨"", "", "", "", ""⟩
          formErrors := []
          isSubmitting := false
          submitStatus :=
            some ⟨"success", "Thank you! Your message has been sent successfully."⟩ } ∧
      Effect.post endpoints.CONTACT st.formData ∈ handleSubmit endpoints net st := by
  rw [handleSubmit_of_resolved endpoints net st hv hp]
  exact ⟨rfl, by simp⟩

/-- Witness of C10: a valid form, a network that fulfils every POST, and stale field errors
and status left over from an earlier attempt. -/
theorem handleSubmit_success_witness :
    (validateForm ⟨"Ama", "ama@example.com", "", "Hello", "I would like to join."⟩).2 = true ∧
      settle ⟨⟨"Ama", "ama@example.com", "", "Hello", "I would like to join."⟩,
          [("email", "")], false, some ⟨"error", "old"⟩⟩
        (handleSubmit (API_ENDPOINTS "http://localhost:8000") (fun _ _ => .resolved)
          ⟨⟨"Ama", "ama@example.com", "", "Hello", "I would like to join."⟩,
            [("email", "")], false, some ⟨"error", "old"⟩⟩) =
        { formData := ⟨"", "", "", "", ""⟩
          formErrors := []
          isSubmitting := false
          submitStatus :=
            some ⟨"success", "Thank you! Your message has been sent successfully."⟩ } :=
  ⟨by decide,
    (handleSubmit_success (API_ENDPOINTS "http://localhost:8000") (fun _ _ => .resolved)
      ⟨⟨"Ama", "ama@example.com", "", "Hello", "I would like to join."⟩,
        [("email", "")], false, some ⟨"error", "old"⟩⟩ (by decide) rfl).1⟩

/-- C11: for every valid form whose POST is rejected, the submit status after `handleSubmit`
has settled is an error whose message is a function of the test `code === "ECONNABORTED"`
alone: the timeout message for that code, the generic message for every other code and for
an absent code; the timeout message is shown exactly for timeouts, and the two messages
differ. -/
theorem handleSubmit_failure_message (endpoints : ApiEndpoints)
    (net : String → FormData → PostOutcome) (st : ContactState) (code : Option String)
    (hv : (validateForm st.formData).2 = true)
    (hp : net endpoints.CONTACT st.formData = .rejected code) :
    (settle st (handleSubmit endpoints net st)).submitStatus =
        some ⟨"error",
          if code = some "ECONNABORTED" then
            "Request timed out. Please check your connection and try again."
          else
            "Sorry, there was an error sending your message. Please try again or contact us directly."⟩ ∧
      ((settle st (handleSubmit endpoints net st)).submitStatus =
          some ⟨"error", "Request timed out. Please check your connection and try again."⟩ ↔
        code = some "ECONNABORTED") ∧
      "Request timed out. Please check your connection and try again." ≠
        "Sorry, there was an error sending your message. Please try again or contact us directly." := by
  rw [handleSubmit_of_rejected endpoints net st code hv hp]
  refine ⟨rfl, ?_, by decide⟩
  by_cases hc : code = some "ECONNABORTED"
  · simp [settle, Effect.apply, hc]
  · simp only [settle, List.foldl, Effect.apply, hc, if_false, iff_false]
    intro h
    have h2 := congrArg (fun o => o.map SubmitStatus.message) h
    revert h2
    simp only [Option.map]
    decide

/-- Witness of C11: a valid form against a network that times out, and against one that
answers with a server error. -/
theorem handleSubmit_failure_message_witness :
    (settle ⟨⟨"Ama", "ama@example.com", "", "Hello", "I would like to join."⟩, [], false, none⟩
        (handleSubmit (API_ENDPOINTS "http://localhost:8000")
          (fun _ _ => .rejected (some "ECONNABORTED"))
          ⟨⟨"Ama", "ama@example.com", "", "Hello", "I would like to join."⟩, [], false,
            none⟩)).submitStatus =
        some ⟨"error", "Request timed out. Please check your connection and try again."⟩ ∧
      (settle ⟨⟨"Ama", "ama@example.com", "", "Hello", "I would like to join."⟩, [], false, none⟩
        (handleSubmit (API_ENDPOINTS "http://localhost:8000")
          (fun _ _ => .rejected (some "ERR_BAD_RESPONSE"))
          ⟨⟨"Ama", "ama@example.com", "", "Hello", "I would like to join."⟩, [], false,
            none⟩)).submitStatus =
        some ⟨"error",
          "Sorry, there was an error sending your message. Please try again or contact us directly."⟩ :=
  ⟨(handleSubmit_failure_message (API_ENDPOINTS "http://localhost:8000")
      (fun _ _ => .rejected (some "ECONNABORTED"))
      ⟨⟨"Ama", "ama@example.com", "", "Hello", "I would like to join."⟩, [], false, none⟩
      (some "ECONNABORTED") (by decide) rfl).1,
   (handleSubmit_failure_message (API_ENDPOINTS "http://localhost:8000")
      (fun _ _ => .rejected (some "ERR_BAD_RESPONSE"))
      ⟨⟨"Ama", "ama@example.com", "", "Hello", "I would like to join."⟩, [], false, none⟩
      (some "ERR_BAD_RESPONSE") (by decide) rfl).1⟩

/-! ### Contact information -/

/-- C12: whenever the contact-information request is rejected, whatever the error code, the
Contact page ends with the loading flag cleared and shows exactly the built-in default list
(address `Your Business Address` / `City, Country`, phone `+233 XX XXX XXXX`, the default
emails and hours); and the Footer, whose state stays `null`, shows the address
`Your Business Address, City, Country`, the phone `+233 XX XXX XXXX` and the email
`info@bencynsusu.com`. -/
theorem contact_information_failure_defaults (code : Option String) (st : ContactInfoState) :
    Contact.infoView (fetchContactInformation (.rejected code) st) =
        .cards
          [ { icon := "📍", title := "Address",
              details := [str "Your Business Address", str "City, Country"] },
            { icon := "📞", title := "Phone",
              details := [str "+233 XX XXX XXXX", str "+233 XX XXX XXXX"] },
            { icon := "✉️", title := "Email",
              details := [str "info@bencynsusu.com", str "support@bencynsusu.com"] },
            { icon := "🕒", title := "Business Hours",
              details := [str "Monday - Friday: 8:00 AM - 6:00 PM",
                str "Saturday: 9:00 AM - 2:00 PM"] } ] ∧
      Footer.fetchContactInfo (.rejected code) null = null ∧
      Footer.address (Footer.fetchContactInfo (.rejected code) null) =
        str "Your Business Address, City, Country" ∧
      Footer.phone (Footer.fetchContactInfo (.rejected code) null) = str "+233 XX XXX XXXX" ∧
      Footer.email (Footer.fetchContactInfo (.rejected code) null) =
        str "info@bencynsusu.com" :=
  ⟨rfl, rfl, rfl, rfl, rfl⟩


/-! ### The About page -/

/-- C13 as stated fails: all seven section requests are fulfilled, but the story response has
the body `null`, the read `storyRes.data.results` throws, the `catch` block runs and the
legacy endpoint is requested. -/
theorem About_legacy_requested_after_success :
    (∀ x ∈ (SectionOutcomes.mk (.resolved null) (.resolved (arr [])) (.resolved (arr []))
        (.resolved (arr [])) (.resolved (arr [])) (.resolved (arr []))
        (.resolved (arr []))).toList, ∃ d, x = GetOutcome.resolved d) ∧
      About.fetchAboutPage (API_ENDPOINTS "http://localhost:8000")
          ⟨.resolved null, .resolved (arr []), .resolved (arr []), .resolved (arr []),
            .resolved (arr []), .resolved (arr []), .resolved (arr [])⟩ (.rejected none) =
        About.sectionRequests (API_ENDPOINTS "http://localhost:8000") ++
          [.get "http://localhost:8000/api/about-page/", .setIsLoading false] := by
  constructor
  · intro x hx
    simp only [SectionOutcomes.toList, List.mem_cons, List.mem_singleton, List.not_mem_nil,
      or_false] at hx
    rcases hx with rfl | rfl | rfl | rfl | rfl | rfl | rfl <;> exact ⟨_, rfl⟩
  · rfl

/-- C13, amended: when one of the seven section requests is rejected, or all are fulfilled
but assembling their responses throws (a response body that is `null`, a first record that
is `null`), the legacy endpoint is requested exactly once, after the seven section requests;
if that request is fulfilled with a non-empty list, its first record becomes the view model;
if it is rejected or yields no record, no setter of the view model is called, the view model
stays `null` and every rendered field takes its built-in default. When all seven section
requests are fulfilled and the assembly succeeds, the assembled object becomes the view
model and the legacy endpoint is not requested. -/
theorem About_fallback_chain (endpoints : ApiEndpoints) (sections : SectionOutcomes)
    (legacy : GetOutcome) :
    (((∃ x ∈ sections.toList, ∃ code, x = GetOutcome.rejected code) ∨
        (∃ res e, sections.all = some res ∧ About.assemble res = .error e)) →
      About.fetchAboutPage endpoints sections legacy =
        About.sectionRequests endpoints ++
          ([.get endpoints.ABOUT_PAGE] ++ About.legacyEffects legacy) ++
          [.setIsLoading false]) ∧
    (∀ res v, sections.all = some res → About.assemble res = .ok v →
      About.fetchAboutPage endpoints sections legacy =
        About.sectionRequests endpoints ++ [.setAboutData v] ++ [.setIsLoading false]) ∧
    (∀ d r rest, legacy = .resolved d → resultsOrData d = .ok (arr (r :: rest)) →
      About.legacyEffects legacy = [.setAboutData r]) ∧
    ((∀ d r rest, legacy = .resolved d → resultsOrData d ≠ .ok (arr (r :: rest))) →
      About.legacyEffects legacy = []) ∧
    (∀ base url, AboutEffect.get url ∈ About.sectionRequests (API_ENDPOINTS base) →
      url ≠ (API_ENDPOINTS base).ABOUT_PAGE) ∧
    About.render null =
      { storyTitle := str "Our Story"
        storyContent := none
        valuesTitle := str "Our Core Values"
        valuesSubtitle := str "The principles that guide everything we do at B.C BENCYN SUSU."
        values := About.defaultValues
        timelineTitle := str "Our Journey"
        timelineSubtitle := str "Key milestones in our growth and development."
        timeline := About.defaultTimeline
        missionTitle := str "Our Mission"
        missionContent := str "To provide accessible, reliable, and transparent financial services that empower individuals and communities to achieve their financial goals and build lasting wealth through trusted susu collection practices."
        visionTitle := str "Our Vision"
        visionContent := str "To become the leading susu financial institution, recognized for our integrity, innovation, and commitment to transforming lives through accessible financial services across the region." } := by
  refine ⟨?_, ?_, ?_, ?_, ?_, rfl⟩
  · rintro (h | ⟨res, e, h, ha⟩)
    · exact About_fetchAboutPage_of_rejected endpoints sections legacy
        ((SectionOutcomes_all_eq_none_iff sections).2 h)
    · exact About_fetchAboutPage_of_throw endpoints sections legacy res e h ha
  · intro res v h ha
    exact About_fetchAboutPage_of_ok endpoints sections legacy res v h ha
  · rintro d r rest rfl hr
    exact About_legacyEffects_of_record d r rest hr
  · intro h
    rcases About_legacyEffects_cases legacy with h0 | ⟨d, r, rest, hl, hr, -⟩
    · exact h0
    · exact absurd hr (h d r rest hl)
  · intro base url hmem heq
    subst heq
    simp only [About.sectionRequests, API_ENDPOINTS, List.mem_cons, AboutEffect.get.injEq,
      List.mem_singleton, List.not_mem_nil, or_false] at hmem
    have hcancel : ∀ a b : String, base ++ a = base ++ b → a = b := by
      intro a b hab
      have := congrArg String.data hab
      simp only [String.data_append, List.append_cancel_left_eq] at this
      exact String.ext this
    rcases hmem with h | h | h | h | h | h | h <;>
      exact absurd (hcancel _ _ h) (by decide)


/-- Witness of C13, amended: the mission request is rejected and the legacy endpoint answers
with one record, which becomes the view model after a single legacy request. -/
theorem About_fallback_chain_witness :
    (∃ x ∈ (SectionOutcomes.mk (.resolved (arr [])) (.rejected (some "ERR_NETWORK"))
        (.resolved (arr [])) (.resolved (arr [])) (.resolved (arr [])) (.resolved (arr []))
        (.resolved (arr []))).toList, ∃ code, x = GetOutcome.rejected code) ∧
      About.fetchAboutPage (API_ENDPOINTS "http://localhost:8000")
          ⟨.resolved (arr []), .rejected (some "ERR_NETWORK"), .resolved (arr []),
            .resolved (arr []), .resolved (arr []), .resolved (arr []), .resolved (arr [])⟩
          (.resolved (obj [("results", arr [obj [("story_title", str "Legacy Title")]])])) =
        About.sectionRequests (API_ENDPOINTS "http://localhost:8000") ++
          [.get "http://localhost:8000/api/about-page/",
            .setAboutData (obj [("story_title", str "Legacy Title")]),
            .setIsLoading false] :=
  have hex : ∃ x ∈ (SectionOutcomes.mk (.resolved (arr [])) (.rejected (some "ERR_NETWORK"))
      (.resolved (arr [])) (.resolved (arr [])) (.resolved (arr [])) (.resolved (arr []))
      (.resolved (arr []))).toList, ∃ code, x = GetOutcome.rejected code :=
    ⟨.rejected (some "ERR_NETWORK"), by simp [SectionOutcomes.toList], _, rfl⟩
  ⟨hex, ((About_fallback_chain (API_ENDPOINTS "http://localhost:8000") _
    (.resolved (obj [("results", arr [obj [("story_title", str "Legacy Title")]])]))).1
      (Or.inl hex)).trans rfl⟩

/-- C14 as stated fails: with every section request rejected and the legacy response
`{results: [{title: "Legacy Title"}]}`, the view model is the record `{title: ...}`, which has
no `story_title`, and the rendered story heading is the default `Our Story`. -/
theorem About_legacy_title_not_rendered :
    (AboutState.initial.settle
        (About.fetchAboutPage (API_ENDPOINTS "http://localhost:8000")
          ⟨.rejected none, .rejected none, .rejected none, .rejected none, .rejected none,
            .rejected none, .rejected none⟩
          (.resolved (obj [("results", arr [obj [("title", str "Legacy Title")]])])))).aboutData
        = obj [("title", str "Legacy Title")] ∧
      (About.render (AboutState.initial.settle
        (About.fetchAboutPage (API_ENDPOINTS "http://localhost:8000")
          ⟨.rejected none, .rejected none, .rejected none, .rejected none, .rejected none,
            .rejected none, .rejected none⟩
          (.resolved (obj [("results", arr [obj [("title", str "Legacy Title")]])])))).aboutData
        ).storyTitle = str "Our Story" ∧
      (About.render (AboutState.initial.settle
        (About.fetchAboutPage (API_ENDPOINTS "http://localhost:8000")
          ⟨.rejected none, .rejected none, .rejected none, .rejected none, .rejected none,
            .rejected none, .rejected none⟩
          (.resolved (obj [("results", arr [obj [("title", str "Legacy Title")]])])))).aboutData
        ).storyTitle ≠ str "Legacy Title" := by
  refine ⟨rfl, rfl, ?_⟩
  intro h
  have h2 : str "Our Story" = str "Legacy Title" := h
  simp at h2

/-- C14, amended: when every section request is rejected and the legacy endpoint returns
`{results: [{story_title: T}]}` with a non-empty `T`, the view model is that record and the
rendered story heading is `T`. -/
theorem About_legacy_story_title (endpoints : ApiEndpoints) (sections : SectionOutcomes)
    (st : AboutState) (T : String)
    (hfail : ∀ x ∈ sections.toList, ∃ code, x = GetOutcome.rejected code) (hT : T ≠ "") :
    (st.settle (About.fetchAboutPage endpoints sections
        (.resolved (obj [("results", arr [obj [("story_title", str T)]])])))).aboutData =
        obj [("story_title", str T)] ∧
      (About.render (st.settle (About.fetchAboutPage endpoints sections
        (.resolved (obj [("results", arr [obj [("story_title", str T)]])])))).aboutData
        ).storyTitle = str T := by
  have hnone : sections.all = none := by
    rw [SectionOutcomes_all_eq_none_iff]
    obtain ⟨code, hc⟩ := hfail sections.story (by simp [SectionOutcomes.toList])
    exact ⟨sections.story, by simp [SectionOutcomes.toList], code, hc⟩
  have hdata : (st.settle (About.fetchAboutPage endpoints sections
      (.resolved (obj [("results", arr [obj [("story_title", str T)]])])))).aboutData =
      obj [("story_title", str T)] := by
    rw [About_fetchAboutPage_of_rejected endpoints sections _ hnone, List.append_assoc,
      About_settle_sectionRequests]
    rfl
  refine ⟨hdata, ?_⟩
  rw [hdata]
  simp [About.render, optProp, JSValue.or, truthy, hT]

/-- Witness of C14, amended: the record `{story_title: "Legacy Title"}`. -/
theorem About_legacy_story_title_witness :
    (About.render (AboutState.initial.settle
      (About.fetchAboutPage (API_ENDPOINTS "http://localhost:8000")
        ⟨.rejected none, .rejected (some "ECONNABORTED"), .rejected none, .rejected none,
          .rejected none, .rejected none, .rejected none⟩
        (.resolved (obj [("results", arr [obj [("story_title", str "Legacy Title")]])])))
      ).aboutData).storyTitle = str "Legacy Title" :=
  (About_legacy_story_title (API_ENDPOINTS "http://localhost:8000")
    ⟨.rejected none, .rejected (some "ECONNABORTED"), .rejected none, .rejected none,
      .rejected none, .rejected none, .rejected none⟩ AboutState.initial "Legacy Title"
    (by
      intro x hx
      simp only [SectionOutcomes.toList, List.mem_cons, List.mem_singleton, List.not_mem_nil,
        or_false] at hx
      rcases hx with rfl | rfl | rfl | rfl | rfl | rfl | rfl <;> exact ⟨_, rfl⟩)
    (by decide)).2


/-- C15 as stated fails: the story request is fulfilled with `[{title: "T"}]`, the mission
request is rejected and so is the legacy request; `Promise.all` rejects, the story response
is discarded and the view model stays `null`, so it has no story title. -/
theorem About_story_blocked_by_other_failure :
    (AboutState.initial.settle
        (About.fetchAboutPage (API_ENDPOINTS "http://localhost:8000")
          ⟨.resolved (arr [obj [("title", str "T")]]), .rejected none, .resolved (arr []),
            .resolved (arr []), .resolved (arr []), .resolved (arr []), .resolved (arr [])⟩
          (.rejected none))).aboutData = null ∧
      (AboutState.initial.settle
        (About.fetchAboutPage (API_ENDPOINTS "http://localhost:8000")
          ⟨.resolved (arr [obj [("title", str "T")]]), .rejected none, .resolved (arr []),
            .resolved (arr []), .resolved (arr []), .resolved (arr []), .resolved (arr [])⟩
          (.rejected none))).aboutData.optProp "story_title" = undefined ∧
      (About.render (AboutState.initial.settle
        (About.fetchAboutPage (API_ENDPOINTS "http://localhost:8000")
          ⟨.resolved (arr [obj [("title", str "T")]]), .rejected none, .resolved (arr []),
            .resolved (arr []), .resolved (arr []), .resolved (arr []), .resolved (arr [])⟩
          (.rejected none))).aboutData).storyTitle = str "Our Story" :=
  ⟨rfl, rfl, rfl⟩

/-- C15, amended: the seven section requests are all-or-nothing. When all seven are
fulfilled and the assembly succeeds, with a story list whose first record has the title `T`,
the assembled object becomes the view model and its story title is `T`. When one section
request is rejected, no section response is used: the view model is what the legacy steps
alone leave behind (the first legacy record, or the previous value). -/
theorem About_sections_all_or_nothing (endpoints : ApiEndpoints) (sections : SectionOutcomes)
    (legacy : GetOutcome) (st : AboutState) :
    (∀ res v r rest T, sections.all = some res → About.assemble res = .ok v →
        resultsOrData res.story = .ok (arr (r :: rest)) → r.getProp "title" = .ok T →
        (st.settle (About.fetchAboutPage endpoints sections legacy)).aboutData = v ∧
          v.optProp "story_title" = T) ∧
      ((∃ x ∈ sections.toList, ∃ code, x = GetOutcome.rejected code) →
        (st.settle (About.fetchAboutPage endpoints sections legacy)).aboutData =
          (st.settle (About.legacyEffects legacy)).aboutData) := by
  constructor
  · intro res v r rest T hall ha hs ht
    refine ⟨?_, About_assemble_story_title res v r T rest ha hs ht⟩
    rw [About_fetchAboutPage_of_ok endpoints sections legacy res v hall ha, List.append_assoc,
      About_settle_sectionRequests]
    rfl
  · intro hfail
    rw [About_fetchAboutPage_of_rejected endpoints sections legacy
      ((SectionOutcomes_all_eq_none_iff sections).2 hfail), List.append_assoc,
      About_settle_sectionRequests]
    simp [AboutState.settle, AboutEffect.apply, List.foldl_append]

/-- Witness of C15, amended: all seven requests fulfilled, the story list starting with
`{title: "T"}`; and the same story response next to a rejected mission request. -/
theorem About_sections_all_or_nothing_witness :
    (AboutState.initial.settle
        (About.fetchAboutPage (API_ENDPOINTS "http://localhost:8000")
          ⟨.resolved (arr [obj [("title", str "T")]]), .resolved (arr []), .resolved (arr []),
            .resolved (arr []), .resolved (arr []), .resolved (arr []), .resolved (arr [])⟩
          (.rejected none))).aboutData.optProp "story_title" = str "T" ∧
      (AboutState.initial.settle
        (About.fetchAboutPage (API_ENDPOINTS "http://localhost:8000")
          ⟨.resolved (arr [obj [("title", str "T")]]), .rejected none, .resolved (arr []),
            .resolved (arr []), .resolved (arr []), .resolved (arr []), .resolved (arr [])⟩
          (.rejected none))).aboutData = null :=
  ⟨by
    have h := (About_sections_all_or_nothing (API_ENDPOINTS "http://localhost:8000")
      ⟨.resolved (arr [obj [("title", str "T")]]), .resolved (arr []), .resolved (arr []),
        .resolved (arr []), .resolved (arr []), .resolved (arr []), .resolved (arr [])⟩
      (.rejected none) AboutState.initial).1 _ _ (obj [("title", str "T")]) [] (str "T")
      rfl rfl rfl rfl
    rw [h.1]
    exact h.2,
   ((About_sections_all_or_nothing (API_ENDPOINTS "http://localhost:8000")
      ⟨.resolved (arr [obj [("title", str "T")]]), .rejected none, .resolved (arr []),
        .resolved (arr []), .resolved (arr []), .resolved (arr []), .resolved (arr [])⟩
      (.rejected none) AboutState.initial).2
      ⟨.rejected none, by simp [SectionOutcomes.toList], _, rfl⟩).trans rfl⟩

/-- C16, the code at the failing input: all seven section requests are fulfilled with an
empty list. The assembled view model carries `values: []` and `timeline_items: []`; an empty
array is truthy, so `aboutData?.values || defaultValues` is the empty list and both grids
are rendered empty instead of with the four built-in entries. -/
theorem About_empty_lists_render_empty :
    (AboutState.initial.settle
        (About.fetchAboutPage (API_ENDPOINTS "http://localhost:8000")
          ⟨.resolved (arr []), .resolved (arr []), .resolved (arr []), .resolved (arr []),
            .resolved (arr []), .resolved (arr []), .resolved (arr [])⟩
          (.rejected none))).aboutData.optProp "values" = arr [] ∧
      (About.render (AboutState.initial.settle
        (About.fetchAboutPage (API_ENDPOINTS "http://localhost:8000")
          ⟨.resolved (arr []), .resolved (arr []), .resolved (arr []), .resolved (arr []),
            .resolved (arr []), .resolved (arr []), .resolved (arr [])⟩
          (.rejected none))).aboutData).values = arr [] ∧
      (About.render (AboutState.initial.settle
        (About.fetchAboutPage (API_ENDPOINTS "http://localhost:8000")
          ⟨.resolved (arr []), .resolved (arr []), .resolved (arr []), .resolved (arr []),
            .resolved (arr []), .resolved (arr []), .resolved (arr [])⟩
          (.rejected none))).aboutData).timeline = arr [] ∧
      About.defaultValues.length = 4 ∧ About.defaultTimeline.length = 4 :=
  ⟨rfl, rfl, rfl, rfl, rfl⟩


/-! ### The list pages -/

/-- C17 as stated fails at its own scenario: for the response `{results: [{id: 1, title:
"A"}]}` the `posts` state is the one record, but the record has no `created_date`, so the
date line of its card is `format(new Date(undefined), ...)`: the date is invalid in every
engine, `format` throws a `RangeError`, and the render of the grid throws where the claim
has one card titled `A`. The same happens on the Updates page. -/
theorem Blog_scenario_card_throws :
    getDataArray ⟨obj [("results", arr [obj [("id", num 1), ("title", str "A")]])]⟩ =
        .ok (arr [obj [("id", num 1), ("title", str "A")]]) ∧
      (Blog.fetchPosts
          (.resolved (obj [("results", arr [obj [("id", num 1), ("title", str "A")]])]))
          BlogState.initial).posts = arr [obj [("id", num 1), ("title", str "A")]] ∧
      (∀ env : DateEnv,
        newDate env ((obj [("id", num 1), ("title", str "A")]).optProp "created_date") =
          none) ∧
      (∀ env : DateEnv,
        Blog.view env (Blog.fetchPosts
          (.resolved (obj [("results", arr [obj [("id", num 1), ("title", str "A")]])]))
          BlogState.initial) = .error .rangeError) ∧
      (∀ env : DateEnv,
        Updates.view env (Updates.fetchUpdates
          (.resolved (obj [("results", arr [obj [("id", num 1), ("title", str "A")]])]))
          UpdatesState.initial) = .error .rangeError) :=
  ⟨rfl, rfl, fun _ => rfl, fun _ => rfl, fun _ => rfl⟩

/-- C17, amended: on the Blog page, for every fulfilled request the `posts` state after
`fetchPosts` has settled is exactly the list that `getDataArray` extracts from the response
(same records, same order) and loading has ended. When that list is a non-empty list of
records, the grid is rendered exactly when every record has a `created_date` of which
`new Date` makes a valid date: then there is one card per record, in order, each card
carrying the title of its record and the formatted date, so `{results: [{id: 1, title: "A",
created_date: 1705314600000}]}` gives exactly one card titled `A`; otherwise the render
throws. For every rejected request the `posts` state is the empty list and the empty-state
message is shown. The same holds for the Updates list, and for the Gallery items (whose
cards are split over the featured and the regular grid) with the date condition read for
`event_date` and asked only of a truthy `event_date`. -/
theorem list_pages_normalised (env : DateEnv) :
    ((∀ (data : JSValue) (st : BlogState), ∃ items,
        getDataArray ⟨data⟩ = .ok (arr items) ∧
        Blog.fetchPosts (.resolved data) st =
          { st with posts := arr items, isLoading := false } ∧
        (items ≠ [] → (∀ p ∈ items, ∃ fields, p = obj fields) →
          ((∀ p ∈ items, ∃ t, newDate env (p.optProp "created_date") = some t) →
            ∃ cards,
              Blog.view env (Blog.fetchPosts (.resolved data) st) = .ok (.grid cards) ∧
              cards.length = items.length ∧
              List.Forall₂ (fun p c => c.title = p.optProp "title" ∧
                DateFns.format env (newDate env (p.optProp "created_date")) "MMM d, yyyy" =
                  .ok c.createdDate) items cards) ∧
          (∀ view, Blog.view env (Blog.fetchPosts (.resolved data) st) = .ok view →
            ∀ p ∈ items, ∃ t, newDate env (p.optProp "created_date") = some t))) ∧
      (∀ (code : Option String) (st : BlogState),
        (Blog.fetchPosts (.rejected code) st).posts = arr [] ∧
        Blog.view env (Blog.fetchPosts (.rejected code) st) =
          .ok (.empty "No articles found. Check back soon!")) ∧
      Blog.view env (Blog.fetchPosts
          (.resolved (obj [("results", arr [obj [("id", num 1), ("title", str "A"),
            ("created_date", num 1705314600000)]])]))
          BlogState.initial) =
        .ok (.grid [{ id := num 1, featuredImageUrl := undefined, category := undefined,
                      title := str "A", excerpt := undefined, author := undefined,
                      createdDate := env.formatValid 1705314600000 "MMM d, yyyy" }])) ∧
    ((∀ (data : JSValue) (st : UpdatesState), ∃ items,
        getDataArray ⟨data⟩ = .ok (arr items) ∧
        Updates.fetchUpdates (.resolved data) st =
          { st with updates := arr items, isLoading := false } ∧
        (items ≠ [] → (∀ p ∈ items, ∃ fields, p = obj fields) →
          ((∀ p ∈ items, ∃ t, newDate env (p.optProp "created_date") = some t) →
            ∃ cards,
              Updates.view env (Updates.fetchUpdates (.resolved data) st) =
                .ok (.list cards) ∧
              cards.length = items.length ∧
              List.Forall₂ (fun p c => c.title = p.optProp "title" ∧
                DateFns.format env (newDate env (p.optProp "created_date")) "MMMM d, yyyy" =
                  .ok c.createdDate) items cards) ∧
          (∀ view, Updates.view env (Updates.fetchUpdates (.resolved data) st) = .ok view →
            ∀ p ∈ items, ∃ t, newDate env (p.optProp "created_date") = some t))) ∧
      (∀ (code : Option String) (st : UpdatesState),
        (Updates.fetchUpdates (.rejected code) st).updates = arr [] ∧
        Updates.view env (Updates.fetchUpdates (.rejected code) st) =
          .ok (.empty "No updates yet"
            "Check back soon for the latest news and announcements"))) ∧
    ((∀ (data : JSValue) (st : GalleryState), ∃ items,
        getDataArray ⟨data⟩ = .ok (arr items) ∧
        Gallery.fetchGalleryItems (.resolved data) st =
          { st with items := arr items, isLoading := false } ∧
        (items ≠ [] → (∀ p ∈ items, ∃ fields, p = obj fields) →
          ((∀ p ∈ items, (p.optProp "event_date").truthy = false ∨
              ∃ t, newDate env (p.optProp "event_date") = some t) →
            ∃ featured regular,
              Gallery.view env (Gallery.fetchGalleryItems (.resolved data) st) =
                .ok { featured := featured, regular := .grid regular } ∧
              featured.length + regular.length = items.length) ∧
          (∀ view,
            Gallery.view env (Gallery.fetchGalleryItems (.resolved data) st) = .ok view →
            ∀ p ∈ items, (p.optProp "event_date").truthy = false ∨
              ∃ t, newDate env (p.optProp "event_date") = some t))) ∧
      (∀ (code : Option String) (st : GalleryState),
        (Gallery.fetchGalleryItems (.rejected code) st).items = arr [] ∧
        Gallery.view env (Gallery.fetchGalleryItems (.rejected code) st) =
          .ok { featured := [],
                regular := .empty "No gallery items found. Check back soon!" })) := by
  refine ⟨⟨?_, fun code st => ⟨rfl, rfl⟩, rfl⟩, ⟨?_, fun code st => ⟨rfl, rfl⟩⟩,
    ⟨?_, fun code st => ⟨rfl, rfl⟩⟩⟩
  · intro data st
    obtain ⟨items, hi⟩ := getDataArray_is_array ⟨data⟩
    refine ⟨items, hi, Blog_fetchPosts_resolved data st items hi, fun hne hrec => ?_⟩
    rw [Blog_fetchPosts_resolved data st items hi]
    exact ⟨Blog_view_of_records env st items hne hrec,
      fun view hv => Blog_view_dates_of_ok env st items view hrec hv⟩
  · intro data st
    obtain ⟨items, hi⟩ := getDataArray_is_array ⟨data⟩
    refine ⟨items, hi, Updates_fetchUpdates_resolved data st items hi, fun hne hrec => ?_⟩
    rw [Updates_fetchUpdates_resolved data st items hi]
    exact ⟨Updates_view_of_records env st items hne hrec,
      fun view hv => Updates_view_dates_of_ok env st items view hrec hv⟩
  · intro data st
    obtain ⟨items, hi⟩ := getDataArray_is_array ⟨data⟩
    refine ⟨items, hi, Gallery_fetchGalleryItems_resolved data st items hi,
      fun hne hrec => ?_⟩
    rw [Gallery_fetchGalleryItems_resolved data st items hi]
    exact ⟨Gallery_view_of_records env st items hne hrec,
      fun view hv => Gallery_view_dates_of_ok env st items view hrec hv⟩

/-- Witness of C17, amended: an engine that parses the string `2024-01-15T10:30:00Z`, and
two update records with that `created_date` behind a pagination envelope; the list has two
cards. -/
theorem list_pages_normalised_witness :
    ∃ cards, Updates.view
        ⟨fun s => if s == "2024-01-15T10:30:00Z" then some 1705314600000 else none,
          fun _ _ => "January 15, 2024"⟩
        (Updates.fetchUpdates
          (.resolved (obj [("count", num 2),
            ("results", arr [obj [("id", num 1), ("title", str "A"),
                ("created_date", str "2024-01-15T10:30:00Z")],
              obj [("id", num 2), ("title", str "B"),
                ("created_date", str "2024-01-15T10:30:00Z")]])]))
          UpdatesState.initial) = .ok (.list cards) ∧ cards.length = 2 := by
  obtain ⟨items, hi, -, hview⟩ := (list_pages_normalised
    ⟨fun s => if s == "2024-01-15T10:30:00Z" then some 1705314600000 else none,
      fun _ _ => "January 15, 2024"⟩).2.1.1
    (obj [("count", num 2),
      ("results", arr [obj [("id", num 1), ("title", str "A"),
          ("created_date", str "2024-01-15T10:30:00Z")],
        obj [("id", num 2), ("title", str "B"),
          ("created_date", str "2024-01-15T10:30:00Z")]])]) UpdatesState.initial
  have hitems : items = [obj [("id", num 1), ("title", str "A"),
        ("created_date", str "2024-01-15T10:30:00Z")],
      obj [("id", num 2), ("title", str "B"),
        ("created_date", str "2024-01-15T10:30:00Z")]] := by
    have h2 : getDataArray ⟨obj [("count", num 2),
      ("results", arr [obj [("id", num 1), ("title", str "A"),
          ("created_date", str "2024-01-15T10:30:00Z")],
        obj [("id", num 2), ("title", str "B"),
          ("created_date", str "2024-01-15T10:30:00Z")]])]⟩ =
        .ok (arr [obj [("id", num 1), ("title", str "A"),
            ("created_date", str "2024-01-15T10:30:00Z")],
          obj [("id", num 2), ("title", str "B"),
            ("created_date", str "2024-01-15T10:30:00Z")]]) := rfl
    rw [h2] at hi
    injection hi with hi
    injection hi with hi
    exact hi.symm
  subst hitems
  obtain ⟨cards, hv, hlen, -⟩ := (hview (by simp) (by
    intro p hp
    simp only [List.mem_cons, List.mem_singleton, List.not_mem_nil, or_false] at hp
    rcases hp with rfl | rfl <;> exact ⟨_, rfl⟩)).1 (by
    intro p hp
    simp only [List.mem_cons, List.mem_singleton, List.not_mem_nil, or_false] at hp
    rcases hp with rfl | rfl <;> exact ⟨1705314600000, by decide⟩)
  exact ⟨cards, hv, hlen⟩


/-! ### Loading flags -/

/-- C18 as stated fails: on the About page the mission request is rejected and then the
legacy request is rejected; `fetchAboutPage` returns and clears `isLoading` while the
story-image request and the story section request are still pending. On the Services page
the loading flag is cleared by the services response while the header-image request is
still pending. -/
theorem isLoading_cleared_while_pending :
    (AboutRun.after [.sectionSettled .mission (.rejected none),
        .legacySettled (.rejected none)]).state.isLoading = false ∧
      (AboutRun.after [.sectionSettled .mission (.rejected none),
        .legacySettled (.rejected none)]).storyImagePending = true ∧
      (AboutRun.after [.sectionSettled .mission (.rejected none),
        .legacySettled (.rejected none)]).slots.story.isNone = true ∧
      (AboutRun.after [.sectionSettled .mission (.rejected none),
        .legacySettled (.rejected none)]).anyPending = true ∧
      (ServicesRun.after [.servicesSettled (.rejected none)]).state.isLoading = false ∧
      (ServicesRun.after [.servicesSettled (.rejected none)]).headerImagePending = true :=
  ⟨rfl, rfl, rfl, rfl, rfl, rfl⟩

/-- C18, amended: the loading flag is true right after initiation, it is false once every
request of the page has settled, and once false it stays false; but it is cleared by the
page's main fetch function alone. On the About page it is set exactly while `fetchAboutPage`
has not returned, on the Services page exactly while the services request is pending,
whether or not the story-image or header-image request (or, after a rejection, another
section request) is still pending. On the pages with a single request (Blog, Updates,
Gallery, single blog post, contact information) it is false once that request has settled,
whatever the outcome. -/
theorem isLoading_follows_main_fetch (events : List AboutEvent)
    (serviceEvents : List ServicesEvent) :
    (AboutRun.initial.state.isLoading = true ∧
      ((AboutRun.after events).state.isLoading = true ↔
        (AboutRun.after events).phase ≠ .done) ∧
      ((AboutRun.after events).anyPending = false →
        (AboutRun.after events).state.isLoading = false) ∧
      (∀ more, (AboutRun.after events).state.isLoading = false →
        (AboutRun.after (events ++ more)).state.isLoading = false)) ∧
    (ServicesRun.initial.state.isLoading = true ∧
      (ServicesRun.after serviceEvents).state.isLoading =
        (ServicesRun.after serviceEvents).servicesPending ∧
      (∀ more, (ServicesRun.after serviceEvents).state.isLoading = false →
        (ServicesRun.after (serviceEvents ++ more)).state.isLoading = false)) ∧
    (BlogState.initial.isLoading = true ∧ UpdatesState.initial.isLoading = true ∧
      GalleryState.initial.isLoading = true ∧ BlogPostState.initial.isLoading = true ∧
      ContactInfoState.initial.isLoadingContact = true ∧
      ∀ outcome : GetOutcome,
        (Blog.fetchPosts outcome BlogState.initial).isLoading = false ∧
        (Updates.fetchUpdates outcome UpdatesState.initial).isLoading = false ∧
        (Gallery.fetchGalleryItems outcome GalleryState.initial).isLoading = false ∧
        (BlogPost.fetchPost outcome BlogPostState.initial).isLoading = false ∧
        (fetchContactInformation outcome ContactInfoState.initial).isLoadingContact =
          false) := by
  have hc := AboutRun_after_consistent events
  refine ⟨⟨rfl, hc.1, ?_, ?_⟩, ⟨rfl, ?_, ?_⟩, rfl, rfl, rfl, rfl, rfl, ?_⟩
  · intro hp
    simp only [AboutRun.anyPending, Bool.or_eq_false_iff] at hp
    obtain ⟨⟨hslots, hleg⟩, -⟩ := hp
    cases hphase : (AboutRun.after events).phase with
    | awaitingSections =>
      have := (hc.2 hphase).1
      rw [hslots] at this
      cases this
    | awaitingLegacy => simp [hphase] at hleg
    | done =>
      cases hl : (AboutRun.after events).state.isLoading with
      | false => rfl
      | true => exact absurd hphase (hc.1.1 hl)
  · intro more hfalse
    have hdone : (AboutRun.after events).phase = .done := by
      by_contra hne
      rw [hc.1.2 hne] at hfalse
      cases hfalse
    have hc2 := AboutRun_after_consistent (events ++ more)
    have hdone2 : (AboutRun.after (events ++ more)).phase = .done := by
      simp only [AboutRun.after, List.foldl_append]
      exact AboutRun_foldl_done more _ hdone
    cases hl : (AboutRun.after (events ++ more)).state.isLoading with
    | false => rfl
    | true => exact absurd hdone2 (hc2.1.1 hl)
  · exact ServicesRun_foldl_isLoading serviceEvents _ rfl
  · intro more hfalse
    have h1 := ServicesRun_foldl_isLoading serviceEvents ServicesRun.initial rfl
    have h2 := ServicesRun_foldl_isLoading (serviceEvents ++ more) ServicesRun.initial rfl
    simp only [ServicesRun.after] at hfalse ⊢
    rw [h2, List.foldl_append]
    exact ServicesRun_foldl_settled more _ (h1 ▸ hfalse)
  · intro outcome
    exact ⟨rfl, rfl, rfl, by cases outcome <;> rfl, rfl⟩

/-- Witness of C18, amended: on the About page all eight requests settle, the story image
first and a rejected section in between; afterwards nothing is pending and the loading flag
is false. -/
theorem isLoading_follows_main_fetch_witness :
    (AboutRun.after [.storyImageSettled (.rejected none),
        .sectionSettled .story (.resolved (arr [])),
        .sectionSettled .mission (.rejected none),
        .sectionSettled .vision (.resolved (arr [])),
        .sectionSettled .valuesHeader (.resolved (arr [])),
        .legacySettled (.rejected none),
        .sectionSettled .timelineHeader (.resolved (arr [])),
        .sectionSettled .values (.resolved (arr [])),
        .sectionSettled .timeline (.resolved (arr []))]).anyPending = false ∧
      (AboutRun.after [.storyImageSettled (.rejected none),
        .sectionSettled .story (.resolved (arr [])),
        .sectionSettled .mission (.rejected none),
        .sectionSettled .vision (.resolved (arr [])),
        .sectionSettled .valuesHeader (.resolved (arr [])),
        .legacySettled (.rejected none),
        .sectionSettled .timelineHeader (.resolved (arr [])),
        .sectionSettled .values (.resolved (arr [])),
        .sectionSettled .timeline (.resolved (arr []))]).state.isLoading = false :=
  ⟨rfl, (isLoading_follows_main_fetch _ []).1.2.2.1 rfl⟩


/-! ### Failed reads -/

/-- C19 as stated fails: on the single blog post page a rejected request stores the error
`Post not found` and the page shows the error panel `Post Not Found`. -/
theorem BlogPost_failure_shows_error :
    (BlogPost.fetchPost (.rejected none) BlogPostState.initial).error =
        some "Post not found" ∧
      BlogPost.view (BlogPost.fetchPost (.rejected none) BlogPostState.initial) =
        .errorPanel "Post Not Found" "The article you're looking for doesn't exist." :=
  ⟨rfl, rfl⟩

/-- C19, amended: on Home, About, Services, Blog, Gallery, Updates, the contact information
of the Contact page and the Footer, a rejected request ends in a ready state that shows
default or empty content and no error; the single blog post page is the exception among the
reads, it shows the error panel `Post Not Found`; and the contact form shows an error status
when its POST is rejected. -/
theorem read_failures_absorbed (code : Option String) (endpoints : ApiEndpoints) :
    (Home.fetchHeroImage (.rejected code) HomeState.initial = HomeState.initial ∧
      Home.fetchTestimonials (.rejected code) HomeState.initial = HomeState.initial ∧
      Home.view HomeState.initial = { heroImageUrl := none, testimonials := none }) ∧
    ((∀ sections : SectionOutcomes,
        (∃ x ∈ sections.toList, ∃ c, x = GetOutcome.rejected c) →
        AboutState.initial.settle (About.fetchAboutPage endpoints sections (.rejected code)) =
          { aboutData := null, isLoading := false, storyImage := null }) ∧
      AboutState.initial.settle (About.fetchStoryImage endpoints (.rejected code)) =
        AboutState.initial ∧
      (About.render null).values = About.defaultValues ∧
      (About.render null).storyTitle = str "Our Story") ∧
    (Services.view (Services.fetchServices (.rejected code) ServicesState.initial) =
        .grid getDefaultServices ∧
      Services.fetchHeaderImage (.rejected code) ServicesState.initial =
        ServicesState.initial) ∧
    (∀ env : DateEnv,
      Blog.view env (Blog.fetchPosts (.rejected code) BlogState.initial) =
        .ok (.empty "No articles found. Check back soon!") ∧
      Gallery.view env (Gallery.fetchGalleryItems (.rejected code) GalleryState.initial) =
        .ok { featured := [],
              regular := .empty "No gallery items found. Check back soon!" } ∧
      Updates.view env (Updates.fetchUpdates (.rejected code) UpdatesState.initial) =
        .ok (.empty "No updates yet"
          "Check back soon for the latest news and announcements")) ∧
    (Contact.infoView (fetchContactInformation (.rejected code) ContactInfoState.initial) =
        .cards getDefaultContactInfo ∧
      Footer.fetchContactInfo (.rejected code) null = null ∧
      Footer.address null = str "Your Business Address, City, Country") ∧
    BlogPost.view (BlogPost.fetchPost (.rejected code) BlogPostState.initial) =
      .errorPanel "Post Not Found" "The article you're looking for doesn't exist." ∧
    (∀ (net : String → FormData → PostOutcome) (st : ContactState),
      (validateForm st.formData).2 = true →
      net endpoints.CONTACT st.formData = .rejected code →
      ∃ message, (settle st (handleSubmit endpoints net st)).submitStatus =
        some ⟨"error", message⟩) := by
  refine ⟨⟨rfl, rfl, rfl⟩, ⟨?_, rfl, rfl, rfl⟩, ⟨rfl, rfl⟩, fun _ => ⟨rfl, rfl, rfl⟩,
    ⟨rfl, rfl, rfl⟩, rfl, ?_⟩
  · intro sections hfail
    rw [About_fetchAboutPage_of_rejected endpoints sections _
      ((SectionOutcomes_all_eq_none_iff sections).2 hfail), List.append_assoc,
      About_settle_sectionRequests]
    rfl
  · intro net st hv hp
    rw [handleSubmit_of_rejected endpoints net st code hv hp]
    exact ⟨_, rfl⟩

/-- Witness of C19, amended: on the About page the vision request times out and the legacy
request fails; the page ends ready with the view model `null`. -/
theorem read_failures_absorbed_witness :
    AboutState.initial.settle (About.fetchAboutPage (API_ENDPOINTS "http://localhost:8000")
        ⟨.resolved (arr []), .resolved (arr []), .rejected (some "ECONNABORTED"),
          .resolved (arr []), .resolved (arr []), .resolved (arr []), .resolved (arr [])⟩
        (.rejected none)) =
      { aboutData := null, isLoading := false, storyImage := null } :=
  (read_failures_absorbed none (API_ENDPOINTS "http://localhost:8000")).2.1.1
    ⟨.resolved (arr []), .resolved (arr []), .rejected (some "ECONNABORTED"),
      .resolved (arr []), .resolved (arr []), .resolved (arr []), .resolved (arr [])⟩
    ⟨.rejected (some "ECONNABORTED"), by simp [SectionOutcomes.toList], _, rfl⟩


/-! ### The gallery video card -/

/-- C20, the code at the failing input: a video item without `thumbnail_url` and with a
`video_file_url`, whose extraction fails (the `error` event, an exception while seeking, an
exception while drawing). Every failing listener sets the flags of the extractor and reports
nothing, the `Gallery` state is unchanged, and the card keeps the extractor next to the
placeholder labelled `Loading...`; the placeholder labelled `Video` is not shown. -/
theorem Gallery_failed_extraction_card :
    VideoThumbnail.handleError VideoThumbnailState.initial =
        ({ thumbnailUrl := none, error := true, isGenerating := false }, none) ∧
      VideoThumbnail.handleLoadedMetadata true VideoThumbnailState.initial =
        ({ thumbnailUrl := none, error := true, isGenerating := false }, none) ∧
      VideoThumbnail.handleSeeked none true VideoThumbnailState.initial =
        ({ thumbnailUrl := none, error := true, isGenerating := false }, none) ∧
      (Gallery.afterListener
          (obj [("id", num 7), ("title", str "Clip"), ("media_type", str "video"),
            ("video_file_url", str "/media/clip.mp4")])
          (VideoThumbnail.handleError VideoThumbnailState.initial).2
          GalleryState.initial).map GalleryState.videoThumbnails = .ok [] ∧
      Gallery.card []
          (obj [("id", num 7), ("title", str "Clip"), ("media_type", str "video"),
            ("video_file_url", str "/media/clip.mp4")]) =
        .ok { title := str "Clip", image := none,
              video := some (.withExtractor (str "/media/clip.mp4")
                (.placeholder "Loading...")) } :=
  ⟨rfl, rfl, rfl, rfl, rfl⟩


/-- C21, the code at the failing input: a video item whose extraction is pending while the
`Gallery` component renders again. The mount starts one load; every further render of the
`Gallery` hands over a new `onThumbnailReady`, the effect runs again and calls `video.load()`
again, so one re-render gives two loads and three give four. The memoised half of the claim
holds: with a generated image cached under the item id the card shows that image and mounts
no extractor. -/
theorem Gallery_extraction_restarted_on_render :
    (ExtractorRun.after (str "/media/clip.mp4") []).loads = 1 ∧
      (ExtractorRun.after (str "/media/clip.mp4") [.parentRender]).loads = 2 ∧
      (ExtractorRun.after (str "/media/clip.mp4")
        [.parentRender, .loadedMetadata false, .parentRender, .parentRender]).loads = 4 ∧
      Gallery.card [("7", str "data:image/jpeg;base64,AAAA")]
          (obj [("id", num 7), ("title", str "Clip"), ("media_type", str "video"),
            ("video_file_url", str "/media/clip.mp4")]) =
        .ok { title := str "Clip", image := none,
              video := some (.plain (.image (str "data:image/jpeg;base64,AAAA"))) } :=
  ⟨rfl, rfl, rfl, rfl⟩

/-- C23: in the thumbnail extractor each failure (the `error` event, an exception while
seeking, an exception while drawing or encoding) sets the error flag and clears the
generating flag and reports no thumbnail; a frame that is encoded gives a truthy
`thumbnailUrl`; once the error flag is set or a thumbnail has been produced, a run of the
effect returns at its guard, registers no listener and starts no load, and no later event
changes the component any more, so no retry happens. -/
theorem extractor_failure_no_retry (videoUrl : JSValue) (st : VideoThumbnailState)
    (run : ExtractorRun) (hasCallback : Bool) :
    (VideoThumbnail.handleError st =
        ({ st with error := true, isGenerating := false }, none) ∧
      VideoThumbnail.handleLoadedMetadata true st =
        ({ st with error := true, isGenerating := false }, none) ∧
      VideoThumbnail.handleSeeked none hasCallback st =
        ({ st with error := true, isGenerating := false }, none)) ∧
    (∀ dataUrl : String, dataUrl ≠ "" →
      (VideoThumbnail.handleSeeked (some dataUrl) hasCallback st).1.hasThumbnail = true) ∧
    (run.listening = true →
      ∀ e, (e = ExtractorEvent.error ∨ e = ExtractorEvent.loadedMetadata true ∨
          e = ExtractorEvent.seeked none) →
        (ExtractorRun.step videoUrl run e).state.error = true ∧
        (ExtractorRun.step videoUrl run e).state.isGenerating = false ∧
        (ExtractorRun.step videoUrl run e).listening = false ∧
        (ExtractorRun.step videoUrl run e).loads = run.loads ∧
        (ExtractorRun.step videoUrl run e).reported = run.reported) ∧
    ((run.state.error = true ∨ run.state.hasThumbnail = true) →
      VideoThumbnail.effect videoUrl run = { run with listening := false }) ∧
    ((run.state.error = true ∨ run.state.hasThumbnail = true) → run.listening = false →
      ∀ events : List ExtractorEvent,
        events.foldl (ExtractorRun.step videoUrl) run = run) := by
  refine ⟨⟨rfl, rfl, rfl⟩, ?_, ?_, VideoThumbnail_effect_of_done videoUrl run,
    ExtractorRun_foldl_of_done videoUrl run⟩
  · intro dataUrl hd
    simp [VideoThumbnail.handleSeeked, VideoThumbnailState.hasThumbnail, truthy, hd]
  · intro hl e he
    rcases he with rfl | rfl | rfl <;>
      simp [ExtractorRun.step, hl, VideoThumbnail.effect, VideoThumbnail.handleError,
        VideoThumbnail.handleLoadedMetadata, VideoThumbnail.handleSeeked]

/-- Witness of C23: a video whose load fails right after the mount; the error flag is set,
the listeners are gone, and three further renders start no second load. -/
theorem extractor_failure_no_retry_witness :
    (ExtractorRun.after (str "/media/clip.mp4") [.error]).state.error = true ∧
      (ExtractorRun.after (str "/media/clip.mp4") [.error]).listening = false ∧
      [ExtractorEvent.parentRender, .parentRender, .seeked (some "data:,"),
          .parentRender].foldl (ExtractorRun.step (str "/media/clip.mp4"))
          (ExtractorRun.after (str "/media/clip.mp4") [.error]) =
        ExtractorRun.after (str "/media/clip.mp4") [.error] ∧
      (ExtractorRun.after (str "/media/clip.mp4") [.error]).loads = 1 :=
  ⟨rfl, rfl,
    (extractor_failure_no_retry (str "/media/clip.mp4") VideoThumbnailState.initial
      (ExtractorRun.after (str "/media/clip.mp4") [.error]) true).2.2.2.2 (Or.inl rfl) rfl _,
    rfl⟩

/-- C24: for every gallery item (a record) the still picture of a video card is chosen in
the order: the `thumbnail_url` of the item if it is present; otherwise, for an item with a
`video_file_url`, the thumbnail cached under the item id if there is one; otherwise none.
The extractor is rendered exactly when the media type is `video`, there is no
`thumbnail_url`, there is a `video_file_url` and no thumbnail is cached; an item with
neither `thumbnail_url` nor `video_file_url` gets the placeholder labelled `Video` and no
extractor. -/
theorem Gallery_thumbnail_priority (vt : List (String × JSValue))
    (fields : List (String × JSValue)) :
    Gallery.videoCard vt (obj fields) =
        .ok (if ((obj fields).optProp "thumbnail_url").truthy then
            .plain (.image ((obj fields).optProp "thumbnail_url"))
          else if ((obj fields).optProp "video_file_url").truthy then
            (if (Gallery.cachedThumbnail vt ((obj fields).optProp "id")).truthy then
              .plain (.image (Gallery.cachedThumbnail vt ((obj fields).optProp "id")))
            else .withExtractor ((obj fields).optProp "video_file_url")
              (.placeholder "Loading..."))
          else .plain (.placeholder "Video")) ∧
      ((∃ c url thumb, Gallery.card vt (obj fields) = .ok c ∧
          c.video = some (.withExtractor url thumb)) ↔
        (((obj fields).optProp "media_type").strictEqStr "video" = true ∧
          ((obj fields).optProp "thumbnail_url").truthy = false ∧
          ((obj fields).optProp "video_file_url").truthy = true ∧
          (Gallery.cachedThumbnail vt ((obj fields).optProp "id")).truthy = false)) ∧
      ((((obj fields).optProp "media_type").strictEqStr "video" = true ∧
          ((obj fields).optProp "thumbnail_url").truthy = false ∧
          ((obj fields).optProp "video_file_url").truthy = false) →
        ∃ c, Gallery.card vt (obj fields) = .ok c ∧
          c.video = some (.plain (.placeholder "Video"))) := by
  obtain ⟨c, hc, hv⟩ := Gallery_card_video_of_fields vt fields
  refine ⟨Gallery_videoCard_of_fields vt fields, ?_, ?_⟩
  · constructor
    · rintro ⟨c2, url, thumb, hc2, hv2⟩
      rw [hc] at hc2
      injection hc2 with hc2
      subst hc2
      rw [hv] at hv2
      cases hm : ((obj fields).optProp "media_type").strictEqStr "video" <;>
        cases h1 : ((obj fields).optProp "thumbnail_url").truthy <;>
        cases h2 : ((obj fields).optProp "video_file_url").truthy <;>
        cases h3 : (Gallery.cachedThumbnail vt ((obj fields).optProp "id")).truthy <;>
        simp [hm, h1, h2, h3] at hv2 ⊢
    · rintro ⟨hm, h1, h2, h3⟩
      refine ⟨c, (obj fields).optProp "video_file_url", .placeholder "Loading...", hc, ?_⟩
      rw [hv]
      simp only [hm, h1, h2, h3, if_true, Bool.false_eq_true, if_false]
  · rintro ⟨hm, h1, h2⟩
    refine ⟨c, hc, ?_⟩
    rw [hv]
    simp [hm, h1, h2]

/-- Witness of C24: an embed without thumbnail gets the placeholder labelled `Video`. -/
theorem Gallery_thumbnail_priority_witness :
    ∃ c, Gallery.card []
        (obj [("id", num 3), ("media_type", str "video"),
          ("embed_url", str "https://www.youtube.com/embed/x")]) = .ok c ∧
      c.video = some (.plain (.placeholder "Video")) :=
  (Gallery_thumbnail_priority []
    [("id", num 3), ("media_type", str "video"),
      ("embed_url", str "https://www.youtube.com/embed/x")]).2.2 ⟨rfl, rfl, rfl⟩


/-! ### Overlapping requests and request parameters -/

/-- C22 as stated fails: the request for the older parameters is answered with
`[{id: 1}]`, the request for the newer parameters with `[{id: 2}]`; when the newer response
arrives first and the older one last, the final `posts` state is the older result. The same
happens on the Gallery page. -/
theorem Blog_stale_response_wins :
    (Blog.afterArrivals
        [.resolved (arr [obj [("id", num 2)]]), .resolved (arr [obj [("id", num 1)]])]
        BlogState.initial).posts = arr [obj [("id", num 1)]] ∧
      (Gallery.afterArrivals
        [.resolved (arr [obj [("id", num 2)]]), .resolved (arr [obj [("id", num 1)]])]
        GalleryState.initial).items = arr [obj [("id", num 1)]] :=
  ⟨rfl, rfl⟩

/-- C22, amended: on the Blog page and on the Gallery page the response that arrives last is
the one whose result is applied. For two requests in flight with the outcomes `older` (issued
first) and `newer` (issued second), the final state is the result of `newer` when the newer
response arrives last and the result of `older` when the older response arrives last; and
for every non-empty sequence of arrivals the final state is the result of its last
element. -/
theorem last_arrival_wins (older newer : GetOutcome) (bst : BlogState) (gst : GalleryState)
    (earlier : List GetOutcome) :
    (Blog.afterArrivals [older, newer] bst = Blog.fetchPosts newer bst ∧
      Blog.afterArrivals [newer, older] bst = Blog.fetchPosts older bst ∧
      Blog.afterArrivals (earlier ++ [newer]) bst = Blog.fetchPosts newer bst) ∧
    (Gallery.afterArrivals [older, newer] gst = Gallery.fetchGalleryItems newer gst ∧
      Gallery.afterArrivals [newer, older] gst = Gallery.fetchGalleryItems older gst ∧
      Gallery.afterArrivals (earlier ++ [newer]) gst =
        Gallery.fetchGalleryItems newer gst) := by
  refine ⟨⟨rfl, rfl, ?_⟩, ⟨rfl, rfl, ?_⟩⟩
  · simp only [Blog.afterArrivals, List.foldl_append, List.foldl_cons, List.foldl_nil]
    have h := Blog_foldl_frame earlier { bst with isLoading := true }
    exact Blog_fetchPosts_congr newer _ _ h.1 h.2
  · simp only [Gallery.afterArrivals, List.foldl_append, List.foldl_cons, List.foldl_nil]
    have h := Gallery_foldl_frame earlier { gst with isLoading := true }
    exact Gallery_fetchGalleryItems_congr newer _ _ h.1 h.2.1 h.2.2.1 h.2.2.2

/-- C25: the object `params` of the Blog request holds `category` exactly when the selected
category is not `all`, with the selected category as value, and `search` exactly when the
search term is not empty, with the search term as value, and nothing else; the object
`params` of the Gallery request holds `event_type` exactly when the event filter is not
`all` and `media_type` exactly when the media filter is not `all`, each with the filter as
value, and nothing else. -/
theorem request_params_spec (bst : BlogState) (gst : GalleryState) :
    Blog.requestParams bst =
        (if bst.selectedCategory = "all" then [] else [("category", bst.selectedCategory)]) ++
        (if bst.searchTerm = "" then [] else [("search", bst.searchTerm)]) ∧
      Gallery.requestParams gst =
        (if gst.selectedFilter = "all" then [] else [("event_type", gst.selectedFilter)]) ++
        (if gst.mediaTypeFilter = "all" then [] else [("media_type", gst.mediaTypeFilter)]) := by
  constructor
  · by_cases h1 : bst.selectedCategory = "all" <;> by_cases h2 : bst.searchTerm = "" <;>
      simp [Blog.requestParams, Id.run, setParam, truthy, h1, h2]
  · by_cases h1 : gst.selectedFilter = "all" <;> by_cases h2 : gst.mediaTypeFilter = "all" <;>
      simp [Gallery.requestParams, Id.run, setParam, h1, h2]


/-! ### The Services page -/

/-- C26 as stated fails: the API returns the list `[{title: "Loans"}, null]`, which holds
one service; mapping the `null` element throws, the `catch` block runs, and the page shows
the six default services instead of the mapped API list. -/
theorem Services_null_element_gives_defaults :
    resultsOrData (arr [obj [("title", str "Loans")], null]) =
        .ok (arr [obj [("title", str "Loans")], null]) ∧
      Services.displayServices
          (Services.fetchServices (.resolved (arr [obj [("title", str "Loans")], null]))
            ServicesState.initial) = getDefaultServices ∧
      Services.mapService (obj [("title", str "Loans")]) =
        .ok (obj [("title", str "Loans"), ("color", str "orange"), ("features", arr [])]) :=
  ⟨rfl, rfl, rfl⟩

/-- C26, amended: for every outcome of the services request (rejection, empty list,
unrecognised shape, non-empty list) loading has ended and the displayed list is non-empty;
it is the mapped API list, one entry per element, when the API returned a non-empty list
whose mapping succeeds, which is the case whenever no element is `null`; in every other
case, a list with a `null` element included, it is the six built-in default services. -/
theorem Services_always_shown (outcome : GetOutcome) (st : ServicesState) :
    (∃ shown, shown ≠ [] ∧
      Services.view (Services.fetchServices outcome st) = .grid (arr shown)) ∧
    (Services.displayServices (Services.fetchServices outcome st) = getDefaultServices ∨
      ∃ data items mapped, outcome = .resolved data ∧ resultsOrData data = .ok (arr items) ∧
        items ≠ [] ∧ Services.mapServices items = .ok mapped ∧
        mapped.length = items.length ∧
        Services.displayServices (Services.fetchServices outcome st) = arr mapped) ∧
    (∀ data items, outcome = .resolved data → resultsOrData data = .ok (arr items) →
      items ≠ [] → (∀ x ∈ items, x ≠ null ∧ x ≠ undefined) →
      ∃ mapped, Services.mapServices items = .ok mapped ∧ mapped.length = items.length ∧
        Services.displayServices (Services.fetchServices outcome st) = arr mapped) ∧
    getDefaultServices.length = 6 := by
  have hview : Services.view (Services.fetchServices outcome st) =
      .grid (Services.displayServices (Services.fetchServices outcome st)) := by
    simp [Services.view, Services.fetchServices]
  refine ⟨?_, Services_display_cases outcome st, ?_, rfl⟩
  · rw [hview]
    rcases Services_display_cases outcome st with h | ⟨data, items, mapped, -, -, hne, -, hlen,
      h⟩
    · rw [h]
      exact ⟨_, by simp, rfl⟩
    · rw [h]
      refine ⟨mapped, ?_, rfl⟩
      intro hnil
      rw [hnil] at hlen
      exact hne (List.length_eq_zero.1 hlen.symm)
  · intro data items ho hr hne hall
    obtain ⟨mapped, hm⟩ := Services_mapServices_defined items hall
    subst ho
    cases items with
    | nil => exact absurd rfl hne
    | cons x rest =>
      have hs := Services_servicesOf_of_list data x rest hr
      rw [hm] at hs
      have hlen := Services_mapServices_length _ _ hm
      have hpos : 0 < mapped.length := by rw [hlen]; simp
      refine ⟨mapped, hm, hlen, ?_⟩
      simp [Services.fetchServices, hs, Services.displayServices, JSValue.length, hpos]


/-- Witness of C26, amended: one loan service behind a pagination envelope is shown with the
colour and the features of its type. -/
theorem Services_always_shown_witness :
    Services.displayServices
        (Services.fetchServices
          (.resolved (obj [("results",
            arr [obj [("title", str "Loans"), ("service_type", str "loans")]])]))
          ServicesState.initial) =
      arr [obj [("title", str "Loans"), ("service_type", str "loans"), ("color", str "green"),
        ("features", arr [str "Quick approval process", str "Flexible repayment terms",
          str "Competitive interest rates", str "No hidden fees"])]] := by
  obtain ⟨mapped, hm, -, hd⟩ := (Services_always_shown
    (.resolved (obj [("results",
      arr [obj [("title", str "Loans"), ("service_type", str "loans")]])]))
    ServicesState.initial).2.2.1 _
    [obj [("title", str "Loans"), ("service_type", str "loans")]] rfl rfl (by simp)
    (by
      intro x hx
      simp only [List.mem_singleton] at hx
      subst hx
      exact ⟨fun h => (by cases h), fun h => (by cases h)⟩)
  have hm2 : Services.mapServices [obj [("title", str "Loans"), ("service_type", str "loans")]] =
      .ok [obj [("title", str "Loans"), ("service_type", str "loans"), ("color", str "green"),
        ("features", arr [str "Quick approval process", str "Flexible repayment terms",
          str "Competitive interest rates", str "No hidden fees"])]] := rfl
  rw [hm2] at hm
  injection hm with hm
  rw [hd, ← hm]


/-! ### The lightbox -/

/-- C27, the code at the failing input: the lightbox is opened and the page is left while it
is open. Opening locks the body (`overflow: hidden`); the close button, the Escape key and a
click outside the content each unlock it; the unmount removes the `keydown` listener only,
so afterwards no lightbox is open and the body is still locked. -/
theorem Gallery_unmount_keeps_scroll_lock :
    (GalleryPage.after [.cardClick (obj [("id", num 1), ("media_type", str "image"),
        ("image_url", str "/media/a.jpg")])]).bodyOverflow = "hidden" ∧
      (GalleryPage.after [.cardClick (obj [("id", num 1), ("media_type", str "image"),
        ("image_url", str "/media/a.jpg")]), .closeButton]).bodyOverflow = "" ∧
      (GalleryPage.after [.cardClick (obj [("id", num 1), ("media_type", str "image"),
        ("image_url", str "/media/a.jpg")]), .keydown "Escape"]).bodyOverflow = "" ∧
      (GalleryPage.after [.cardClick (obj [("id", num 1), ("media_type", str "image"),
        ("image_url", str "/media/a.jpg")]), .contentClick, .overlayClick]).bodyOverflow = "" ∧
      (GalleryPage.after [.cardClick (obj [("id", num 1), ("media_type", str "image"),
        ("image_url", str "/media/a.jpg")]), .unmount]).bodyOverflow = "hidden" ∧
      (GalleryPage.after [.cardClick (obj [("id", num 1), ("media_type", str "image"),
        ("image_url", str "/media/a.jpg")]), .unmount]).lightboxOpen = false :=
  ⟨rfl, rfl, rfl, rfl, rfl, rfl⟩


/-! ### The inline idiom and `getDataArray` -/

/-- C28: on every JSON value `d` (every value other than `undefined`, which JSON does not
have) the inline idiom `data.results || data` followed by the array guard and the helper
`getDataArray` relate as follows: for `d` other than `null` the idiom evaluates without an
exception to a list, and that list is the result of `getDataArray` on the response with
data `d`; for `d = null` the idiom throws a `TypeError` while `getDataArray` returns the
empty list. -/
theorem inlineDataArray_eq_getDataArray (d : JSValue) (hu : d ≠ undefined) :
    (d ≠ null →
      inlineDataArray d = getDataArray ⟨d⟩ ∧ ∃ items, inlineDataArray d = .ok (arr items)) ∧
    (d = null →
      inlineDataArray d = .error .typeError ∧ getDataArray ⟨d⟩ = .ok (arr [])) := by
  cases d with
  | undefined => exact absurd rfl hu
  | null =>
    refine ⟨fun h => absurd rfl h, fun _ => ⟨rfl, rfl⟩⟩
  | bool b =>
    refine ⟨fun _ => ?_, fun h => (by cases h)⟩
    cases b <;> exact ⟨rfl, [], rfl⟩
  | num n =>
    refine ⟨fun _ => ?_, fun h => (by cases h)⟩
    by_cases hz : n = 0 <;>
      simp [inlineDataArray, resultsOrData, getDataArray, isNonEmptyArray, orElse, andCond,
        isArray, truthy, getProp, JSValue.length, hz, bind, Except.bind, pure, Except.pure]
  | str s =>
    refine ⟨fun _ => ?_, fun h => (by cases h)⟩
    by_cases hz : s = "" <;>
      simp [inlineDataArray, resultsOrData, getDataArray, isNonEmptyArray, orElse, andCond,
        isArray, truthy, getProp, JSValue.length, hz, bind, Except.bind, pure, Except.pure]
  | arr items =>
    refine ⟨fun _ => ?_, fun h => (by cases h)⟩
    cases items <;>
      simp [inlineDataArray, resultsOrData, getDataArray, isNonEmptyArray, orElse, andCond,
        isArray, truthy, getProp, JSValue.length, bind, Except.bind, pure, Except.pure]
  | obj fields =>
    refine ⟨fun _ => ?_, fun h => (by cases h)⟩
    cases hr : (fields.lookup "results").getD undefined with
    | arr items =>
      cases items <;>
        simp [inlineDataArray, resultsOrData, getDataArray, isNonEmptyArray, orElse, andCond,
          isArray, truthy, getProp, JSValue.length, hr, bind, Except.bind, pure, Except.pure]
    | undefined =>
      simp [inlineDataArray, resultsOrData, getDataArray, isNonEmptyArray, orElse, andCond,
        isArray, truthy, getProp, JSValue.length, hr, bind, Except.bind, pure, Except.pure]
    | null =>
      simp [inlineDataArray, resultsOrData, getDataArray, isNonEmptyArray, orElse, andCond,
        isArray, truthy, getProp, JSValue.length, hr, bind, Except.bind, pure, Except.pure]
    | bool b =>
      cases b <;>
        simp [inlineDataArray, resultsOrData, getDataArray, isNonEmptyArray, orElse, andCond,
          isArray, truthy, getProp, JSValue.length, hr, bind, Except.bind, pure, Except.pure]
    | num n =>
      by_cases hz : n = 0 <;>
        simp [inlineDataArray, resultsOrData, getDataArray, isNonEmptyArray, orElse, andCond,
          isArray, truthy, getProp, JSValue.length, hr, hz, bind, Except.bind, pure,
          Except.pure]
    | str s =>
      by_cases hz : s = "" <;>
        simp [inlineDataArray, resultsOrData, getDataArray, isNonEmptyArray, orElse, andCond,
          isArray, truthy, getProp, JSValue.length, hr, hz, bind, Except.bind, pure,
          Except.pure]
    | obj inner =>
      simp [inlineDataArray, resultsOrData, getDataArray, isNonEmptyArray, orElse, andCond,
        isArray, truthy, getProp, JSValue.length, hr, bind, Except.bind, pure, Except.pure]

/-- The idiom and the helper at a paginated response with two records, where both give the
two records; `undefined` is another value than the object. -/
theorem inlineDataArray_eq_getDataArray_witness :
    obj [("count", num 2), ("results", arr [obj [("id", num 1)], obj [("id", num 2)]])]
        ≠ undefined ∧
      inlineDataArray
          (obj [("count", num 2), ("results", arr [obj [("id", num 1)], obj [("id", num 2)]])])
        = getDataArray
          ⟨obj [("count", num 2), ("results", arr [obj [("id", num 1)], obj [("id", num 2)]])]⟩ ∧
      inlineDataArray
          (obj [("count", num 2), ("results", arr [obj [("id", num 1)], obj [("id", num 2)]])])
        = .ok (arr [obj [("id", num 1)], obj [("id", num 2)]]) :=
  ⟨fun h => (by cases h),
    ((inlineDataArray_eq_getDataArray _ (fun h => (by cases h))).1 (fun h => (by cases h))).1,
    rfl⟩


/-! ### The contact cards -/

/-- C29: for every response whose first record is an object with the given fields, the card
list of the Contact page is built from the four groups Address, Phone, Email and Business
Hours in this order: a group has a card exactly when one of its two fields is truthy (for a
field that is a string, absent or `null`: when it is a non-empty string), and the details of
the card are the truthy fields, the primary one before the secondary one. When no group has a
card the list is the built-in default list. The displayed list is never empty and no card of
it has empty details. -/
theorem Contact_cards_of_record (st : ContactInfoState) (d : JSValue)
    (fields : List (String × JSValue)) (hr : Contact.firstRecord d = .ok (obj fields)) :
    ∃ groups : List InfoCard,
      groups =
        [("📍", "Address", "address_line1", "address_line2"),
          ("📞", "Phone", "phone_primary", "phone_secondary"),
          ("✉️", "Email", "email_primary", "email_secondary"),
          ("🕒", "Business Hours", "hours_weekdays", "hours_weekend")].filterMap
        (fun g : String × String × String × String =>
          if ([(obj fields).optProp g.2.2.1, (obj fields).optProp g.2.2.2].filter
              truthy).isEmpty then none
          else some ({ icon := g.1, title := g.2.1,
                       details := [(obj fields).optProp g.2.2.1,
                         (obj fields).optProp g.2.2.2].filter truthy } : InfoCard)) ∧
      displayContactInfo (fetchContactInformation (.resolved d) st) =
        (if groups.isEmpty then getDefaultContactInfo else groups) ∧
      displayContactInfo (fetchContactInformation (.resolved d) st) ≠ [] ∧
      ∀ card ∈ displayContactInfo (fetchContactInformation (.resolved d) st),
        card.details ≠ [] := by
  refine ⟨_, rfl, ?_⟩
  have hd : displayContactInfo (fetchContactInformation (.resolved d) st) =
      (match Contact.contactInfoOf d with
        | .ok info => info
        | .error _ => getDefaultContactInfo) := rfl
  rw [hd, Contact_contactInfoOf_of_record d fields hr]
  dsimp only
  refine ⟨rfl, ?_, ?_⟩
  · split
    · simp [getDefaultContactInfo]
    · rename_i hne
      intro h
      apply hne
      rw [h]
      rfl
  · intro card hc
    split at hc
    · exact getDefaultContactInfo_details_ne_nil card hc
    · rw [List.mem_filterMap] at hc
      obtain ⟨g, _, hg⟩ := hc
      split at hg
      · cases hg
      · rename_i hne
        cases hg
        intro hnil
        apply hne
        show List.isEmpty _ = true
        rw [List.isEmpty_iff]
        exact hnil

/-- The cards of a record with a primary address and both phone numbers and nothing else:
two cards, Address with one detail and Phone with two. -/
theorem Contact_cards_of_record_witness :
    Contact.firstRecord (arr [obj [("address_line1", str "12 Market Road"),
        ("address_line2", str ""), ("phone_primary", str "+233 20 000 0001"),
        ("phone_secondary", str "+233 20 000 0002"), ("email_primary", null)]]) =
      .ok (obj [("address_line1", str "12 Market Road"),
        ("address_line2", str ""), ("phone_primary", str "+233 20 000 0001"),
        ("phone_secondary", str "+233 20 000 0002"), ("email_primary", null)]) ∧
    displayContactInfo (fetchContactInformation
        (.resolved (arr [obj [("address_line1", str "12 Market Road"),
          ("address_line2", str ""), ("phone_primary", str "+233 20 000 0001"),
          ("phone_secondary", str "+233 20 000 0002"), ("email_primary", null)]]))
        ContactInfoState.initial) =
      [{ icon := "📍", title := "Address", details := [str "12 Market Road"] },
       { icon := "📞", title := "Phone",
         details := [str "+233 20 000 0001", str "+233 20 000 0002"] }] ∧
    displayContactInfo (fetchContactInformation
        (.resolved (arr [obj [("address_line1", str "12 Market Road"),
          ("address_line2", str ""), ("phone_primary", str "+233 20 000 0001"),
          ("phone_secondary", str "+233 20 000 0002"), ("email_primary", null)]]))
        ContactInfoState.initial) ≠ [] :=
  ⟨rfl, rfl,
    (Contact_cards_of_record ContactInfoState.initial
      (arr [obj [("address_line1", str "12 Market Road"),
        ("address_line2", str ""), ("phone_primary", str "+233 20 000 0001"),
        ("phone_secondary", str "+233 20 000 0002"), ("email_primary", null)]])
      [("address_line1", str "12 Market Road"),
        ("address_line2", str ""), ("phone_primary", str "+233 20 000 0001"),
        ("phone_secondary", str "+233 20 000 0002"), ("email_primary", null)]
      rfl).choose_spec.2.2.1⟩


/-! ### The frame of a failed submission -/

/-- C30, counterexample: the user fills the form with the email `ama`, submits (validation
records the email error), corrects the email (`handleChange` overwrites the message with the
empty string and keeps the key), and submits again while the POST is rejected. The form is
valid at the second submission; the field errors are the object with the key `email` before
it and the empty object after it. -/
theorem handleSubmit_failure_resets_errors :
    (validateForm (ContactState.after (API_ENDPOINTS "http://localhost:8000")
        [.change .name "Ama", .change .email "ama", .change .subject "Hello",
          .change .message "I would like to join.", .submit .resolved,
          .change .email "ama@example.com"]).formData).2 = true ∧
      (ContactState.after (API_ENDPOINTS "http://localhost:8000")
        [.change .name "Ama", .change .email "ama", .change .subject "Hello",
          .change .message "I would like to join.", .submit .resolved]).formErrors =
        [("email", "Please enter a valid email address")] ∧
      (ContactState.after (API_ENDPOINTS "http://localhost:8000")
        [.change .name "Ama", .change .email "ama", .change .subject "Hello",
          .change .message "I would like to join.", .submit .resolved,
          .change .email "ama@example.com"]).formErrors = [("email", "")] ∧
      (ContactState.after (API_ENDPOINTS "http://localhost:8000")
        [.change .name "Ama", .change .email "ama", .change .subject "Hello",
          .change .message "I would like to join.", .submit .resolved,
          .change .email "ama@example.com", .submit (.rejected none)]).formErrors = [] ∧
      (ContactState.after (API_ENDPOINTS "http://localhost:8000")
        [.change .name "Ama", .change .email "ama", .change .subject "Hello",
          .change .message "I would like to join.", .submit .resolved,
          .change .email "ama@example.com", .submit (.rejected none)]).formErrors ≠
        (ContactState.after (API_ENDPOINTS "http://localhost:8000")
          [.change .name "Ama", .change .email "ama", .change .subject "Hello",
            .change .message "I would like to join.", .submit .resolved,
            .change .email "ama@example.com"]).formErrors := by
  refine ⟨by decide, by decide, by decide, by decide, by decide⟩

/-- C30, amended: for every valid form whose POST is rejected, with a timeout code, another
code or none, once `handleSubmit` has settled the form data is the form data before the
submission, the field errors are the empty object that validation has stored (so no field
shows an error), and `isSubmitting` is false. -/
theorem handleSubmit_failure_frame (endpoints : ApiEndpoints)
    (net : String → FormData → PostOutcome) (st : ContactState) (code : Option String)
    (hv : (validateForm st.formData).2 = true)
    (hp : net endpoints.CONTACT st.formData = .rejected code) :
    (settle st (handleSubmit endpoints net st)).formData = st.formData ∧
      (settle st (handleSubmit endpoints net st)).formErrors = [] ∧
      (∀ key, (settle st (handleSubmit endpoints net st)).formErrors.shows key = false) ∧
      (settle st (handleSubmit endpoints net st)).isSubmitting = false := by
  have he : (validateForm st.formData).1 = [] := by
    have h := validateForm_snd st.formData
    rw [hv] at h
    cases hl : (validateForm st.formData).1 with
    | nil => rfl
    | cons x rest => rw [hl] at h; simp at h
  rw [handleSubmit_of_rejected endpoints net st code hv hp, he]
  refine ⟨rfl, rfl, fun key => rfl, rfl⟩

/-- The frame at a filled form whose POST times out. -/
theorem handleSubmit_failure_frame_witness :
    (validateForm ⟨"Ama", "ama@example.com", "", "Hello", "I would like to join."⟩).2 = true ∧
      (settle ⟨⟨"Ama", "ama@example.com", "", "Hello", "I would like to join."⟩,
          [("email", "")], false, none⟩
        (handleSubmit (API_ENDPOINTS "http://localhost:8000")
          (fun _ _ => .rejected (some "ECONNABORTED"))
          ⟨⟨"Ama", "ama@example.com", "", "Hello", "I would like to join."⟩,
            [("email", "")], false, none⟩)).formData =
        ⟨"Ama", "ama@example.com", "", "Hello", "I would like to join."⟩ ∧
      (settle ⟨⟨"Ama", "ama@example.com", "", "Hello", "I would like to join."⟩,
          [("email", "")], false, none⟩
        (handleSubmit (API_ENDPOINTS "http://localhost:8000")
          (fun _ _ => .rejected (some "ECONNABORTED"))
          ⟨⟨"Ama", "ama@example.com", "", "Hello", "I would like to join."⟩,
            [("email", "")], false, none⟩)).formErrors = [] :=
  have h := handleSubmit_failure_frame (API_ENDPOINTS "http://localhost:8000")
    (fun _ _ => .rejected (some "ECONNABORTED"))
    ⟨⟨"Ama", "ama@example.com", "", "Hello", "I would like to join."⟩,
      [("email", "")], false, none⟩ (some "ECONNABORTED") (by decide) rfl
  ⟨by decide, h.1, h.2.1⟩


end BencynSusu
